import Mathlib

/-!
# kreativio / shop 0.4.1 : the dynamic article list-query builder

A shallow embedding of `builder/columns.go`, `builder/builder.go`, the JSON
decoder and the validation functions of `cmd/server/adaptors.go`, the order
pricing and the article steps of `cmd/server/transaction.go` and the write
operations of `cmd/server/shop.go`, followed by theorems about them.

Conventions of the embedding

* Go strings are `String`; `strings.Join` is `Join`; every `fmt.Sprintf` call is
  written out as the concatenation its format string denotes (`%d` is the
  decimal rendering `toString`).
* Go slices are `List`; the nil slice and the empty slice are both `[]`.
* `int`, `int32` and the protobuf enums are `Int` (no arithmetic is performed on
  them by the embedded code).
* `map[int]string` is an association list read with `List.lookup`.
* A Go `error` result is `Option status.Status`, `none` being `nil`; where a
  function can also hand on an error of the storage layer as it got it, the
  error is a `server.goError`.
* The storage is a value of type `server.Store`: the outcome of each query that
  the embedded code runs inside its transaction. Code that writes passes the
  state of its transaction along explicitly: a storage operation of `server.Tx`
  takes the state and returns the state it leaves together with its result.
* A `decimal.Big` is its unscaled value and its scale. The decimal library is
  not part of the sources: its `Mul` and `Add` are the exact result followed by
  the rounding of the zero-value context, to 16 significant digits, half to even.
-/

set_option autoImplicit false
set_option maxRecDepth 100000

/-! ## Go library helpers -/

/-- The function `strings.Join(elems, sep)`. -/
def Join : List String → String → String
  | [], _ => ""
  | [a], _ => a
  | a :: b :: rest, sep => a ++ sep ++ Join (b :: rest) sep

/-! ## gRPC status (google.golang.org/grpc) -/

namespace codes

/-- The gRPC status codes, in the order of `google.golang.org/grpc/codes`. -/
inductive Code where
  | OK | Canceled | Unknown | InvalidArgument | DeadlineExceeded | NotFound
  | AlreadyExists | PermissionDenied | ResourceExhausted | FailedPrecondition
  | Aborted | OutOfRange | Unimplemented | Internal | Unavailable | DataLoss
  | Unauthenticated
  deriving DecidableEq, Repr

end codes

namespace status

/-- A gRPC status error: a code and a message. -/
structure Status where
  code : codes.Code
  message : String
  deriving DecidableEq, Repr

/-- The function `status.Error(c, msg)`. -/
def Error (c : codes.Code) (msg : String) : Status := ⟨c, msg⟩

end status

/-! ## Package shop (generated protobuf messages) -/

namespace shop

/-- Modelled from the spec: the generated protobuf package `shop` is not part of
the sources. Field identifiers are small integers scoped per entity, `ALL` is 0;
the positive values follow the ascending order that `builder_test.go` pins for
the ALL expansion of the article catalog. -/
def ArticleFields_ALL : Int := 0
/-- Modelled from the spec: article field identifier (generated code missing). -/
def ArticleFields_ID : Int := 1
/-- Modelled from the spec: article field identifier (generated code missing). -/
def ArticleFields_CREATED : Int := 2
/-- Modelled from the spec: article field identifier (generated code missing). -/
def ArticleFields_UPDATED : Int := 3
/-- Modelled from the spec: article field identifier (generated code missing). -/
def ArticleFields_PUBLISHED : Int := 4
/-- Modelled from the spec: article field identifier (generated code missing). -/
def ArticleFields_TITLE : Int := 5
/-- Modelled from the spec: article field identifier (generated code missing). -/
def ArticleFields_DESCRIPTION : Int := 6
/-- Modelled from the spec: article field identifier (generated code missing). -/
def ArticleFields_PRICE : Int := 7
/-- Modelled from the spec: article field identifier (generated code missing). -/
def ArticleFields_PROMOTED : Int := 8

/-- Modelled from the spec: media (image / video) field identifiers of the
missing generated package; `MD_ALL` is the ALL sentinel 0. -/
def MediaFields_MD_ALL : Int := 0
/-- Modelled from the spec: media field identifier (generated code missing). -/
def MediaFields_MD_ID : Int := 1
/-- Modelled from the spec: media field identifier (generated code missing). -/
def MediaFields_MD_LABEL : Int := 2
/-- Modelled from the spec: media field identifier (generated code missing). -/
def MediaFields_MD_URL : Int := 3

/-- Modelled from the spec: category field identifiers of the missing generated
package; `CAT_ALL` is the ALL sentinel 0. -/
def CategoryFields_CAT_ALL : Int := 0
/-- Modelled from the spec: category field identifier (generated code missing). -/
def CategoryFields_CAT_ID : Int := 1
/-- Modelled from the spec: category field identifier (generated code missing). -/
def CategoryFields_CAT_CREATED : Int := 2
/-- Modelled from the spec: category field identifier (generated code missing). -/
def CategoryFields_CAT_UPDATED : Int := 3
/-- Modelled from the spec: category field identifier (generated code missing). -/
def CategoryFields_CAT_LABEL : Int := 4

/-- Modelled from the spec: base price field identifiers of the missing
generated package; `BP_ALL` is the ALL sentinel 0. -/
def BasePriceFields_BP_ALL : Int := 0
/-- Modelled from the spec: base price field identifier (generated code missing). -/
def BasePriceFields_BP_ID : Int := 1
/-- Modelled from the spec: base price field identifier (generated code missing). -/
def BasePriceFields_BP_CREATED : Int := 2
/-- Modelled from the spec: base price field identifier (generated code missing). -/
def BasePriceFields_BP_UPDATED : Int := 3
/-- Modelled from the spec: base price field identifier (generated code missing). -/
def BasePriceFields_BP_LABEL : Int := 4
/-- Modelled from the spec: base price field identifier (generated code missing). -/
def BasePriceFields_BP_PRICE : Int := 5

/-- Modelled from the spec: variant field identifiers of the missing generated
package; `VRT_ALL` is the ALL sentinel 0. -/
def VariantFields_VRT_ALL : Int := 0
/-- Modelled from the spec: variant field identifier (generated code missing). -/
def VariantFields_VRT_ID : Int := 1
/-- Modelled from the spec: variant field identifier (generated code missing). -/
def VariantFields_VRT_CREATED : Int := 2
/-- Modelled from the spec: variant field identifier (generated code missing). -/
def VariantFields_VRT_UPDATED : Int := 3
/-- Modelled from the spec: variant field identifier (generated code missing). -/
def VariantFields_VRT_LABELS : Int := 4
/-- Modelled from the spec: variant field identifier (generated code missing). -/
def VariantFields_VRT_MULTIPLIER : Int := 5

/-- Modelled from the spec: the `String()` method of a generated protobuf enum,
which names the identifier: the declared name when there is one, the decimal
number otherwise. -/
def EnumName (names : List (Int × String)) (v : Int) : String :=
  match names.lookup v with
  | some n => n
  | none => toString v

/-- Modelled from the spec: value names of the enum `ArticleFields`. -/
def ArticleFields_name : List (Int × String) :=
  [(0, "ALL"), (1, "ID"), (2, "CREATED"), (3, "UPDATED"), (4, "PUBLISHED"),
   (5, "TITLE"), (6, "DESCRIPTION"), (7, "PRICE"), (8, "PROMOTED")]

/-- Modelled from the spec: value names of the enum `MediaFields`. -/
def MediaFields_name : List (Int × String) :=
  [(0, "MD_ALL"), (1, "MD_ID"), (2, "MD_LABEL"), (3, "MD_URL")]

/-- Modelled from the spec: value names of the enum `CategoryFields`. -/
def CategoryFields_name : List (Int × String) :=
  [(0, "CAT_ALL"), (1, "CAT_ID"), (2, "CAT_CREATED"), (3, "CAT_UPDATED"),
   (4, "CAT_LABEL")]

/-- Modelled from the spec: value names of the enum `BasePriceFields`. -/
def BasePriceFields_name : List (Int × String) :=
  [(0, "BP_ALL"), (1, "BP_ID"), (2, "BP_CREATED"), (3, "BP_UPDATED"),
   (4, "BP_LABEL"), (5, "BP_PRICE")]

/-- Modelled from the spec: value names of the enum `VariantFields`. -/
def VariantFields_name : List (Int × String) :=
  [(0, "VRT_ALL"), (1, "VRT_ID"), (2, "VRT_CREATED"), (3, "VRT_UPDATED"),
   (4, "VRT_LABELS"), (5, "VRT_MULTIPLIER")]

/-- Modelled from the spec: message `Limits` (limit and offset, both int32). -/
structure Limits where
  Limit : Int
  Offset : Int
  deriving DecidableEq, Repr

/-- Modelled from the spec: message `ArticleRelations`, one field list per
relation. -/
structure ArticleRelations where
  Images : List Int
  Videos : List Int
  Categories : List Int
  Baseprices : List Int
  Variants : List Int
  deriving DecidableEq, Repr

/-- Modelled from the spec: message `ListConditions`; the two message-typed
fields are pointers, `none` being the nil pointer. -/
structure ListConditions where
  OnlyCategoryId : Int
  OnlyCategoryLabel : String
  OnlyPublished : Bool
  OnlyPromoted : Bool
  Fields : List Int
  Relations : Option ArticleRelations
  Limits : Option Limits
  deriving DecidableEq, Repr

/-- The nil-safe getter `(*Limits).GetLimit`. -/
def GetLimit : Option Limits → Int
  | some l => l.Limit
  | none => 0

/-- The nil-safe getter `(*Limits).GetOffset`. -/
def GetOffset : Option Limits → Int
  | some l => l.Offset
  | none => 0

end shop

/-! ## Package models (generated table and column names) -/

namespace models

/-- Table names, from `models/boil_table_names.go`. -/
structure TableNamesT where
  ArticleBasePrices : String
  Articles : String
  BasePrices : String
  Categories : String
  CategoryArticles : String
  Images : String
  Messages : String
  OrderArticles : String
  Orders : String
  PaymentStatus : String
  Variants : String
  Videos : String

/-- The value of `models.TableNames`. -/
def TableNames : TableNamesT where
  ArticleBasePrices := "article_base_prices"
  Articles := "articles"
  BasePrices := "base_prices"
  Categories := "categories"
  CategoryArticles := "category_articles"
  Images := "images"
  Messages := "messages"
  OrderArticles := "order_articles"
  Orders := "orders"
  PaymentStatus := "payment_status"
  Variants := "variants"
  Videos := "videos"

/-- Modelled from the spec: column names of the article table (the generated
file is missing; the names are those of the SQL the tests expect). -/
structure ArticleColumnsT where
  ID : String := "id"
  CreatedAt : String := "created_at"
  UpdatedAt : String := "updated_at"
  Published : String := "published"
  Title : String := "title"
  Description : String := "description"
  Price : String := "price"
  Promoted : String := "promoted"

/-- Modelled from the spec: column names of the image and video tables. -/
structure MediaColumnsT where
  ID : String := "id"
  ArticleID : String := "article_id"
  Position : String := "position"
  Label : String := "label"
  URL : String := "url"

/-- Modelled from the spec: column names of the category table. -/
structure CategoryColumnsT where
  ID : String := "id"
  CreatedAt : String := "created_at"
  UpdatedAt : String := "updated_at"
  Label : String := "label"
  Position : String := "position"

/-- Modelled from the spec: column names of the base price table. -/
structure BasePriceColumnsT where
  ID : String := "id"
  CreatedAt : String := "created_at"
  UpdatedAt : String := "updated_at"
  Label : String := "label"
  Price : String := "price"

/-- Modelled from the spec: column names of the variant table. -/
structure VariantColumnsT where
  ID : String := "id"
  CreatedAt : String := "created_at"
  UpdatedAt : String := "updated_at"
  ArticleID : String := "article_id"
  Labels : String := "labels"
  Multiplier : String := "multiplier"

/-- Modelled from the spec: `models.ArticleColumns`. -/
def ArticleColumns : ArticleColumnsT := {}
/-- Modelled from the spec: `models.ImageColumns`. -/
def ImageColumns : MediaColumnsT := {}
/-- Modelled from the spec: `models.VideoColumns`. -/
def VideoColumns : MediaColumnsT := {}
/-- Modelled from the spec: `models.CategoryColumns`. -/
def CategoryColumns : CategoryColumnsT := {}
/-- Modelled from the spec: `models.BasePriceColumns`. -/
def BasePriceColumns : BasePriceColumnsT := {}
/-- Modelled from the spec: `models.VariantColumns`. -/
def VariantColumns : VariantColumnsT := {}

end models

/-! ## builder/columns.go -/

namespace builder

/-- The format string `fieldErr`, applied to the name of the field. -/
def fieldErr (field : String) : String := "Field " ++ field ++ " not defined"

/-- The struct `fieldColumns`: the mapping and its ALL expansion. -/
structure fieldColumns where
  M : List (Int × String)
  all : List String
  deriving DecidableEq, Repr

/-- The loop of `fieldColumns.columns`: `i` is the loop index and `cols` the
slice allocated before the loop. -/
def fieldColumns.columnsLoop (fc : fieldColumns) :
    List Int → Nat → List String → List String × Int
  | [], _, cols => (cols, 0)
  | id :: rest, i, cols =>
    if id = 0 then (fc.all, 0) -- 0 is used for *_ALL
    else
      match fc.M.lookup id with
      | none => ([], id)
      | some col => fieldColumns.columnsLoop fc rest (i + 1) (cols.set i col)

/-- The method `fieldColumns.columns`. -/
def fieldColumns.columns (fc : fieldColumns) (fids : List Int) : List String × Int :=
  fc.columnsLoop fids 0 (List.replicate fids.length "")

/-- The body of the loop of `init`: the keys of the mapping are sorted and the
ALL expansion lists their columns in that order. -/
def init (fc : fieldColumns) : fieldColumns :=
  let s := ((fc.M.map Prod.fst).dedup).insertionSort (fun a b => a ≤ b)
  { fc with all := s.map (fun k => (fc.M.lookup k).getD "") }

/-- The catalog `ArticleFieldColumns`, after `init`. -/
def ArticleFieldColumns : fieldColumns :=
  init {
    M := [(shop.ArticleFields_ID, models.ArticleColumns.ID),
          (shop.ArticleFields_CREATED, models.ArticleColumns.CreatedAt),
          (shop.ArticleFields_UPDATED, models.ArticleColumns.UpdatedAt),
          (shop.ArticleFields_PUBLISHED, models.ArticleColumns.Published),
          (shop.ArticleFields_TITLE, models.ArticleColumns.Title),
          (shop.ArticleFields_DESCRIPTION, models.ArticleColumns.Description),
          (shop.ArticleFields_PRICE, models.ArticleColumns.Price),
          (shop.ArticleFields_PROMOTED, models.ArticleColumns.Promoted)]
    all := [] }

/-- The catalog `ImageFieldColumns`, after `init`. -/
def ImageFieldColumns : fieldColumns :=
  init {
    M := [(shop.MediaFields_MD_ID, models.ImageColumns.ID),
          (shop.MediaFields_MD_LABEL, models.ImageColumns.Label),
          (shop.MediaFields_MD_URL, models.ImageColumns.URL)]
    all := [] }

/-- The catalog `VideoFieldColumns`, after `init`. -/
def VideoFieldColumns : fieldColumns :=
  init {
    M := [(shop.MediaFields_MD_ID, models.VideoColumns.ID),
          (shop.MediaFields_MD_LABEL, models.VideoColumns.Label),
          (shop.MediaFields_MD_URL, models.VideoColumns.URL)]
    all := [] }

/-- The catalog `CategoryFieldColumns`, after `init`. -/
def CategoryFieldColumns : fieldColumns :=
  init {
    M := [(shop.CategoryFields_CAT_ID, models.CategoryColumns.ID),
          (shop.CategoryFields_CAT_CREATED, models.CategoryColumns.CreatedAt),
          (shop.CategoryFields_CAT_UPDATED, models.CategoryColumns.UpdatedAt),
          (shop.CategoryFields_CAT_LABEL, models.CategoryColumns.Label)]
    all := [] }

/-- The catalog `BasePriceFieldColumns`, after `init`. -/
def BasePriceFieldColumns : fieldColumns :=
  init {
    M := [(shop.BasePriceFields_BP_ID, models.BasePriceColumns.ID),
          (shop.BasePriceFields_BP_CREATED, models.BasePriceColumns.CreatedAt),
          (shop.BasePriceFields_BP_UPDATED, models.BasePriceColumns.UpdatedAt),
          (shop.BasePriceFields_BP_LABEL, models.BasePriceColumns.Label),
          (shop.BasePriceFields_BP_PRICE, models.BasePriceColumns.Price)]
    all := [] }

/-- The catalog `VariantFieldColumns`, after `init`. -/
def VariantFieldColumns : fieldColumns :=
  init {
    M := [(shop.VariantFields_VRT_ID, models.VariantColumns.ID),
          (shop.VariantFields_VRT_CREATED, models.VariantColumns.CreatedAt),
          (shop.VariantFields_VRT_UPDATED, models.VariantColumns.UpdatedAt),
          (shop.VariantFields_VRT_LABELS, models.VariantColumns.Labels),
          (shop.VariantFields_VRT_MULTIPLIER, models.VariantColumns.Multiplier)]
    all := [] }

/-- The common body of the six public wrappers: convert the fields to `int`,
resolve them against the catalog and turn a failing identifier into the
Unimplemented error naming it. -/
def wrapColumns (fc : fieldColumns) (names : List (Int × String)) (fields : List Int) :
    List String × Option status.Status :=
  let fids := fields.map (fun f => f)
  let r := fc.columns fids
  if r.2 ≠ 0 then
    ([], some (status.Error codes.Code.Unimplemented (fieldErr (shop.EnumName names r.2))))
  else
    (r.1, none)

/-- The function `ArticleColumns`. -/
def ArticleColumns (fields : List Int) : List String × Option status.Status :=
  wrapColumns ArticleFieldColumns shop.ArticleFields_name fields

/-- The function `ImageColumns`. -/
def ImageColumns (fields : List Int) : List String × Option status.Status :=
  wrapColumns ImageFieldColumns shop.MediaFields_name fields

/-- The function `VideoColumns`. -/
def VideoColumns (fields : List Int) : List String × Option status.Status :=
  wrapColumns VideoFieldColumns shop.MediaFields_name fields

/-- The function `CategoryColumns`. -/
def CategoryColumns (fields : List Int) : List String × Option status.Status :=
  wrapColumns CategoryFieldColumns shop.CategoryFields_name fields

/-- The function `BasePriceColumns`. -/
def BasePriceColumns (fields : List Int) : List String × Option status.Status :=
  wrapColumns BasePriceFieldColumns shop.BasePriceFields_name fields

/-- The function `VariantColumns`. -/
def VariantColumns (fields : List Int) : List String × Option status.Status :=
  wrapColumns VariantFieldColumns shop.VariantFields_name fields

end builder

/-! ## builder/builder.go -/

namespace builder

/-- The format string `listQuery`, applied to its three arguments. -/
def listQuery (ctes jbo joins : String) : String :=
  "with " ++ ctes ++ "\nselect json_agg(\n\tjson_build_object(\n\t\t" ++ jbo ++
    "\n\t)\n)\nfrom arts a\n" ++ joins ++ ";"

/-- The format string `mainCTE`, applied to its five arguments. -/
def mainCTE (schema name filters sel limits : String) : String :=
  "filters as (\n\tselect m.id\n\tfrom " ++ schema ++ "." ++ name ++ " m\n\t" ++ filters ++
    "\n),\narts as (\n\tselect " ++ sel ++
    "\n\tfrom filters f\n\tjoin shop.articles a on a.id = f.id\n\t" ++ limits ++ "\n)"

/-- The format string `relationCTE`, applied to its three arguments. -/
def relationCTE (aliasName jbo joins : String) : String :=
  aliasName ++ " as (\n\tselect arts.id, coalesce(json_agg(\n\t\tjson_build_object(\n\t\t\t" ++ jbo ++
    "\n\t\t)\n\t) filter (where r.id is not null), null::JSON) as js\n\tfrom arts\n\t" ++
    joins ++ "\n\tgroup by arts.id\n)"

/-- The function `leftJoin` (format string `relationJoin`). -/
def leftJoin (schema table aliasName column la lc : String) : String :=
  "left join " ++ schema ++ "." ++ table ++ " " ++ aliasName ++ " on " ++ aliasName ++ "." ++ column ++
    " = " ++ la ++ "." ++ lc

/-- The struct `relation`. -/
structure relation where
  name : String
  columns : List String
  id : String
  joinTable : String := ""
  joinIDs : String × String := ("", "")
  deriving DecidableEq, Repr

/-- The method `relation.joins`. -/
def relation.joins (r : relation) (schema : String) : String :=
  if r.joinTable = "" then
    leftJoin schema r.name "r" r.id "arts" "id"
  else
    Join [leftJoin schema r.joinTable "j" r.joinIDs.1 "arts" "id",
          leftJoin schema r.name "r" r.id "j" r.joinIDs.2] "\n\t"

/-- The function `jboCast`. -/
def jboCast (aliasName col : String) : String :=
  if col = "price" ∨ col = "multiplier" then
    aliasName ++ "." ++ col ++ "::text"
  else
    aliasName ++ "." ++ col

/-- The method `relation.build`. -/
def relation.build (r : relation) (schema aliasName : String) : String × List String :=
  let jbo := r.columns.foldl (fun jbo c => jbo ++ ["'" ++ c ++ "'", jboCast "r" c]) []
  (relationCTE aliasName (Join jbo ", ") (r.joins schema),
   ["'" ++ r.name ++ "'", aliasName ++ ".js"])

/-- The struct `list`. -/
structure list where
  name : String
  columns : List String
  relations : List relation
  limit : Int
  offset : Int
  deriving DecidableEq, Repr

/-- The local variables of `list.query` that make up the statement. -/
structure queryVars where
  sel : List String
  jbo : List String
  limits : String
  ctes : List String
  joins : List String
  deriving DecidableEq, Repr

/-- The first loop of `list.query`, over the article columns: one step. -/
def list.columnsStep (sj : List String × List String) (col : String) :
    List String × List String :=
  (if col ≠ "id" then sj.1 ++ ["a." ++ col] else sj.1,
   sj.2 ++ ["'" ++ col ++ "'", jboCast "a" col])

/-- The second loop of `list.query`, over the relations; `i` is the loop index
and the state is `(ctes, jbo, joins)`. -/
def list.relationsLoop (schema : String) :
    List relation → Nat → List String × List String × List String →
      List String × List String × List String
  | [], _, st => st
  | r :: rest, i, (ctes, jbo, joins) =>
    let aliasName := "r" ++ toString i
    let b := r.build schema aliasName
    list.relationsLoop schema rest (i + 1)
      (ctes ++ [b.1], jbo ++ b.2,
       joins.set i ("join " ++ aliasName ++ " on a.id = " ++ aliasName ++ ".id"))

/-- The values of the local variables of `list.query` at its return statement. -/
def list.vars (l : list) (schema filters : String) : queryVars :=
  let sj := l.columns.foldl list.columnsStep (["a.id"], []) -- id is always required
  let limits :=
    if l.limit ≠ 0 then "limit " ++ toString l.limit ++ "\n\toffset " ++ toString l.offset
    else ""
  let ctes := [mainCTE schema l.name filters (Join sj.1 ", ") limits]
  let st := list.relationsLoop schema l.relations 0
    (ctes, sj.2, List.replicate l.relations.length "")
  { sel := sj.1, jbo := st.2.1, limits := limits, ctes := st.1, joins := st.2.2 }

/-- The method `list.query`. -/
def list.query (l : list) (schema filters : String) : String :=
  let v := l.vars schema filters
  listQuery (Join v.ctes ",\n") (Join v.jbo ", ") (Join v.joins "\n")

/-- The global `DefaultLimit` as initialised in the source. -/
def DefaultLimit : Int := 25

/-- The results of `defaults`, and the conditions as `defaults` leaves them (it
writes the default limit into a limits object that has limit 0). -/
structure defaultsResult where
  fields : List Int
  relations : shop.ArticleRelations
  limits : shop.Limits
  cond : shop.ListConditions
  deriving DecidableEq, Repr

/-- The function `defaults`; the global `DefaultLimit` is the first argument.
A nil `cond` behaves like the zero value through the nil-safe getters. -/
def defaults (DefaultLimit : Int) (cond : shop.ListConditions) : defaultsResult :=
  let fields :=
    if cond.Fields.length = 0 then
      [shop.ArticleFields_ID, shop.ArticleFields_TITLE, shop.ArticleFields_PRICE,
       shop.ArticleFields_PROMOTED]
    else cond.Fields
  let relations : shop.ArticleRelations :=
    match cond.Relations with
    | none =>
      { Images := [shop.MediaFields_MD_URL, shop.MediaFields_MD_LABEL], Videos := [],
        Categories := [], Baseprices := [], Variants := [] }
    | some r => r
  match cond.Limits with
  | none =>
    { fields := fields, relations := relations,
      limits := { Limit := DefaultLimit, Offset := 0 }, cond := cond }
  | some l =>
    if l.Limit = 0 then
      let l1 : shop.Limits := { l with Limit := DefaultLimit }
      { fields := fields, relations := relations, limits := l1,
        cond := { cond with Limits := some l1 } }
    else
      { fields := fields, relations := relations, limits := l, cond := cond }

/-- The format string `joinArticlesCategory`. -/
def joinArticlesCategory (schema : String) : String :=
  "join " ++ schema ++ ".category_articles ac on ac.article_id = m.id"

/-- The format string `joinCategories`. -/
def joinCategories (schema : String) : String :=
  "join " ++ schema ++ ".categories c on c.id = ac.category_id"

/-- An element of the positional argument list (`interface{}`): the builder
puts an `int32` category id or a `string` category label there. -/
inductive Arg where
  | int32 (v : Int)
  | string (s : String)
  deriving DecidableEq, Repr

/-- The local variables `joins`, `wheres` and `args` of `filters` before its
final test. -/
def filtersVars (cond : shop.ListConditions) (schema : String) :
    List String × List String × List Arg :=
  let joins : List String := []
  let wheres : List String := []
  let args : List Arg := []
  let wheres := if cond.OnlyPublished then wheres ++ ["m.published"] else wheres
  let wheres := if cond.OnlyPromoted then wheres ++ ["m.promoted"] else wheres
  if cond.OnlyCategoryId ≠ 0 then
    let args := args ++ [Arg.int32 cond.OnlyCategoryId]
    let joins := joins ++ [joinArticlesCategory schema]
    let wheres := wheres ++ ["ac.category_id = $" ++ toString args.length]
    (joins, wheres, args)
  else if cond.OnlyCategoryLabel ≠ "" then
    let args := args ++ [Arg.string cond.OnlyCategoryLabel]
    let joins := joins ++ [joinArticlesCategory schema]
    let joins := joins ++ [joinCategories schema]
    let wheres := wheres ++ ["c.label = $" ++ toString args.length]
    (joins, wheres, args)
  else
    (joins, wheres, args)

/-- The function `filters`. -/
def filters (cond : shop.ListConditions) (schema : String) : String × List Arg :=
  let v := filtersVars cond schema
  if v.2.1.length = 0 then
    ("", [])
  else
    (Join [Join v.1 "\n\t", "where " ++ Join v.2.1 "\n\tand "] "\n\t", v.2.2)

/-- The function `articleRelations`. -/
def articleRelations (rel : shop.ArticleRelations) : List relation × Option status.Status :=
  let br : List relation := []
  let r0 := ImageColumns rel.Images
  let br :=
    if r0.1.length > 0 then
      br ++ [{ name := models.TableNames.Images, columns := r0.1,
               id := models.ImageColumns.ArticleID }]
    else br
  let r1 := VideoColumns rel.Videos
  let br :=
    if r1.1.length > 0 then
      br ++ [{ name := models.TableNames.Videos, columns := r1.1,
               id := models.VideoColumns.ArticleID }]
    else br
  let r2 := CategoryColumns rel.Categories
  let br :=
    if r2.1.length > 0 then
      br ++ [{ name := models.TableNames.Categories, columns := r2.1,
               id := models.CategoryColumns.ID,
               joinTable := models.TableNames.CategoryArticles,
               joinIDs := ("article_id", "category_id") }]
    else br
  let r3 := BasePriceColumns rel.Baseprices
  let br :=
    if r3.1.length > 0 then
      br ++ [{ name := models.TableNames.BasePrices, columns := r3.1,
               id := models.BasePriceColumns.ID,
               joinTable := models.TableNames.ArticleBasePrices,
               joinIDs := ("article_id", "base_price_id") }]
    else br
  let r4 := VariantColumns rel.Variants
  let br :=
    if r4.1.length > 0 then
      br ++ [{ name := models.TableNames.Variants, columns := r4.1,
               id := models.VariantColumns.ArticleID }]
    else br
  match [r0.2, r1.2, r2.2, r3.2, r4.2].find? Option.isSome with
  | some err => ([], err)
  | none => (br, none)

/-- The result of `ArticleListQuery`, and the conditions as the call leaves
them. -/
structure queryResult where
  query : String
  args : List Arg
  err : Option status.Status
  cond : shop.ListConditions
  deriving DecidableEq, Repr

/-- The function `ArticleListQuery`; the global `DefaultLimit` is the first
argument. Printing the query under `Debug` does not change the result. -/
def ArticleListQuery (DefaultLimit : Int) (cond : shop.ListConditions) (schema : String) :
    queryResult :=
  let d := defaults DefaultLimit cond
  let c := ArticleColumns d.fields
  match c.2 with
  | some err => { query := "", args := [], err := some err, cond := d.cond }
  | none =>
    let rs := articleRelations d.relations
    match rs.2 with
    | some err => { query := "", args := [], err := some err, cond := d.cond }
    | none =>
      let lq : list :=
        { name := models.TableNames.Articles, columns := c.1, relations := rs.1,
          limit := shop.GetLimit (some d.limits), offset := shop.GetOffset (some d.limits) }
      let f := filters d.cond schema
      { query := lq.query schema f.1, args := f.2, err := none, cond := d.cond }

end builder

/-! ## The JSON values read by the decoder (github.com/valyala/fastjson) -/

namespace fj

/-- A parsed JSON value. A number is represented by the integer that `GetInt`
reads from it; an object keeps its members in document order. -/
inductive Value where
  | TypeNull
  | TypeTrue
  | TypeFalse
  | TypeNumber (n : Int)
  | TypeString (s : String)
  | TypeArray (a : List Value)
  | TypeObject (kvs : List (String × Value))

/-- The method `Value.Get(key)`: the first member of an object with that key. -/
def Value.Get : Value → String → Option Value
  | Value.TypeObject kvs, key => kvs.lookup key
  | _, _ => none

/-- The method `Value.GetInt(key)`: 0 unless the member is a number. -/
def Value.GetInt (v : Value) (key : String) : Int :=
  match v.Get key with
  | some (Value.TypeNumber n) => n
  | _ => 0

/-- The method `Value.GetInt64(key)`: 0 unless the member is a number. -/
def Value.GetInt64 (v : Value) (key : String) : Int :=
  match v.Get key with
  | some (Value.TypeNumber n) => n
  | _ => 0

/-- The method `Value.GetBool(key)`: false unless the member is `true`. -/
def Value.GetBool (v : Value) (key : String) : Bool :=
  match v.Get key with
  | some Value.TypeTrue => true
  | _ => false

/-- The method `Value.GetStringBytes(key)`: nil (here the empty string) unless the member
is a string. -/
def Value.GetStringBytes (v : Value) (key : String) : String :=
  match v.Get key with
  | some (Value.TypeString s) => s
  | _ => ""

/-- The method `Value.GetArray(key)`: nil unless the member is an array. -/
def Value.GetArray (v : Value) (key : String) : List Value :=
  match v.Get key with
  | some (Value.TypeArray a) => a
  | _ => []

end fj

/-! ## The decoded messages (package shop) -/

namespace shop

/-- Modelled from the spec: `timestamp.Timestamp`, seconds and nanoseconds. -/
structure Timestamp where
  Seconds : Int
  Nanos : Int
  deriving DecidableEq, Repr

/-- Modelled from the spec: message `Media`, the fields the decoder fills. -/
structure Media where
  Id : Int
  Label : String
  Url : String
  deriving DecidableEq, Repr

/-- Modelled from the spec: message `Category`. -/
structure Category where
  Id : Int
  Created : Option Timestamp := none
  Updated : Option Timestamp := none
  Label : String
  deriving DecidableEq, Repr

/-- Modelled from the spec: message `BasePrice`. -/
structure BasePrice where
  Id : Int
  Created : Option Timestamp := none
  Updated : Option Timestamp := none
  Label : String
  Price : String
  Token : String := ""
  deriving DecidableEq, Repr

/-- Modelled from the spec: message `Variant`. -/
structure Variant where
  Id : Int
  Created : Option Timestamp := none
  Updated : Option Timestamp := none
  Labels : List String
  Multiplier : String
  deriving DecidableEq, Repr

/-- Modelled from the spec: message `Article`. -/
structure Article where
  Id : Int
  Created : Option Timestamp
  Updated : Option Timestamp
  Published : Bool
  Title : String
  Description : String
  Price : String
  Promoted : Bool
  Images : List Media
  Videos : List Media
  Categories : List Category
  Baseprices : List BasePrice
  Variants : List Variant
  Token : String := ""
  deriving DecidableEq, Repr

end shop

/-! ## Instants (package time) -/

namespace time

/-- An instant of type `time.Time`, given by what `t.Unix()` and
`t.Nanosecond()` return for it. -/
structure Time where
  Unix : Int
  Nanosecond : Int
  deriving DecidableEq, Repr

/-- The zero value `time.Time{}`: January 1 of year 1, 00:00:00 UTC. -/
def Time.zero : Time := ⟨-62135596800, 0⟩

/-- The method `t.IsZero()`. -/
def Time.IsZero (t : Time) : Bool := decide (t = Time.zero)

end time

/-! ## cmd/server/adaptors.go : the row-to-document decoder -/

namespace server

/-- The Go conversion `int32(n)` of an `int`. -/
def toInt32 (n : Int) : Int := (n + 2147483648) % 4294967296 - 2147483648

/-- The two library functions that the time conversions call:
`time.Parse(time.RFC3339, s)` and `ptypes.TimestampProto(t)`, each returning its
value or the text of its error. -/
structure timeLib where
  Parse : String → Except String time.Time
  TimestampProto : time.Time → Except String shop.Timestamp

/-- The function `timeModelToMsg`. -/
def timeModelToMsg (tl : timeLib) (created updated : time.Time) :
    Except status.Status (Option shop.Timestamp × Option shop.Timestamp) :=
  let c : Except String (Option shop.Timestamp) :=
    if !created.IsZero then
      match tl.TimestampProto created with
      | Except.ok ts => Except.ok (some ts)
      | Except.error e => Except.error e
    else Except.ok none
  match c with
  | Except.error e => Except.error (status.Error codes.Code.OutOfRange e)
  | Except.ok c =>
    let u : Except String (Option shop.Timestamp) :=
      if !updated.IsZero then
        match tl.TimestampProto updated with
        | Except.ok ts => Except.ok (some ts)
        | Except.error e => Except.error e
      else Except.ok none
    match u with
    | Except.error e => Except.error (status.Error codes.Code.OutOfRange e)
    | Except.ok u => Except.ok (c, u)

/-- The function `timeBytesToMsg`. -/
def timeBytesToMsg (tl : timeLib) (ca ua : String) :
    Except status.Status (Option shop.Timestamp × Option shop.Timestamp) :=
  let ct : Except String time.Time :=
    if ca.length ≠ 0 then tl.Parse ca else Except.ok time.Time.zero
  match ct with
  | Except.error e => Except.error (status.Error codes.Code.OutOfRange e)
  | Except.ok ct =>
    let ut : Except String time.Time :=
      if ua.length ≠ 0 then tl.Parse ua else Except.ok time.Time.zero
    match ut with
    | Except.error e => Except.error (status.Error codes.Code.OutOfRange e)
    | Except.ok ut => timeModelToMsg tl ct ut

/-- The function `mediaValuesToMsg`. -/
def mediaValuesToMsg (mds : List fj.Value) : List shop.Media :=
  mds.map (fun m =>
    { Id := toInt32 (m.GetInt "id"), Label := m.GetStringBytes "label",
      Url := m.GetStringBytes "url" })

/-- The function `categoryValuesToMsg`. -/
def categoryValuesToMsg (cvs : List fj.Value) : List shop.Category :=
  cvs.map (fun c => { Id := toInt32 (c.GetInt "id"), Label := c.GetStringBytes "label" })

/-- The function `basePriceValuesToMsg`. -/
def basePriceValuesToMsg (bpv : List fj.Value) : List shop.BasePrice :=
  bpv.map (fun b =>
    { Id := toInt32 (b.GetInt "id"), Label := b.GetStringBytes "label",
      Price := b.GetStringBytes "price" })

/-- The text that `strconv.Unquote(l.String())` yields for an element of a
labels array: the string itself for a JSON string, the empty string (the
ignored error case) for any other value. -/
def unquoteLabel : fj.Value → String
  | fj.Value.TypeString s => s
  | _ => ""

/-- The function `variantValuesToMsg`. -/
def variantValuesToMsg (vts : List fj.Value) : List shop.Variant :=
  vts.map (fun v =>
    { Id := v.GetInt64 "id", Multiplier := v.GetStringBytes "multiplier",
      Labels := (v.GetArray "labels").map unquoteLabel })

/-- The function `articleValueToMsg`. -/
def articleValueToMsg (tl : timeLib) (art : fj.Value) : Except status.Status shop.Article :=
  match timeBytesToMsg tl (art.GetStringBytes "created_at")
      (art.GetStringBytes "updated_at") with
  | Except.error e => Except.error e
  | Except.ok cu =>
    Except.ok
      { Id := toInt32 (art.GetInt "id"),
        Created := cu.1,
        Updated := cu.2,
        Published := art.GetBool "published",
        Title := art.GetStringBytes "title",
        Description := art.GetStringBytes "description",
        Price := art.GetStringBytes "price",
        Promoted := art.GetBool "promoted",
        Images := mediaValuesToMsg (art.GetArray "images"),
        Videos := mediaValuesToMsg (art.GetArray "videos"),
        Categories := categoryValuesToMsg (art.GetArray "categories"),
        Baseprices := basePriceValuesToMsg (art.GetArray "baseprices"),
        Variants := variantValuesToMsg (art.GetArray "variants") }

end server

/-! ## Test fixtures -/

namespace builder

/-- The catalog of `Test_fieldColumns_columns`. -/
def tfc : fieldColumns :=
  { M := [(1, "one"), (2, "two"), (3, "three")], all := ["one", "two", "three"] }

end builder


/-! ## Notions used to state the properties -/

namespace builder

/-- The keys of the argument list of a `json_build_object` call, which
alternates keys and values: the elements at the even positions. -/
def jboKeys : List String → List String
  | k :: _ :: rest => k :: jboKeys rest
  | _ => []

/-- The values of the argument list of a `json_build_object` call: the elements
at the odd positions. -/
def jboValues : List String → List String
  | _ :: v :: rest => v :: jboValues rest
  | _ => []

end builder

namespace builder

/-- A list query whose article columns are requested as title, id (the fields
`[TITLE, ID]` of a `ListConditions`). -/
def listTitleId : list :=
  { name := "articles", columns := ["title", "id"], relations := [], limit := 0, offset := 0 }

/-- A list query that requests the title only. -/
def listTitle : list :=
  { name := "articles", columns := ["title"], relations := [], limit := 0, offset := 0 }

/-- The list query "All arts with variants" of `TestList_query`. -/
def listVariants : list :=
  { name := "articles", columns := ["id", "title", "price"],
    relations := [{ name := "variants", columns := ["labels", "multiplier"], id := "article_id" }],
    limit := 100, offset := 200 }

/-- The list query "All arts with images and categories" of `TestList_query`. -/
def listImagesCategories : list :=
  { name := "articles", columns := ["id", "title", "price"],
    relations :=
      [{ name := "images", columns := ["url", "label"], id := "article_id" },
       { name := "categories", columns := ["id", "label"], id := "id",
         joinTable := "category_articles", joinIDs := ("article_id", "category_id") }],
    limit := 25, offset := 0 }

end builder

namespace builder

/-- A named subquery of a `with` clause: `<name> as (<body>)`. -/
def namedSubquery (name body : String) : String := name ++ " as (" ++ body ++ ")"

/-- The text between the parentheses of the `filters` subquery of `mainCTE`. -/
def filtersBody (schema name filters : String) : String :=
  "\n\tselect m.id\n\tfrom " ++ schema ++ "." ++ name ++ " m\n\t" ++ filters ++ "\n"

/-- The text between the parentheses of the `arts` subquery of `mainCTE`. -/
def artsBody (sel limits : String) : String :=
  "\n\tselect " ++ sel ++ "\n\tfrom filters f\n\tjoin shop.articles a on a.id = f.id\n\t" ++
    limits ++ "\n"

/-- The text between the parentheses of a subquery made by `relationCTE`. -/
def relationBody (jbo joins : String) : String :=
  "\n\tselect arts.id, coalesce(json_agg(\n\t\tjson_build_object(\n\t\t\t" ++ jbo ++
    "\n\t\t)\n\t) filter (where r.id is not null), null::JSON) as js\n\tfrom arts\n\t" ++
    joins ++ "\n\tgroup by arts.id\n"

end builder

namespace builder

/-- The predicates of the WHERE clause as the specification lists them: the
published flag, the promoted flag, then the category predicate (by id when the
id is non-zero, otherwise by label when the label is non-empty). -/
def wherePredicates (cond : shop.ListConditions) : List String :=
  (if cond.OnlyPublished then ["m.published"] else []) ++
  (if cond.OnlyPromoted then ["m.promoted"] else []) ++
  (if cond.OnlyCategoryId ≠ 0 then ["ac.category_id = $1"]
   else if cond.OnlyCategoryLabel ≠ "" then ["c.label = $1"] else [])

/-- The join path of the category filter as the specification describes it: one
join on the membership table for a category id, that join followed by the join
on the category table for a category label, nothing without category filter. -/
def categoryJoinPath (cond : shop.ListConditions) (schema : String) : String :=
  if cond.OnlyCategoryId ≠ 0 then
    "join " ++ schema ++ ".category_articles ac on ac.article_id = m.id"
  else if cond.OnlyCategoryLabel ≠ "" then
    "join " ++ schema ++ ".category_articles ac on ac.article_id = m.id" ++ "\n\t" ++
      ("join " ++ schema ++ ".categories c on c.id = ac.category_id")
  else ""

/-- The positional arguments as the specification describes them: the category
value of the category predicate, if there is one. -/
def categoryArgs (cond : shop.ListConditions) : List Arg :=
  if cond.OnlyCategoryId ≠ 0 then [Arg.int32 cond.OnlyCategoryId]
  else if cond.OnlyCategoryLabel ≠ "" then [Arg.string cond.OnlyCategoryLabel]
  else []

/-- The number of positional placeholders `$n` in a piece of SQL. -/
def placeholders (s : String) : Nat := s.data.count '$'

/-- Whitespace in the generated SQL. -/
def isSpace (c : Char) : Bool := c == ' ' || c == '\n' || c == '\t' || c == '\r'

/-- The loop of `Fields`: `cur` is the word being read. -/
def fieldsLoop : List Char → List Char → List String
  | [], cur => if cur.isEmpty then [] else [String.mk cur]
  | c :: cs, cur =>
    if isSpace c then
      if cur.isEmpty then fieldsLoop cs [] else String.mk cur :: fieldsLoop cs []
    else fieldsLoop cs (cur ++ [c])

/-- The words of a piece of SQL: its maximal pieces without whitespace (what
`strings.Fields` returns). -/
def Fields (s : String) : List String := fieldsLoop s.data []

/-- The conditions of the test "Published articles in category with images":
only published, category label "spanac". -/
def condSpanac : shop.ListConditions :=
  { OnlyCategoryId := 0, OnlyCategoryLabel := "spanac", OnlyPublished := true,
    OnlyPromoted := false, Fields := [], Relations := none, Limits := none }

end builder

namespace builder

/-- Conditions that request the article id and the base prices relation with
label and price. -/
def condBasePrices : shop.ListConditions :=
  { OnlyCategoryId := 0, OnlyCategoryLabel := "", OnlyPublished := false,
    OnlyPromoted := false, Fields := [shop.ArticleFields_ID],
    Relations := some { Images := [], Videos := [], Categories := [],
                        Baseprices := [shop.BasePriceFields_BP_LABEL, shop.BasePriceFields_BP_PRICE],
                        Variants := [] },
    Limits := none }

/-- The conditions of the test "All articles, all relations and all fields". -/
def condAll : shop.ListConditions :=
  { OnlyCategoryId := 0, OnlyCategoryLabel := "", OnlyPublished := false,
    OnlyPromoted := false, Fields := [shop.ArticleFields_ALL],
    Relations := some { Images := [shop.MediaFields_MD_ALL], Videos := [shop.MediaFields_MD_ALL],
                        Categories := [shop.CategoryFields_CAT_ALL],
                        Baseprices := [shop.BasePriceFields_BP_ALL],
                        Variants := [shop.VariantFields_VRT_ALL] },
    Limits := none }

/-- The list query that `ArticleListQuery` builds for `condAll`. -/
def listAll : list :=
  { name := models.TableNames.Articles,
    columns := (ArticleColumns (defaults DefaultLimit condAll).fields).1,
    relations := (articleRelations (defaults DefaultLimit condAll).relations).1,
    limit := 25, offset := 0 }

/-- The empty conditions of the test "Defaults". -/
def condEmpty : shop.ListConditions :=
  { OnlyCategoryId := 0, OnlyCategoryLabel := "", OnlyPublished := false,
    OnlyPromoted := false, Fields := [], Relations := none, Limits := none }

end builder

namespace server

/-- The row that the statement built for `condBasePrices` yields for article 1
with one base price "gold" at 10.50: the base prices are under the key the
builder emits, `base_prices`. -/
def rowBasePrices : fj.Value :=
  fj.Value.TypeObject
    [("id", fj.Value.TypeNumber 1),
     ("base_prices", fj.Value.TypeArray
        [fj.Value.TypeObject
          [("label", fj.Value.TypeString "gold"), ("price", fj.Value.TypeString "10.50")]])]

/-- The same row with the base prices under the key `baseprices`. -/
def rowBaseprices : fj.Value :=
  fj.Value.TypeObject
    [("id", fj.Value.TypeNumber 1),
     ("baseprices", fj.Value.TypeArray
        [fj.Value.TypeObject
          [("label", fj.Value.TypeString "gold"), ("price", fj.Value.TypeString "10.50")]])]

end server

/-! ## Decimal numbers (github.com/ericlagergren/decimal) -/

namespace decimal

/-- A finite decimal number of the library (which is not part of the sources):
the value `unscaled * 10 ^ (-scale)`, as `decimal.New(unscaled, scale)` makes
it. -/
structure Big where
  unscaled : Int
  scale : Int
  deriving DecidableEq, Repr

/-- The function `decimal.New(value, scale)`. -/
def New (value scale : Int) : Big := ⟨value, scale⟩

/-- The zero value `new(decimal.Big)`. -/
def zero : Big := ⟨0, 0⟩

/-- The constant `DefaultPrecision` of the library: the number of significant
digits that an operation on a `Big` with the zero-value context keeps. -/
def DefaultPrecision : Nat := 16

/-- The rounding that ends every arithmetic operation on a `Big` with the
zero-value context: a number of more than `DefaultPrecision` significant
digits is rounded to that many digits, to the nearest and in a tie to the even
neighbour, and its scale is lowered by the number of digits dropped; a carry
out of the leading digit drops one digit more. -/
def Big.round (x : Big) : Big :=
  let n := x.unscaled.natAbs
  if n < 10 ^ DefaultPrecision then x
  else
    let shift := (toString n).length - DefaultPrecision
    let q := n / 10 ^ shift
    let r := n % 10 ^ shift
    let q := if 10 ^ shift < 2 * r ∨ (2 * r = 10 ^ shift ∧ q % 2 = 1) then q + 1 else q
    if q = 10 ^ DefaultPrecision then
      ⟨if x.unscaled < 0 then -((10 ^ (DefaultPrecision - 1) : Nat) : Int)
        else ((10 ^ (DefaultPrecision - 1) : Nat) : Int), x.scale - (shift + 1)⟩
    else ⟨if x.unscaled < 0 then -(q : Int) else (q : Int), x.scale - shift⟩

/-- The product of two decimals before it is rounded: the product of the
unscaled values at the sum of the scales. -/
def exactMul (x y : Big) : Big := ⟨x.unscaled * y.unscaled, x.scale + y.scale⟩

/-- The sum of two decimals before it is rounded: the sum at the larger of the
two scales. -/
def exactAdd (x y : Big) : Big :=
  if y.scale ≤ x.scale then
    ⟨x.unscaled + y.unscaled * 10 ^ (x.scale - y.scale).toNat, x.scale⟩
  else
    ⟨x.unscaled * 10 ^ (y.scale - x.scale).toNat + y.unscaled, y.scale⟩

/-- The method `z.Mul(x, y)` on a `z` with the zero-value context, as
`new(decimal.Big).Mul(x, y)` calls it: the product, rounded to
`DefaultPrecision` significant digits. -/
def Mul (x y : Big) : Big := (exactMul x y).round

/-- The method `z.Add(x, y)` on a `z` with the zero-value context: the sum,
rounded to `DefaultPrecision` significant digits. -/
def Add (x y : Big) : Big := (exactAdd x y).round

/-- A decimal has at most `DefaultPrecision` significant digits, so that
rounding leaves it as it is. -/
def Big.fits (x : Big) : Bool := decide (x.unscaled.natAbs < 10 ^ DefaultPrecision)

/-- The text of a number in plain notation: `digits` with a decimal point
before its last `scale` characters, padded with zeros as needed. -/
def plainText (digits : String) (scale : Nat) : String :=
  if scale = 0 then digits
  else if scale < digits.length then
    String.mk (digits.data.take (digits.length - scale)) ++ "." ++
      String.mk (digits.data.drop (digits.length - scale))
  else
    "0." ++ String.mk (List.replicate (scale - digits.length) '0') ++ digits

/-- The text of a number in scientific notation with the given adjusted
exponent. -/
def scientificText (digits : String) (adjusted : Int) : String :=
  String.mk (digits.data.take 1) ++
    (if 1 < digits.length then "." ++ String.mk (digits.data.drop 1) else "") ++
    "E" ++ (if adjusted < 0 then "-" else "+") ++ toString adjusted.natAbs

/-- The method `x.String()`, the text of a decimal: plain notation when the
scale is not negative and the adjusted exponent is at least -6, scientific
notation otherwise. -/
def Big.String (x : Big) : String :=
  let digits := toString x.unscaled.natAbs
  let adjusted : Int := -x.scale + ((digits.length : Int) - 1)
  (if x.unscaled < 0 then "-" else "") ++
    (if 0 ≤ x.scale ∧ -6 ≤ adjusted then plainText digits x.scale.toNat
     else scientificText digits adjusted)

/-- The rational value of a decimal. -/
def Big.toRat (x : Big) : ℚ := (x.unscaled : ℚ) * (10 : ℚ) ^ (-x.scale)

end decimal

/-! ## Order messages (package shop) and stored rows (package models) -/

namespace shop

/-- Modelled from the spec: message `Details`, the explanation of a computed
price: the chosen base price and variant. -/
structure Details where
  BasePrice : Option BasePrice
  Variant : Option Variant
  deriving DecidableEq, Repr

/-- Modelled from the spec: message `Order.ArticleAmount`, one order line. -/
structure Order_ArticleAmount where
  ArticleId : Int
  Amount : Int
  Title : String := ""
  Price : String := ""
  Total : String := ""
  Details : Option Details := none
  BasePriceId : Int := 0
  VariantId : Int := 0
  deriving DecidableEq, Repr

end shop

namespace null

/-- A stored JSON document that holds order line details, represented by the
outcome of `json.Unmarshal` of its bytes into a `shop.Details`: the decoded
message, or the error text for bytes that do not decode. -/
inductive Document where
  | wellFormed (d : shop.Details)
  | malformed (err : String)
  deriving DecidableEq, Repr

/-- The nullable JSON column `null.JSON`: its bytes (field `JSON` of the source)
and the valid flag. -/
structure JSON where
  Bytes : Document
  Valid : Bool
  deriving DecidableEq, Repr

/-- The zero value of `null.JSON`: no bytes, not valid. -/
def JSON.zero : JSON := ⟨Document.malformed "unexpected end of JSON input", false⟩

/-- `null.NewJSON(js, true)` for the bytes `js` that `json.Marshal` makes of
the given details. -/
def NewJSON (d : shop.Details) : JSON := ⟨Document.wellFormed d, true⟩

end null

namespace models

/-- Modelled from the spec: the stored article row, the columns read here. -/
structure Article where
  ID : Int
  Title : String
  Price : decimal.Big
  Published : Bool := false
  Description : String := ""
  Promoted : Bool := false
  deriving DecidableEq, Repr

/-- Modelled from the spec: the stored base price row. -/
structure BasePrice where
  ID : Int
  Label : String
  Price : decimal.Big
  deriving DecidableEq, Repr

/-- Modelled from the spec: the stored variant row. -/
structure Variant where
  ID : Int
  Labels : List String
  Multiplier : decimal.Big
  ArticleID : Int := 0
  deriving DecidableEq, Repr

/-- Modelled from the spec: the stored order line. -/
structure OrderArticle where
  ArticleID : Int
  Amount : Int
  Title : String
  Price : decimal.Big
  Details : null.JSON := null.JSON.zero
  deriving DecidableEq, Repr

end models

/-! ## cmd/server/adaptors.go and transaction.go : validation and order pricing -/

namespace server

/-- A value of type `interface{}` as `checkRequired` tells them apart: nil, a
string, an int, a float64 (represented by whether it compares equal to 0.0), a
string slice, or a value of any other dynamic type. -/
inductive Any where
  | nil
  | string (s : String)
  | int (n : Int)
  | float64 (isZero : Bool)
  | strings (ss : List String)
  | other
  deriving DecidableEq, Repr

/-- The format string `errMissing`. -/
def errMissing (fields : String) : String := "Missing required fields: " ++ fields

/-- The constant `errNoArts`. -/
def errNoArts : String := "No articles in order"

/-- The format string `errNegAmount`. -/
def errNegAmount (aid amt : Int) : String :=
  "Negative amount on order article " ++ toString aid ++ ": " ++ toString amt

/-- The constant `errFatal`. -/
def errFatal : String := "Fatal I/O error"

/-- The constant `errDB`. -/
def errDB : String := "Database error"

/-- The format string `errNotFound`. -/
def errNotFound (what key value : String) : String :=
  what ++ " with " ++ key ++ " " ++ value ++ " not found"

/-- The format string `errVrtPrice`. -/
def errVrtPrice (aid : Int) : String :=
  "Article ID " ++ toString aid ++ " missing BasePrice or Variant ID"

/-- The comparison `a <= b` of two Go strings, on their characters: Go compares
byte by byte, which for UTF-8 text is the order of the code points. -/
def leChars : List Char → List Char → Bool
  | [], _ => true
  | _ :: _, [] => false
  | a :: as, b :: bs =>
    if a.toNat < b.toNat then true
    else if b.toNat < a.toNat then false
    else leChars as bs

/-- The function `sort.Strings`. -/
def sortStrings (l : List String) : List String :=
  l.insertionSort (fun a b => leChars a.data b.data = true)

/-- The step of the loop of `checkRequired` for one map entry. -/
def checkRequiredStep (empty : List String) (kv : String × Any) : List String :=
  if kv.2 = Any.nil ∨ kv.2 = Any.string "" ∨ kv.2 = Any.int 0 ∨ kv.2 = Any.float64 true then
    empty ++ [kv.1]
  else
    match kv.2 with
    | Any.strings ss => if ss.length = 0 then empty ++ [kv.1] else empty
    | _ => empty

/-- The function `checkRequired`. The map is the list of its entries in the
order in which the loop visits them. -/
def checkRequired (vals : List (String × Any)) : Option status.Status :=
  let empty := vals.foldl checkRequiredStep []
  let empty := sortStrings empty
  if empty.length > 0 then
    some (status.Error codes.Code.InvalidArgument (errMissing (Join empty ", ")))
  else none

/-- The loop of `checkOrderArticles`; `total` is an `int`, which the sum of the
`int32` amounts of a request cannot overflow. -/
def checkOrderArticlesLoop : List shop.Order_ArticleAmount → Int → Except status.Status Int
  | [], total => Except.ok total
  | a :: rest, total =>
    let aid := a.ArticleId
    let amt := a.Amount
    if a.Amount < 0 then
      Except.error (status.Error codes.Code.InvalidArgument (errNegAmount aid amt))
    else checkOrderArticlesLoop rest (total + amt)

/-- The function `checkOrderArticles`. -/
def checkOrderArticles (sa : List shop.Order_ArticleAmount) : Option status.Status :=
  match checkOrderArticlesLoop sa 0 with
  | Except.error e => some e
  | Except.ok total =>
    if total = 0 then some (status.Error codes.Code.InvalidArgument errNoArts) else none

/-- The loop of `orderArticlesModelsToMsg`: `sum` is the running sum and `soaa`
the lines made so far. -/
def orderArticlesLoop :
    List models.OrderArticle → decimal.Big → List shop.Order_ArticleAmount →
      Except String (List shop.Order_ArticleAmount × decimal.Big)
  | [], sum, soaa => Except.ok (soaa, sum)
  | a :: rest, sum, soaa =>
    let total := decimal.Mul a.Price (decimal.New a.Amount 0)
    let line : shop.Order_ArticleAmount :=
      { ArticleId := toInt32 a.ArticleID, Amount := toInt32 a.Amount, Title := a.Title,
        Price := a.Price.String, Total := total.String }
    let sum := decimal.Add sum total
    if a.Details.Valid then
      match a.Details.Bytes with
      | null.Document.malformed err => Except.error err
      | null.Document.wellFormed d =>
        orderArticlesLoop rest sum (soaa ++ [{ line with Details := some d }])
    else orderArticlesLoop rest sum (soaa ++ [line])

/-- The function `orderArticlesModelsToMsg`: the lines and the text of the sum,
or the error of `json.Unmarshal`. -/
def orderArticlesModelsToMsg (arts : List models.OrderArticle) :
    Except String (List shop.Order_ArticleAmount × String) :=
  match orderArticlesLoop arts decimal.zero [] with
  | Except.error err => Except.error err
  | Except.ok r => Except.ok (r.1, r.2.String)

/-- An error of the storage layer: `sql.ErrNoRows` or any other error. -/
inductive dbError where
  | ErrNoRows
  | other (msg : String)
  deriving DecidableEq, Repr

/-- The storage as the queries of `newOrderArticle` see it inside one
transaction: each query returns its rows or an error. -/
structure Store where
  FindArticle : Int → Except dbError models.Article
  BasePricesExists : models.Article → Bool × Option dbError
  VariantsExists : models.Article → Bool × Option dbError
  FindBasePrice : Int → Except dbError models.BasePrice
  FindVariant : Int → Except dbError models.Variant

/-- The method `requestTx.checkDBErrors` (logging left out). -/
def checkDBErrors (logMsg : String) : List (Option dbError) → Bool → Option status.Status
  | [], _ => none
  | e :: rest, warnNoRows =>
    match e with
    | none => checkDBErrors logMsg rest warnNoRows
    | some dbError.ErrNoRows =>
      if warnNoRows then some (status.Error codes.Code.NotFound logMsg)
      else checkDBErrors logMsg rest warnNoRows
    | some (dbError.other _) => some (status.Error codes.Code.Internal errDB)

/-- The error of a query result. -/
def errOf {α : Type} : Except dbError α → Option dbError
  | Except.ok _ => none
  | Except.error e => some e

/-- The method `requestTx.shouldCalcPrice`. -/
def shouldCalcPrice (db : Store) (art : models.Article) : Bool × Option status.Status :=
  let bp := db.BasePricesExists art
  let vt := db.VariantsExists art
  (bp.1 && vt.1, checkDBErrors "shouldCalcPrice" [bp.2, vt.2] false)

/-- The struct `calculation`. -/
structure calculation where
  Price : decimal.Big
  Details : shop.Details
  deriving DecidableEq, Repr

/-- The method `requestTx.calcPrice`. -/
def calcPrice (db : Store) (art : models.Article) (bpID vrtID : Int) :
    Except status.Status calculation :=
  if bpID = 0 ∨ vrtID = 0 then
    Except.error (status.Error codes.Code.InvalidArgument (errVrtPrice art.ID))
  else
    let bp := db.FindBasePrice bpID
    let vrt := db.FindVariant vrtID
    match checkDBErrors ("BasePrice and/or Variant for Article ID " ++ toString art.ID)
        [errOf bp, errOf vrt] true with
    | some err => Except.error err
    | none =>
      match bp, vrt with
      | Except.ok bp, Except.ok vrt =>
        Except.ok
          { Price := decimal.Mul bp.Price vrt.Multiplier,
            Details :=
              { BasePrice := some { Id := 0, Label := bp.Label, Price := bp.Price.String },
                Variant := some { Id := 0, Labels := vrt.Labels,
                                  Multiplier := vrt.Multiplier.String } } }
      | _, _ => Except.error (status.Error codes.Code.Internal errDB)

/-- The method `requestTx.newOrderArticle`. -/
def newOrderArticle (db : Store) (so : shop.Order_ArticleAmount) :
    Except status.Status models.OrderArticle :=
  let aid := so.ArticleId
  match db.FindArticle aid with
  | Except.error dbError.ErrNoRows =>
    Except.error (status.Error codes.Code.NotFound (errNotFound "Article" "ID" (toString aid)))
  | Except.error (dbError.other _) => Except.error (status.Error codes.Code.Internal errDB)
  | Except.ok art =>
    let oa : models.OrderArticle :=
      { ArticleID := aid, Amount := so.Amount, Title := art.Title,
        Price := art.Price } -- Will be over-written if calculate price != nil
    let should := shouldCalcPrice db art
    match should.2 with
    | some err => Except.error err
    | none =>
      if !should.1 then Except.ok oa
      else
        match calcPrice db art so.BasePriceId so.VariantId with
        | Except.error err => Except.error err
        | Except.ok c =>
          Except.ok { oa with Price := c.Price, Details := null.NewJSON c.Details }

end server

/-! ## Further test fixtures -/

namespace builder

/-- The conditions of the case "Custom" of `Test_defaults`. -/
def condCustom : shop.ListConditions :=
  { OnlyCategoryId := 0, OnlyCategoryLabel := "", OnlyPublished := false,
    OnlyPromoted := false, Fields := [shop.ArticleFields_TITLE],
    Relations := some { Images := [], Videos := [shop.MediaFields_MD_URL], Categories := [],
                        Baseprices := [], Variants := [] },
    Limits := some { Limit := 99, Offset := 22 } }

/-- The conditions of the case "Defaults zero limit" of `Test_defaults`: a
limits object with limit 0. -/
def condZeroLimit : shop.ListConditions :=
  { OnlyCategoryId := 0, OnlyCategoryLabel := "", OnlyPublished := false,
    OnlyPromoted := false, Fields := [], Relations := none,
    Limits := some { Limit := 0, Offset := 0 } }

end builder

namespace server

/-- A required value that counts as missing, as the specification lists them:
nil, the empty string, the integer 0, the float 0.0 or an empty string list. -/
def missing (v : Any) : Bool :=
  decide (v = Any.nil ∨ v = Any.string "" ∨ v = Any.int 0 ∨ v = Any.float64 true ∨
    v = Any.strings [])

/-- The names of the missing entries of a map of required values, in the order
of the entries. -/
def missingNames (vals : List (String × Any)) : List String :=
  (vals.filter (fun kv => missing kv.2)).map Prod.fst

/-- The map of the case "All entries zero" of `Test_checkRequired`. -/
def valsAllZero : List (String × Any) :=
  [("Nil", Any.nil), ("String", Any.string ""), ("Int", Any.int 0), ("Float", Any.float64 true)]

end server

namespace server

/-- The total of a stored order line: its unit price times its amount. -/
def lineTotal (a : models.OrderArticle) : decimal.Big :=
  decimal.Mul a.Price (decimal.New a.Amount 0)

/-- The details of a stored order line whose document, if present, is well
formed. -/
def detailsOf (j : null.JSON) : Option shop.Details :=
  if j.Valid then
    match j.Bytes with
    | null.Document.wellFormed d => some d
    | null.Document.malformed _ => none
  else none

/-- The message line that belongs to a stored order line. -/
def lineOf (a : models.OrderArticle) : shop.Order_ArticleAmount :=
  { ArticleId := toInt32 a.ArticleID, Amount := toInt32 a.Amount, Title := a.Title,
    Price := a.Price.String, Total := (lineTotal a).String, Details := detailsOf a.Details }

/-- A stored order line can be decoded: its details are absent or well formed. -/
def decodable (a : models.OrderArticle) : Bool :=
  match a.Details.Valid, a.Details.Bytes with
  | true, null.Document.malformed _ => false
  | _, _ => true

/-- The three order lines of order 100 of the test data: amounts 1, 3, 5 at unit
prices 30000.99, 12.12, 148.3515. -/
def testOrderArticles : List models.OrderArticle :=
  [{ ArticleID := 11, Amount := 1, Title := "ID 11", Price := decimal.New 3000099 2 },
   { ArticleID := 12, Amount := 3, Title := "ID 12", Price := decimal.New 1212 2 },
   { ArticleID := 13, Amount := 5, Title := "ID 13", Price := decimal.New 1483515 4,
     Details := null.NewJSON
       { BasePrice := some { Id := 0, Label := "Cheap material", Price := "44.55" },
         Variant := some { Id := 0, Labels := ["hello", "world"], Multiplier := "3.33" } } }]

/-- The order line of the case "Unmarshal error" of
`Test_orderArticlesModelsToMsg`: its details are the bytes "^", which
`json.Unmarshal` rejects. -/
def unmarshalErrorLine : models.OrderArticle :=
  { ArticleID := 44, Amount := 4, Title := "Something 4", Price := decimal.New 4444 2,
    Details := ⟨null.Document.malformed "invalid character '^' looking for beginning of value",
                true⟩ }

/-- The storage of the tests: articles 11, 12, 13, of which 13 has the base
prices 31, 32 and the variants 41, 42. -/
def testStore : Store where
  FindArticle := fun aid =>
    if aid = 11 then Except.ok { ID := 11, Title := "ID 11", Price := decimal.New 3000099 2 }
    else if aid = 12 then Except.ok { ID := 12, Title := "ID 12", Price := decimal.New 1212 2 }
    else if aid = 13 then Except.ok { ID := 13, Title := "ID 13", Price := decimal.New 2299 2 }
    else Except.error dbError.ErrNoRows
  BasePricesExists := fun art => (decide (art.ID = 13), none)
  VariantsExists := fun art => (decide (art.ID = 13), none)
  FindBasePrice := fun id =>
    if id = 31 then
      Except.ok { ID := 31, Label := "Cheap material", Price := decimal.New 4455 2 }
    else if id = 32 then
      Except.ok { ID := 32, Label := "Premium material", Price := decimal.New 9999 2 }
    else Except.error dbError.ErrNoRows
  FindVariant := fun id =>
    if id = 41 then
      Except.ok { ID := 41, Labels := ["hello", "world"], Multiplier := decimal.New 333 2 }
    else if id = 42 then
      Except.ok { ID := 42, Labels := ["foo", "bar"], Multiplier := decimal.New 999 2 }
    else Except.error dbError.ErrNoRows

/-- No step of the loop of `orderArticlesModelsToMsg` on these lines rounds:
every line total and every partial sum, starting from `sum`, has at most
`DefaultPrecision` significant digits before it is rounded. -/
def exactWithin : decimal.Big → List models.OrderArticle → Bool
  | _, [] => true
  | sum, a :: rest =>
    (decimal.exactMul a.Price (decimal.New a.Amount 0)).fits &&
      (decimal.exactAdd sum (lineTotal a)).fits &&
      exactWithin (decimal.Add sum (lineTotal a)) rest

/-- Two order lines whose exact sum 1000000000000000.01 has eighteen significant
digits: one at unit price 1000000000000000 and one at unit price 0.01. -/
def longSumLines : List models.OrderArticle :=
  [{ ArticleID := 11, Amount := 1, Title := "ID 11", Price := decimal.New 1000000000000000 0 },
   { ArticleID := 12, Amount := 1, Title := "ID 12", Price := decimal.New 1 2 }]

/-- A storage in which article 13 has the base price 31 of 99999999.99 and the
variant 41 with multiplier 1.23456789, whose exact product
123456788.9876543211 has nineteen significant digits. -/
def longProductStore : Store where
  FindArticle := fun aid =>
    if aid = 13 then Except.ok { ID := 13, Title := "ID 13", Price := decimal.New 2299 2 }
    else Except.error dbError.ErrNoRows
  BasePricesExists := fun art => (decide (art.ID = 13), none)
  VariantsExists := fun art => (decide (art.ID = 13), none)
  FindBasePrice := fun id =>
    if id = 31 then
      Except.ok { ID := 31, Label := "Cheap material", Price := decimal.New 9999999999 2 }
    else Except.error dbError.ErrNoRows
  FindVariant := fun id =>
    if id = 41 then
      Except.ok { ID := 41, Labels := ["hello", "world"], Multiplier := decimal.New 123456789 8 }
    else Except.error dbError.ErrNoRows

end server

/-! ## Stored media and category rows (package models) -/

namespace models

/-- Modelled from the spec: the stored image row: identity, owning article,
1-based position, label and URL. -/
structure Image where
  ID : Int
  ArticleID : Int
  Position : Int
  Label : String
  URL : String
  deriving DecidableEq, Repr

/-- Modelled from the spec: the stored video row, with the columns of an image
row. -/
structure Video where
  ID : Int
  ArticleID : Int
  Position : Int
  Label : String
  URL : String
  deriving DecidableEq, Repr

/-- Modelled from the spec: the stored category row. -/
structure Category where
  ID : Int
  Label : String := ""
  Position : Int := 0
  deriving DecidableEq, Repr

end models

/-! ## cmd/server/adaptors.go : messages to rows -/

namespace server

/-- The constant `artDecimal`. -/
def artDecimal : String := "Price"

/-- The constant `varDecimal`. -/
def varDecimal : String := "Multiplier"

/-- The format string `errDecimal`. -/
def errDecimal (field value : String) : String :=
  "Can't convert " ++ field ++ " string " ++ value ++ " to decimal"

/-- The function `articleMsgToModel`. Its argument `SetString` stands for
`new(decimal.Big).SetString(s)` of the decimal library: the number, or `none`
when the library reports that the text is not a decimal. The entries of the map
are listed as the source writes them. -/
def articleMsgToModel (SetString : String → Option decimal.Big) (sa : shop.Article) :
    Except status.Status models.Article :=
  let vals : List (String × Any) :=
    [("Title", Any.string sa.Title),
     ("Description", Any.string sa.Description),
     (artDecimal, Any.string sa.Price)]
  match checkRequired vals with
  | some err => Except.error err
  | none =>
    match SetString sa.Price with
    | none =>
      Except.error (status.Error codes.Code.InvalidArgument (errDecimal artDecimal sa.Price))
    | some price =>
      Except.ok
        { ID := sa.Id,
          Published := sa.Published,
          Title := sa.Title,
          Description := sa.Description,
          Price := price,
          Promoted := sa.Promoted }

/-- The loop of `variantsMsgToModel`: `vars` holds the rows made so far, which
the source stores at the indexes `0 .. i-1` of its result. -/
def variantsMsgToModelLoop (SetString : String → Option decimal.Big) (aid : Int) :
    List shop.Variant → List models.Variant → Except status.Status (List models.Variant)
  | [], vars => Except.ok vars
  | v :: rest, vars =>
    let vals : List (String × Any) :=
      [("ArticleID", Any.int aid),
       ("Labels", Any.strings v.Labels),
       (varDecimal, Any.string v.Multiplier)]
    match checkRequired vals with
    | some err => Except.error err
    | none =>
      match SetString v.Multiplier with
      | none =>
        Except.error
          (status.Error codes.Code.InvalidArgument (errDecimal varDecimal v.Multiplier))
      | some mpl =>
        variantsMsgToModelLoop SetString aid rest
          (vars ++ [{ ID := v.Id, ArticleID := aid, Labels := v.Labels, Multiplier := mpl }])

/-- The function `variantsMsgToModel`. -/
def variantsMsgToModel (SetString : String → Option decimal.Big) (aid : Int)
    (sv : List shop.Variant) : Except status.Status (List models.Variant) :=
  variantsMsgToModelLoop SetString aid sv []

/-- The loop of `imagesMsgToModel`: `i` is the loop index and `imgs` holds the
rows made so far, which the source stores at the indexes `0 .. i-1` of its
result. -/
def imagesMsgToModelLoop (aid : Int) :
    List shop.Media → Nat → List models.Image → Except status.Status (List models.Image)
  | [], _, imgs => Except.ok imgs
  | m :: rest, i, imgs =>
    let req : List (String × Any) :=
      [("ArticleID", Any.int aid),
       ("Label", Any.string m.Label),
       ("URL", Any.string m.Url)]
    match checkRequired req with
    | some err => Except.error err
    | none =>
      imagesMsgToModelLoop aid rest (i + 1)
        (imgs ++ [{ ID := m.Id, ArticleID := aid, Position := (i : Int) + 1,
                    Label := m.Label, URL := m.Url }])

/-- The function `imagesMsgToModel`. -/
def imagesMsgToModel (aid : Int) (sm : List shop.Media) :
    Except status.Status (List models.Image) :=
  imagesMsgToModelLoop aid sm 0 []

/-- The loop of `videosMsgToModel`, as the loop of `imagesMsgToModel`. -/
def videosMsgToModelLoop (aid : Int) :
    List shop.Media → Nat → List models.Video → Except status.Status (List models.Video)
  | [], _, vids => Except.ok vids
  | m :: rest, i, vids =>
    let req : List (String × Any) :=
      [("ArticleID", Any.int aid),
       ("Label", Any.string m.Label),
       ("URL", Any.string m.Url)]
    match checkRequired req with
    | some err => Except.error err
    | none =>
      videosMsgToModelLoop aid rest (i + 1)
        (vids ++ [{ ID := m.Id, ArticleID := aid, Position := (i : Int) + 1,
                    Label := m.Label, URL := m.Url }])

/-- The function `videosMsgToModel`. -/
def videosMsgToModel (aid : Int) (sm : List shop.Media) :
    Except status.Status (List models.Video) :=
  videosMsgToModelLoop aid sm 0 []

end server

/-! ## cmd/server/adaptors.go : the decoder of a result document -/

namespace fj

/-- The method `Value.Array()`: the elements of an array, an error for a value
of any other type. -/
def Value.Array : Value → Except String (List Value)
  | Value.TypeArray a => Except.ok a
  | _ => Except.error "value doesn't contain array"

end fj

namespace server

/-- The loop of `articlesJSONtoMsg`: `sas` holds the articles decoded so far. -/
def articlesJSONtoMsgLoop (tl : timeLib) :
    List fj.Value → List shop.Article → Except status.Status (List shop.Article)
  | [], sas => Except.ok sas
  | a :: rest, sas =>
    match articleValueToMsg tl a with
    | Except.error err => Except.error err
    | Except.ok sa => articlesJSONtoMsgLoop tl rest (sas ++ [sa])

/-- The method `jsonScanner.articlesJSONtoMsg`; `s` is the parsed value that the
scanner holds. -/
def articlesJSONtoMsg (tl : timeLib) (s : fj.Value) : Except status.Status (List shop.Article) :=
  match s.Array with
  | Except.error _ => Except.error (status.Error codes.Code.Internal errFatal)
  | Except.ok va => articlesJSONtoMsgLoop tl va []

end server

/-! ## cmd/server/transaction.go : the steps of SaveArticle -/

namespace server

/-- A Go `error` as the steps of a request return it: a gRPC status error, or an
error of the storage layer handed on as it is. -/
inductive goError where
  | status (s : status.Status)
  | driver (e : dbError)
  deriving DecidableEq, Repr

/-- The storage operations that the steps of SaveArticle run on their
transaction. Each takes the state of the transaction and returns the state it
leaves and its result. `ArticleUpsert` is called on the pointer `art`, which is
nil (`none`) when the conversion of the message failed; its result is the row as
the call leaves it. The delete operations return the number of rows deleted. -/
structure Tx (σ : Type) where
  ArticleUpsert : σ → Option models.Article → σ × Except dbError (Option models.Article)
  SetCategories : σ → models.Article → List models.Category → σ × Option dbError
  SetBasePrices : σ → models.Article → List models.BasePrice → σ × Option dbError
  VariantsDeleteAll : σ → Int → σ × Except dbError Int
  VariantInsert : σ → models.Variant → σ × Option dbError
  ImagesDeleteAll : σ → Int → σ × Except dbError Int
  ImageInsert : σ → models.Image → σ × Option dbError
  VideosDeleteAll : σ → Int → σ × Except dbError Int
  VideoUpsert : σ → models.Video → σ × Option dbError

/-- The error `status.Error(codes.Internal, errDB)`. -/
def internalDB : goError := goError.status (status.Error codes.Code.Internal errDB)

/-- The method `requestTx.upsertArticle` (logging left out): the error of
`articleMsgToModel` is logged only, and `art` is nil when there is one. -/
def upsertArticle {σ : Type} (tx : Tx σ) (SetString : String → Option decimal.Big) (s : σ)
    (sa : shop.Article) : σ × Except goError (Option models.Article) :=
  let art : Option models.Article :=
    match articleMsgToModel SetString sa with
    | Except.ok art => some art
    | Except.error _ => none
  let r := tx.ArticleUpsert s art
  match r.2 with
  | Except.error _ => (r.1, Except.error internalDB)
  | Except.ok art => (r.1, Except.ok art)

/-- The method `requestTx.setArticleCategories`. -/
def setArticleCategories {σ : Type} (tx : Tx σ) (s : σ) (art : models.Article)
    (sc : List shop.Category) : σ × Option goError :=
  let cats : List models.Category := sc.map (fun c => { ID := c.Id })
  let r := tx.SetCategories s art cats
  match r.2 with
  | some _ => (r.1, some internalDB)
  | none => (r.1, none)

/-- The loop of `setArticleBasePrices`: `bases` holds the rows made so far. -/
def setArticleBasePricesLoop :
    List shop.BasePrice → List models.BasePrice → Except status.Status (List models.BasePrice)
  | [], bases => Except.ok bases
  | b :: rest, bases =>
    let base : models.BasePrice := { ID := b.Id, Label := "", Price := decimal.zero }
    if base.ID = 0 then
      Except.error (status.Error codes.Code.InvalidArgument (errMissing "ID"))
    else setArticleBasePricesLoop rest (bases ++ [base])

/-- The method `requestTx.setArticleBasePrices`. -/
def setArticleBasePrices {σ : Type} (tx : Tx σ) (s : σ) (art : models.Article)
    (sbp : List shop.BasePrice) : σ × Option goError :=
  match setArticleBasePricesLoop sbp [] with
  | Except.error err => (s, some (goError.status err))
  | Except.ok bases =>
    let r := tx.SetBasePrices s art bases
    match r.2 with
    | some _ => (r.1, some internalDB)
    | none => (r.1, none)

/-- The insert loop of `updateVariants`. -/
def insertVariants {σ : Type} (tx : Tx σ) : σ → List models.Variant → σ × Option goError
  | s, [] => (s, none)
  | s, v :: rest =>
    let r := tx.VariantInsert s v
    match r.2 with
    | some _ => (r.1, some internalDB)
    | none => insertVariants tx r.1 rest

/-- The method `requestTx.updateVariants`. -/
def updateVariants {σ : Type} (tx : Tx σ) (SetString : String → Option decimal.Big) (s : σ)
    (aid : Int) (sv : List shop.Variant) : σ × Option goError :=
  match variantsMsgToModel SetString aid sv with
  | Except.error err => (s, some (goError.status err))
  | Except.ok vars =>
    -- Cleanup old variants
    let r := tx.VariantsDeleteAll s aid
    match r.2 with
    | Except.error _ => (r.1, some internalDB)
    | Except.ok _ => insertVariants tx r.1 vars

/-- The insert loop of `updateImages`. -/
def insertImages {σ : Type} (tx : Tx σ) : σ → List models.Image → σ × Option goError
  | s, [] => (s, none)
  | s, img :: rest =>
    let r := tx.ImageInsert s img
    match r.2 with
    | some _ => (r.1, some internalDB)
    | none => insertImages tx r.1 rest

/-- The method `requestTx.updateImages`. -/
def updateImages {σ : Type} (tx : Tx σ) (s : σ) (aid : Int) (mds : List shop.Media) :
    σ × Option goError :=
  match imagesMsgToModel aid mds with
  | Except.error err => (s, some (goError.status err))
  | Except.ok imgs =>
    -- Cleanup old images
    let r := tx.ImagesDeleteAll s aid
    match r.2 with
    | Except.error err => (r.1, some (goError.driver err))
    | Except.ok _ => insertImages tx r.1 imgs

/-- The upsert loop of `updateVideos`. -/
def upsertVideos {σ : Type} (tx : Tx σ) : σ → List models.Video → σ × Option goError
  | s, [] => (s, none)
  | s, vid :: rest =>
    let r := tx.VideoUpsert s vid
    match r.2 with
    | some _ => (r.1, some internalDB)
    | none => upsertVideos tx r.1 rest

/-- The method `requestTx.updateVideos`. -/
def updateVideos {σ : Type} (tx : Tx σ) (s : σ) (aid : Int) (mds : List shop.Media) :
    σ × Option goError :=
  match videosMsgToModel aid mds with
  | Except.error err => (s, some (goError.status err))
  | Except.ok vids =>
    -- Cleanup old videos
    let r := tx.VideosDeleteAll s aid
    match r.2 with
    | Except.error err => (r.1, some (goError.driver err))
    | Except.ok _ => upsertVideos tx r.1 vids

end server

/-! ## Messages and rows of the write operations (packages shop and models) -/

namespace shop

/-- Modelled from the spec: message `ArticleID`. -/
structure ArticleID where
  Id : Int
  Token : String := ""
  deriving DecidableEq, Repr

/-- Modelled from the spec: message `Deleted`, the number of rows deleted. -/
structure Deleted where
  Rows : Int
  deriving DecidableEq, Repr

/-- Modelled from the spec: message `Order`: identity, customer contact fields,
free-text message, payment method, status and the order lines. -/
structure Order where
  Id : Int := 0
  FullName : String := ""
  Email : String := ""
  Phone : String := ""
  FullAddress : String := ""
  Message : String := ""
  PaymentMethod : Int := 0
  Status : Int := 0
  Articles : List Order_ArticleAmount := []
  Sum : String := ""
  Token : String := ""
  deriving DecidableEq, Repr

/-- Modelled from the spec: message `OrderID`, with the encrypted payment
request of a checkout. -/
structure OrderID where
  Id : Int
  EnvKey : String := ""
  Data : String := ""
  deriving DecidableEq, Repr

/-- Modelled from the spec: message `CategoryList`. -/
structure CategoryList where
  List : List Category
  Token : String := ""
  deriving DecidableEq, Repr

/-- Modelled from the spec: message `CategoryListConditions`. -/
structure CategoryListConditions where
  OnlyPublishedArticles : Bool := false
  deriving DecidableEq, Repr

set_option linter.dupNamespace false in
/-- Modelled from the spec: message `Message`, a message of a visitor. -/
structure Message where
  Name : String := ""
  Email : String := ""
  Phone : String := ""
  Subject : String := ""
  Message : String := ""
  deriving DecidableEq, Repr

/-- Modelled from the spec: message `MessageID`. -/
structure MessageID where
  Id : Int
  deriving DecidableEq, Repr

end shop

namespace models

/-- Modelled from the spec: the stored order row. -/
structure Order where
  ID : Int
  FullName : String := ""
  Email : String := ""
  Phone : String := ""
  FullAddress : String := ""
  Message : String := ""
  PaymentMethod : String := ""
  Status : String := ""
  deriving DecidableEq, Repr

set_option linter.dupNamespace false in
/-- Modelled from the spec: the stored message row. -/
structure Message where
  ID : Int
  Name : String := ""
  Email : String := ""
  Message : String := ""
  Phone : String := ""
  Subject : String := ""
  deriving DecidableEq, Repr

end models

/-! ## cmd/server/shop.go : the write operations -/

namespace server

/-- The constant `errMissingToken`. -/
def errMissingToken : String := "JWT token missing"

/-- The constant `errMissingID`. -/
def errMissingID : String := "Missing ID"

/-- The constant `OrderMailTmpl`. -/
def OrderMailTmpl : String := "checkout"

/-- The constant `MessageMailTmpl`. -/
def MessageMailTmpl : String := "message"

/-- The methods of `requestTx` that the write operations of `shop.go` call, and
`Commit` and `Done` of the embedded `transaction.Request`. Each takes the state
of the transaction and returns the state it leaves and its results. -/
structure requestTx (σ : Type) where
  upsertArticle : σ → shop.Article → σ × Except goError models.Article
  setArticleCategories : σ → models.Article → List shop.Category → σ × Option goError
  setArticleBasePrices : σ → models.Article → List shop.BasePrice → σ × Option goError
  updateVariants : σ → Int → List shop.Variant → σ × Option goError
  updateImages : σ → Int → List shop.Media → σ × Option goError
  updateVideos : σ → Int → List shop.Media → σ × Option goError
  deleteArticle : σ → Int → σ × Except goError Int
  newOrder : σ → shop.Order → σ × Except goError models.Order
  sendOrderMail : σ → String → models.Order → String → σ × Option goError
  encryptOrder : σ → models.Order → σ × Except goError (String × String)
  saveOrder : σ → shop.Order → σ × Except goError models.Order
  saveCategories : σ → List shop.Category → σ × Option goError
  listCategories : σ → Option shop.CategoryListConditions → σ × Except goError (List shop.Category)
  upsertBasePrice : σ → shop.BasePrice → σ × Except goError shop.BasePrice
  deleteBasePrice : σ → shop.BasePrice → σ × Except goError shop.Deleted
  newMessage : σ → shop.Message → σ × Except goError models.Message
  sendMail : σ → String → models.Message → σ × Option goError
  Commit : σ → σ × Option goError
  Done : σ → σ

/-- The struct `shopServer`: `New` and `NewAuth` are the outcomes of
`transaction.New` and of `Verificator.NewAuth` for a method name, the read-only
flag and a token (the state of the opened transaction, or the error), `ShopName`
is `conf.Mail.ShopName`, and `rt` holds the methods of the request transactions
of this server. -/
structure shopServer (σ : Type) where
  New : String → Bool → Except goError σ
  NewAuth : String → Bool → String → Except goError σ
  ShopName : String
  rt : requestTx σ

/-- The method `shopServer.newTx`. -/
def shopServer.newTx {σ : Type} (s : shopServer σ) (method : String) (readOnly : Bool) :
    Except goError σ :=
  s.New method readOnly

/-- The method `shopServer.newAuthTx`. -/
def shopServer.newAuthTx {σ : Type} (s : shopServer σ) (method : String) (readOnly : Bool)
    (token : String) : Except goError σ :=
  if token = "" then
    Except.error (goError.status (status.Error codes.Code.Unauthenticated errMissingToken))
  else s.NewAuth method readOnly token

/-- The statement `if err != nil { return nil, err }` after a step that returns
a value: the rest `k` of the function runs on the state that the step left and
on its value. -/
def step {σ α β : Type} (r : σ × Except goError α) (k : σ → α → σ × Except goError β) :
    σ × Except goError β :=
  match r.2 with
  | Except.error err => (r.1, Except.error err)
  | Except.ok a => k r.1 a

/-- The statement `if err != nil { return nil, err }` after a step that returns
an error only. -/
def stepErr {σ β : Type} (r : σ × Option goError) (k : σ → σ × Except goError β) :
    σ × Except goError β :=
  match r.2 with
  | some err => (r.1, Except.error err)
  | none => k r.1

/-- The body of an operation under `defer rt.Done()`: `Done` runs on the state in
which the body returns. -/
def deferDone {σ β : Type} (rt : requestTx σ) (r : σ × Except goError β) :
    Option σ × Except goError β :=
  (some (rt.Done r.1), r.2)

/-- The method `shopServer.SaveArticle`. The first component of the result is
the state in which the transaction is left, `none` when none was opened. -/
def SaveArticle {σ : Type} (s : shopServer σ) (req : shop.Article) :
    Option σ × Except goError shop.ArticleID :=
  match s.newAuthTx "SaveArticle" false req.Token with
  | Except.error err => (none, Except.error err)
  | Except.ok t =>
    deferDone s.rt <|
      step (s.rt.upsertArticle t req) fun t art =>
      stepErr (s.rt.setArticleCategories t art req.Categories) fun t =>
      stepErr (s.rt.setArticleBasePrices t art req.Baseprices) fun t =>
      stepErr (s.rt.updateVariants t art.ID req.Variants) fun t =>
      stepErr (s.rt.updateImages t art.ID req.Images) fun t =>
      stepErr (s.rt.updateVideos t art.ID req.Videos) fun t =>
      stepErr (s.rt.Commit t) fun t =>
      (t, Except.ok { Id := toInt32 art.ID })

/-- The method `shopServer.DeleteArticle`. -/
def DeleteArticle {σ : Type} (s : shopServer σ) (req : shop.ArticleID) :
    Option σ × Except goError shop.Deleted :=
  match s.newAuthTx "DeleteArticle" false req.Token with
  | Except.error err => (none, Except.error err)
  | Except.ok t =>
    deferDone s.rt <|
      let aid := req.Id
      if aid = 0 then
        (t, Except.error (goError.status (status.Error codes.Code.InvalidArgument errMissingID)))
      else
        step (s.rt.deleteArticle t aid) fun t ra =>
        stepErr (s.rt.Commit t) fun t =>
        (t, Except.ok { Rows := ra })

/-- The method `shopServer.Checkout`. -/
def Checkout {σ : Type} (s : shopServer σ) (req : shop.Order) :
    Option σ × Except goError shop.OrderID :=
  match s.newTx "Checkout" false with
  | Except.error err => (none, Except.error err)
  | Except.ok t =>
    deferDone s.rt <|
      step (s.rt.newOrder t req) fun t order =>
      stepErr (s.rt.sendOrderMail t OrderMailTmpl order
        ("New order #" ++ toString order.ID ++ " at " ++ s.ShopName)) fun t =>
      step (s.rt.encryptOrder t order) fun t enc =>
      stepErr (s.rt.Commit t) fun t =>
      (t, Except.ok { Id := toInt32 order.ID, EnvKey := enc.2, Data := enc.1 })

/-- The method `shopServer.SaveOrder`. -/
def SaveOrder {σ : Type} (s : shopServer σ) (req : shop.Order) :
    Option σ × Except goError shop.OrderID :=
  match s.newAuthTx "SaveOrder" false req.Token with
  | Except.error err => (none, Except.error err)
  | Except.ok t =>
    deferDone s.rt <|
      step (s.rt.saveOrder t req) fun t order =>
      stepErr (s.rt.sendOrderMail t OrderMailTmpl order
        ("Update on your order #" ++ toString order.ID ++ " at " ++ s.ShopName)) fun t =>
      stepErr (s.rt.Commit t) fun t =>
      (t, Except.ok { Id := toInt32 order.ID })

/-- The method `shopServer.SaveCategories`. -/
def SaveCategories {σ : Type} (s : shopServer σ) (req : shop.CategoryList) :
    Option σ × Except goError shop.CategoryList :=
  match s.newAuthTx "SaveCategories" false req.Token with
  | Except.error err => (none, Except.error err)
  | Except.ok t =>
    deferDone s.rt <|
      stepErr (s.rt.saveCategories t req.List) fun t =>
      step (s.rt.listCategories t none) fun t list =>
      stepErr (s.rt.Commit t) fun t =>
      (t, Except.ok { List := list })

/-- The method `shopServer.SaveBasePrice`. -/
def SaveBasePrice {σ : Type} (s : shopServer σ) (sbp : shop.BasePrice) :
    Option σ × Except goError shop.BasePrice :=
  match s.newAuthTx "SaveBasePrice" false sbp.Token with
  | Except.error err => (none, Except.error err)
  | Except.ok t =>
    deferDone s.rt <|
      step (s.rt.upsertBasePrice t sbp) fun t sbp =>
      stepErr (s.rt.Commit t) fun t =>
      (t, Except.ok sbp)

/-- The method `shopServer.DeleteBasePrice`. -/
def DeleteBasePrice {σ : Type} (s : shopServer σ) (sbp : shop.BasePrice) :
    Option σ × Except goError shop.Deleted :=
  match s.newAuthTx "DeleteBasePrice" false sbp.Token with
  | Except.error err => (none, Except.error err)
  | Except.ok t =>
    deferDone s.rt <|
      step (s.rt.deleteBasePrice t sbp) fun t del =>
      stepErr (s.rt.Commit t) fun t =>
      (t, Except.ok del)

/-- The method `shopServer.SendMessage`: the result of `rt.Commit()` is not
looked at. -/
def SendMessage {σ : Type} (s : shopServer σ) (sm : shop.Message) :
    Option σ × Except goError shop.MessageID :=
  match s.newTx "SendMessage" false with
  | Except.error err => (none, Except.error err)
  | Except.ok t =>
    deferDone s.rt <|
      step (s.rt.newMessage t sm) fun t msg =>
      stepErr (s.rt.sendMail t MessageMailTmpl msg) fun t =>
      let t := (s.rt.Commit t).1
      (t, Except.ok { Id := toInt32 msg.ID })

end server

/-! ## Fixtures of the write path -/

namespace server

/-- An entry of the error list that `checkDBErrors` passes over: nil, or a
no-rows error when no warning is asked for. -/
def skipped (warnNoRows : Bool) (e : Option dbError) : Bool :=
  decide (e = none) || (decide (e = some dbError.ErrNoRows) && !warnNoRows)

end server

namespace builder

/-- The five relations of an article in their fixed order, each with the
columns that its field list resolves to. -/
def relationCandidates (rel : shop.ArticleRelations) : List relation :=
  [{ name := "images", columns := (ImageColumns rel.Images).1, id := "article_id" },
   { name := "videos", columns := (VideoColumns rel.Videos).1, id := "article_id" },
   { name := "categories", columns := (CategoryColumns rel.Categories).1, id := "id",
     joinTable := "category_articles", joinIDs := ("article_id", "category_id") },
   { name := "base_prices", columns := (BasePriceColumns rel.Baseprices).1, id := "id",
     joinTable := "article_base_prices", joinIDs := ("article_id", "base_price_id") },
   { name := "variants", columns := (VariantColumns rel.Variants).1, id := "article_id" }]

/-- The errors of the five resolutions in the fixed order. -/
def relationErrors (rel : shop.ArticleRelations) : List (Option status.Status) :=
  [(ImageColumns rel.Images).2, (VideoColumns rel.Videos).2, (CategoryColumns rel.Categories).2,
   (BasePriceColumns rel.Baseprices).2, (VariantColumns rel.Variants).2]

/-- A request for three of the five relations. -/
def relThree : shop.ArticleRelations :=
  { Images := [shop.MediaFields_MD_URL], Videos := [],
    Categories := [shop.CategoryFields_CAT_ALL], Baseprices := [],
    Variants := [shop.VariantFields_VRT_LABELS] }

/-- A request in which the field lists of the videos and of the base prices do
not resolve. -/
def relTwoUnknown : shop.ArticleRelations :=
  { Images := [shop.MediaFields_MD_URL], Videos := [99], Categories := [],
    Baseprices := [98], Variants := [] }

end builder

namespace server

/-- The image row that belongs to the media item at index `i` (0-based) of a
list saved for the article `aid`: position `i + 1`. -/
def imageRow (aid : Int) (i : Nat) (m : shop.Media) : models.Image :=
  { ID := m.Id, ArticleID := aid, Position := (i : Int) + 1, Label := m.Label, URL := m.Url }

/-- The video row that belongs to the media item at index `i` (0-based). -/
def videoRow (aid : Int) (i : Nat) (m : shop.Media) : models.Video :=
  { ID := m.Id, ArticleID := aid, Position := (i : Int) + 1, Label := m.Label, URL := m.Url }

/-- The image "a" of the example of the specification. -/
def mediaA : shop.Media := { Id := 121, Label := "a", Url := "https://ex.com/a" }

/-- The image "c" of the example of the specification. -/
def mediaC : shop.Media := { Id := 123, Label := "c", Url := "https://ex.com/c" }

/-- The media item `{}` of the case "Missing fields" of `Test_imagesMsgToModel`. -/
def mediaEmpty : shop.Media := { Id := 0, Label := "", Url := "" }

/-- The media items of the case "All fields" of `Test_imagesMsgToModel`. -/
def mediaAllFields : List shop.Media :=
  [{ Id := 1001, Label := "Thousand one", Url := "https://example.com/image1001.jpg" },
   { Id := 1002, Label := "Thousand two", Url := "https://example.com/image1002.jpg" }]

/-- The variants of the case "All fields" of `Test_variantsMsgToModel`. -/
def variantsAllFields : List shop.Variant :=
  [{ Id := 1001, Labels := ["hello", "world"], Multiplier := "44.55" },
   { Id := 1002, Labels := ["foo", "bar"], Multiplier := "99.99" }]

end server

namespace server

/-- A timestamp text that the decoder accepts: the empty text (also read for a
member that is absent or not a string), or a text that `time.Parse` accepts and
whose instant is the zero time or is accepted by `ptypes.TimestampProto`. -/
def timeOK (tl : timeLib) (s : String) : Prop :=
  s = "" ∨ ∃ t, tl.Parse s = Except.ok t ∧
    (t.IsZero = true ∨ ∃ ts, tl.TimestampProto t = Except.ok ts)

/-- The library functions on the two instants of the test data: `Parse` knows
the texts "2020-02-01T09:51:55+02:00" and "2020-02-10T15:03:33+02:00" and
rejects every other text, as RFC 3339 rejects "~"; `TimestampProto` accepts the
instants from year 1 up to year 9999. -/
def testTime : timeLib where
  Parse := fun s =>
    if s = "2020-02-01T09:51:55+02:00" then Except.ok ⟨1580543515, 0⟩
    else if s = "2020-02-10T15:03:33+02:00" then Except.ok ⟨1581339813, 0⟩
    else Except.error ("parsing time \"" ++ s ++ "\": cannot parse")
  TimestampProto := fun t =>
    if t.Unix < -62135596800 then Except.error "timestamp: before 0001-01-01"
    else if 253402300800 ≤ t.Unix then Except.error "timestamp: after 10000-01-01"
    else if t.Nanosecond < 0 ∨ 1000000000 ≤ t.Nanosecond then
      Except.error "timestamp: nanos not in range [0, 1e9)"
    else Except.ok ⟨t.Unix, t.Nanosecond⟩

/-- The article that the decoder makes of an element without any of the keys it
reads. -/
def zeroArticle : shop.Article :=
  { Id := 0, Created := none, Updated := none, Published := false, Title := "",
    Description := "", Price := "", Promoted := false, Images := [], Videos := [],
    Categories := [], Baseprices := [], Variants := [] }

/-- The document `[{"created_at" : 5}]`: the member is present and is a number. -/
def docNumberCreated : fj.Value :=
  fj.Value.TypeArray [fj.Value.TypeObject [("created_at", fj.Value.TypeNumber 5)]]

/-- The document of the case "Not an array" of
`Test_jsonScanner_articlesJSONtoMsg`. -/
def docNotArray : fj.Value :=
  fj.Value.TypeObject [("title", fj.Value.TypeString "spanac")]

/-- The document of the case "Invalid created_at". -/
def docInvalidCreated : fj.Value :=
  fj.Value.TypeArray [fj.Value.TypeObject [("created_at", fj.Value.TypeString "~")]]

/-- The document of the case "Success". -/
def docSuccess : fj.Value :=
  fj.Value.TypeArray
    [fj.Value.TypeObject
      [("id", fj.Value.TypeNumber 1),
       ("created_at", fj.Value.TypeString "2020-02-01T09:51:55+02:00"),
       ("updated_at", fj.Value.TypeString "2020-02-10T15:03:33+02:00"),
       ("published", fj.Value.TypeTrue),
       ("title", fj.Value.TypeString "Some title"),
       ("description", fj.Value.TypeString "Some description"),
       ("price", fj.Value.TypeString "7993.60"),
       ("promoted", fj.Value.TypeTrue),
       ("images", fj.Value.TypeArray
         [fj.Value.TypeObject [("id", fj.Value.TypeNumber 21),
            ("url", fj.Value.TypeString "https://ex.com/i1"),
            ("label", fj.Value.TypeString "foo")],
          fj.Value.TypeObject [("id", fj.Value.TypeNumber 22),
            ("url", fj.Value.TypeString "https://ex.com/i2"),
            ("label", fj.Value.TypeString "bar")]])]]

end server

namespace server

/-- The decimal texts of the test data as `SetString` reads them; every other
text, such as "spanac", is rejected. -/
def testSetString (s : String) : Option decimal.Big :=
  if s = "49.98" then some (decimal.New 4998 2)
  else if s = "31000.10" then some (decimal.New 3100010 2)
  else if s = "20000.01" then some (decimal.New 2000001 2)
  else if s = "2" then some (decimal.New 2 0)
  else if s = "44.55" then some (decimal.New 4455 2)
  else if s = "99.99" then some (decimal.New 9999 2)
  else none

/-- The message of the case "All fields" of `Test_articleMsgToModel`. -/
def articleAllFields : shop.Article :=
  { Id := 12345, Created := none, Updated := none, Published := true,
    Title := "Ain't it good?", Description := "Best procuct to buy!", Price := "20000.01",
    Promoted := true, Images := [], Videos := [], Categories := [], Baseprices := [],
    Variants := [] }

/-- The error of a transaction that has been closed, as `rt.Done()` leaves it in
the cases "Insert err", "Cleanup Error" and "TX error" of the tests. -/
def errTxDone : dbError :=
  dbError.other "sql: transaction has already been committed or rolled back"

/-- A storage that accepts every operation and logs its name. A nil row is
refused by `ArticleUpsert`; a new row gets the id 1. -/
def logTx : Tx (List String) where
  ArticleUpsert := fun s art =>
    match art with
    | none => (s ++ ["Article.Upsert"],
        Except.error (dbError.other "models: no articles provided for upsert"))
    | some a =>
      (s ++ ["Article.Upsert"], Except.ok (some { a with ID := if a.ID = 0 then 1 else a.ID }))
  SetCategories := fun s _ _ => (s ++ ["Article.SetCategories"], none)
  SetBasePrices := fun s _ _ => (s ++ ["Article.SetBasePrices"], none)
  VariantsDeleteAll := fun s _ => (s ++ ["Variants.DeleteAll"], Except.ok 0)
  VariantInsert := fun s _ => (s ++ ["Variant.Insert"], none)
  ImagesDeleteAll := fun s _ => (s ++ ["Images.DeleteAll"], Except.ok 0)
  ImageInsert := fun s _ => (s ++ ["Image.Insert"], none)
  VideosDeleteAll := fun s _ => (s ++ ["Videos.DeleteAll"], Except.ok 0)
  VideoUpsert := fun s _ => (s ++ ["Video.Upsert"], none)

/-- A storage whose transaction has been closed: every operation is logged and
fails with `errTxDone`. -/
def closedTx : Tx (List String) where
  ArticleUpsert := fun s _ => (s ++ ["Article.Upsert"], Except.error errTxDone)
  SetCategories := fun s _ _ => (s ++ ["Article.SetCategories"], some errTxDone)
  SetBasePrices := fun s _ _ => (s ++ ["Article.SetBasePrices"], some errTxDone)
  VariantsDeleteAll := fun s _ => (s ++ ["Variants.DeleteAll"], Except.error errTxDone)
  VariantInsert := fun s _ => (s ++ ["Variant.Insert"], some errTxDone)
  ImagesDeleteAll := fun s _ => (s ++ ["Images.DeleteAll"], Except.error errTxDone)
  ImageInsert := fun s _ => (s ++ ["Image.Insert"], some errTxDone)
  VideosDeleteAll := fun s _ => (s ++ ["Videos.DeleteAll"], Except.error errTxDone)
  VideoUpsert := fun s _ => (s ++ ["Video.Upsert"], some errTxDone)

/-- The media items of the case "TX error" of `Test_requestTx_updateImages`. -/
def mediaTxError : List shop.Media :=
  [{ Id := 121, Label := "First image on second article",
     Url := "https://bucket.s3.com/firstonsecond.jpg" },
   { Id := 123, Label := "Third image on second article",
     Url := "https://bucket.s3.com/thirdonsecond.jpg" }]

/-- The variants of the case "Cleanup Error" of `Test_requestTx_updateVariants`. -/
def variantsCleanupError : List shop.Variant :=
  [{ Id := 0, Labels := ["a", "new", "hope"], Multiplier := "2" }]

end server

namespace server

/-- The error of a step of the logging server that is set to fail. -/
def errStep : goError := goError.status (status.Error codes.Code.Internal "Database error")

/-- The error of a commit that fails. -/
def errCommit : goError := goError.driver (dbError.other "commit failed: connection lost")

/-- A step of the logging server: it appends its name to the log and returns the
given value, or `errStep` when it is the step that is set to fail. -/
def logStep {α : Type} (fail name : String) (t : List String) (a : α) :
    List String × Except goError α :=
  (t ++ [name], if fail = name then Except.error errStep else Except.ok a)

/-- A step of the logging server that returns an error only. -/
def logStepErr (fail name : String) (t : List String) : List String × Option goError :=
  (t ++ [name], if fail = name then some errStep else none)

/-- A server whose transaction state is the log of the methods called on it.
Every step succeeds with a fixed value, except the step named `fail`; `Commit`
returns `commitErr`. New rows get the id 1. -/
def logServer (fail : String) (commitErr : Option goError) : shopServer (List String) where
  New := fun _ _ => Except.ok []
  NewAuth := fun _ _ _ => Except.ok []
  ShopName := "Test shop"
  rt :=
    { upsertArticle := fun t _ =>
        logStep fail "upsertArticle" t { ID := 1, Title := "", Price := decimal.zero }
      setArticleCategories := fun t _ _ => logStepErr fail "setArticleCategories" t
      setArticleBasePrices := fun t _ _ => logStepErr fail "setArticleBasePrices" t
      updateVariants := fun t _ _ => logStepErr fail "updateVariants" t
      updateImages := fun t _ _ => logStepErr fail "updateImages" t
      updateVideos := fun t _ _ => logStepErr fail "updateVideos" t
      deleteArticle := fun t _ => logStep fail "deleteArticle" t 1
      newOrder := fun t _ => logStep fail "newOrder" t { ID := 1 }
      sendOrderMail := fun t _ _ _ => logStepErr fail "sendOrderMail" t
      encryptOrder := fun t _ => logStep fail "encryptOrder" t ("data", "key")
      saveOrder := fun t so => logStep fail "saveOrder" t { ID := so.Id }
      saveCategories := fun t _ => logStepErr fail "saveCategories" t
      listCategories := fun t _ => logStep fail "listCategories" t []
      upsertBasePrice := fun t sbp => logStep fail "upsertBasePrice" t sbp
      deleteBasePrice := fun t _ => logStep fail "deleteBasePrice" t { Rows := 1 }
      newMessage := fun t _ => logStep fail "newMessage" t { ID := 1 }
      sendMail := fun t _ _ => logStepErr fail "sendMail" t
      Commit := fun t => (t ++ ["Commit"], commitErr)
      Done := fun t => t ++ ["Done"] }

/-- The message of the case "Success" of `Test_shopServer_SendMessage`. -/
def testMessage : shop.Message :=
  { Name := "Muhlemmer", Email := "foo@bar.com", Phone := "+407889924345",
    Subject := "Hello world!", Message := "Spanac!" }

/-- A server with the commit of `s` taken as successful: the state that `Commit`
leaves is kept and its error is dropped. -/
def commitErrorDropped {σ : Type} (s : shopServer σ) : shopServer σ :=
  { s with rt := { s.rt with Commit := fun t => ((s.rt.Commit t).1, none) } }

end server

namespace server

/-- A request to save the article of the case "All fields" with a token. -/
def reqArticle : shop.Article := { articleAllFields with Token := "token" }

/-- A request to delete article 11. -/
def reqArticleID : shop.ArticleID := { Id := 11, Token := "token" }

/-- An order with a token. -/
def reqOrder : shop.Order :=
  { Id := 5, FullName := "Foo Bar", Email := "foo@bar.com", Phone := "0123456789",
    FullAddress := "Main street 1", Token := "token" }

/-- A list of categories with a token. -/
def reqCategories : shop.CategoryList :=
  { List := [{ Id := 1, Label := "one" }], Token := "token" }

/-- A base price with a token. -/
def reqBasePrice : shop.BasePrice := { Id := 31, Label := "Cheap", Price := "44.55", Token := "token" }

/-- The log of a result of a write operation; empty when no transaction was
opened. -/
def logOf {β : Type} (r : Option (List String) × β) : List String := r.1.getD []

end server

/-! ## Agreement with the expected values of the repository tests -/

namespace builder

/-- Test `TestRelation_build`, case "Images". -/
theorem TestRelation_build_Images :
    ({ name := "images", columns := ["url", "label"], id := "article_id" } : relation).build "shop" "r1" =
      ("r1 as (\n\tselect arts.id, coalesce(json_agg(\n\t\tjson_build_object(\n\t\t\t'url', r.url, 'label', r.label\n\t\t)\n\t) filter (where r.id is not null), null::JSON) as js\n\tfrom arts\n\tleft join shop.images r on r.article_id = arts.id\n\tgroup by arts.id\n)",
       ["'images'", "r1.js"]) := by rfl

/-- Test `TestRelation_build`, case "Categories". -/
theorem TestRelation_build_Categories :
    ({ name := "categories", columns := ["id", "label"], id := "id",
       joinTable := "category_articles", joinIDs := ("article_id", "category_id") } : relation).build
        "shop" "r1" =
      ("r1 as (\n\tselect arts.id, coalesce(json_agg(\n\t\tjson_build_object(\n\t\t\t'id', r.id, 'label', r.label\n\t\t)\n\t) filter (where r.id is not null), null::JSON) as js\n\tfrom arts\n\tleft join shop.category_articles j on j.article_id = arts.id\n\tleft join shop.categories r on r.id = j.category_id\n\tgroup by arts.id\n)",
       ["'categories'", "r1.js"]) := by rfl

/-- Test `TestList_query`, case "All arts no limits". -/
theorem TestList_query_noLimits :
    ({ name := "articles", columns := ["id", "title", "price"], relations := [], limit := 0,
       offset := 0 } : list).query "shop" "" =
      "with filters as (\n\tselect m.id\n\tfrom shop.articles m\n\t\n),\narts as (\n\tselect a.id, a.title, a.price\n\tfrom filters f\n\tjoin shop.articles a on a.id = f.id\n\t\n)\nselect json_agg(\n\tjson_build_object(\n\t\t'id', a.id, 'title', a.title, 'price', a.price::text\n\t)\n)\nfrom arts a\n;" := by rfl

/-- Test `TestList_query`, case "All arts with images". -/
theorem TestList_query_images :
    ({ name := "articles", columns := ["id", "title", "price"],
       relations := [{ name := "images", columns := ["url", "label"], id := "article_id" }],
       limit := 25, offset := 0 } : list).query "shop" "" =
      "with filters as (\n\tselect m.id\n\tfrom shop.articles m\n\t\n),\narts as (\n\tselect a.id, a.title, a.price\n\tfrom filters f\n\tjoin shop.articles a on a.id = f.id\n\tlimit 25\n\toffset 0\n),\nr0 as (\n\tselect arts.id, coalesce(json_agg(\n\t\tjson_build_object(\n\t\t\t'url', r.url, 'label', r.label\n\t\t)\n\t) filter (where r.id is not null), null::JSON) as js\n\tfrom arts\n\tleft join shop.images r on r.article_id = arts.id\n\tgroup by arts.id\n)\nselect json_agg(\n\tjson_build_object(\n\t\t'id', a.id, 'title', a.title, 'price', a.price::text, 'images', r0.js\n\t)\n)\nfrom arts a\njoin r0 on a.id = r0.id;" := by rfl

/-- Test `TestList_query`, case "All arts with images and categories". -/
theorem TestList_query_imagesCategories :
    listImagesCategories.query "shop" "" =
      "with filters as (\n\tselect m.id\n\tfrom shop.articles m\n\t\n),\narts as (\n\tselect a.id, a.title, a.price\n\tfrom filters f\n\tjoin shop.articles a on a.id = f.id\n\tlimit 25\n\toffset 0\n),\nr0 as (\n\tselect arts.id, coalesce(json_agg(\n\t\tjson_build_object(\n\t\t\t'url', r.url, 'label', r.label\n\t\t)\n\t) filter (where r.id is not null), null::JSON) as js\n\tfrom arts\n\tleft join shop.images r on r.article_id = arts.id\n\tgroup by arts.id\n),\nr1 as (\n\tselect arts.id, coalesce(json_agg(\n\t\tjson_build_object(\n\t\t\t'id', r.id, 'label', r.label\n\t\t)\n\t) filter (where r.id is not null), null::JSON) as js\n\tfrom arts\n\tleft join shop.category_articles j on j.article_id = arts.id\n\tleft join shop.categories r on r.id = j.category_id\n\tgroup by arts.id\n)\nselect json_agg(\n\tjson_build_object(\n\t\t'id', a.id, 'title', a.title, 'price', a.price::text, 'images', r0.js, 'categories', r1.js\n\t)\n)\nfrom arts a\njoin r0 on a.id = r0.id\njoin r1 on a.id = r1.id;" := by rfl

/-- Test `TestList_query`, case "All arts with variants". -/
theorem TestList_query_variants :
    listVariants.query "shop" "" =
      "with filters as (\n\tselect m.id\n\tfrom shop.articles m\n\t\n),\narts as (\n\tselect a.id, a.title, a.price\n\tfrom filters f\n\tjoin shop.articles a on a.id = f.id\n\tlimit 100\n\toffset 200\n),\nr0 as (\n\tselect arts.id, coalesce(json_agg(\n\t\tjson_build_object(\n\t\t\t'labels', r.labels, 'multiplier', r.multiplier::text\n\t\t)\n\t) filter (where r.id is not null), null::JSON) as js\n\tfrom arts\n\tleft join shop.variants r on r.article_id = arts.id\n\tgroup by arts.id\n)\nselect json_agg(\n\tjson_build_object(\n\t\t'id', a.id, 'title', a.title, 'price', a.price::text, 'variants', r0.js\n\t)\n)\nfrom arts a\njoin r0 on a.id = r0.id;" := by rfl

/-- Test `TestArticleListQuery`, case "Defaults". -/
theorem TestArticleListQuery_Defaults :
    ((ArticleListQuery DefaultLimit condEmpty "shop").query,
      (ArticleListQuery DefaultLimit condEmpty "shop").args,
      (ArticleListQuery DefaultLimit condEmpty "shop").err) =
      ("with filters as (\n\tselect m.id\n\tfrom shop.articles m\n\t\n),\narts as (\n\tselect a.id, a.title, a.price, a.promoted\n\tfrom filters f\n\tjoin shop.articles a on a.id = f.id\n\tlimit 25\n\toffset 0\n),\nr0 as (\n\tselect arts.id, coalesce(json_agg(\n\t\tjson_build_object(\n\t\t\t'url', r.url, 'label', r.label\n\t\t)\n\t) filter (where r.id is not null), null::JSON) as js\n\tfrom arts\n\tleft join shop.images r on r.article_id = arts.id\n\tgroup by arts.id\n)\nselect json_agg(\n\tjson_build_object(\n\t\t'id', a.id, 'title', a.title, 'price', a.price::text, 'promoted', a.promoted, 'images', r0.js\n\t)\n)\nfrom arts a\njoin r0 on a.id = r0.id;",
       [], none) := by rfl

/-- Test `TestArticleListQuery`, case "All articles, all relations and all fields":
the six subqueries, the arguments of the final object and the joins of the
expected statement, which is `listQuery` applied to them. -/
theorem TestArticleListQuery_all :
    (ArticleListQuery DefaultLimit condAll "shop").err = none ∧
    (ArticleListQuery DefaultLimit condAll "shop").args = [] ∧
    (ArticleListQuery DefaultLimit condAll "shop").query =
      listAll.query "shop" "" ∧
    (listAll.vars "shop" "").ctes =
      ["filters as (\n\tselect m.id\n\tfrom shop.articles m\n\t\n),\narts as (\n\tselect a.id, a.created_at, a.updated_at, a.published, a.title, a.description, a.price, a.promoted\n\tfrom filters f\n\tjoin shop.articles a on a.id = f.id\n\tlimit 25\n\toffset 0\n)",
       "r0 as (\n\tselect arts.id, coalesce(json_agg(\n\t\tjson_build_object(\n\t\t\t'id', r.id, 'label', r.label, 'url', r.url\n\t\t)\n\t) filter (where r.id is not null), null::JSON) as js\n\tfrom arts\n\tleft join shop.images r on r.article_id = arts.id\n\tgroup by arts.id\n)",
       "r1 as (\n\tselect arts.id, coalesce(json_agg(\n\t\tjson_build_object(\n\t\t\t'id', r.id, 'label', r.label, 'url', r.url\n\t\t)\n\t) filter (where r.id is not null), null::JSON) as js\n\tfrom arts\n\tleft join shop.videos r on r.article_id = arts.id\n\tgroup by arts.id\n)",
       "r2 as (\n\tselect arts.id, coalesce(json_agg(\n\t\tjson_build_object(\n\t\t\t'id', r.id, 'created_at', r.created_at, 'updated_at', r.updated_at, 'label', r.label\n\t\t)\n\t) filter (where r.id is not null), null::JSON) as js\n\tfrom arts\n\tleft join shop.category_articles j on j.article_id = arts.id\n\tleft join shop.categories r on r.id = j.category_id\n\tgroup by arts.id\n)",
       "r3 as (\n\tselect arts.id, coalesce(json_agg(\n\t\tjson_build_object(\n\t\t\t'id', r.id, 'created_at', r.created_at, 'updated_at', r.updated_at, 'label', r.label, 'price', r.price::text\n\t\t)\n\t) filter (where r.id is not null), null::JSON) as js\n\tfrom arts\n\tleft join shop.article_base_prices j on j.article_id = arts.id\n\tleft join shop.base_prices r on r.id = j.base_price_id\n\tgroup by arts.id\n)",
       "r4 as (\n\tselect arts.id, coalesce(json_agg(\n\t\tjson_build_object(\n\t\t\t'id', r.id, 'created_at', r.created_at, 'updated_at', r.updated_at, 'labels', r.labels, 'multiplier', r.multiplier::text\n\t\t)\n\t) filter (where r.id is not null), null::JSON) as js\n\tfrom arts\n\tleft join shop.variants r on r.article_id = arts.id\n\tgroup by arts.id\n)"] ∧
    Join (listAll.vars "shop" "").jbo ", " =
      "'id', a.id, 'created_at', a.created_at, 'updated_at', a.updated_at, 'published', a.published, 'title', a.title, 'description', a.description, 'price', a.price::text, 'promoted', a.promoted, 'images', r0.js, 'videos', r1.js, 'categories', r2.js, 'base_prices', r3.js, 'variants', r4.js" ∧
    (listAll.vars "shop" "").joins =
      ["join r0 on a.id = r0.id", "join r1 on a.id = r1.id", "join r2 on a.id = r2.id", "join r3 on a.id = r3.id", "join r4 on a.id = r4.id"] := by
  refine ⟨by decide, by decide, by rfl, by rfl, by rfl, by rfl⟩

/-- Test `TestArticleListQuery`, case "Published articles in category with images". -/
theorem TestArticleListQuery_spanac :
    ((ArticleListQuery DefaultLimit
        { condSpanac with
          Fields := [shop.ArticleFields_ID, shop.ArticleFields_TITLE, shop.ArticleFields_PRICE],
          Relations := some { Images := [shop.MediaFields_MD_URL, shop.MediaFields_MD_LABEL],
                              Videos := [], Categories := [], Baseprices := [], Variants := [] } }
        "shop").query,
      (ArticleListQuery DefaultLimit
        { condSpanac with
          Fields := [shop.ArticleFields_ID, shop.ArticleFields_TITLE, shop.ArticleFields_PRICE],
          Relations := some { Images := [shop.MediaFields_MD_URL, shop.MediaFields_MD_LABEL],
                              Videos := [], Categories := [], Baseprices := [], Variants := [] } }
        "shop").args) =
      ("with filters as (\n\tselect m.id\n\tfrom shop.articles m\n\tjoin shop.category_articles ac on ac.article_id = m.id\n\tjoin shop.categories c on c.id = ac.category_id\n\twhere m.published\n\tand c.label = $1\n),\narts as (\n\tselect a.id, a.title, a.price\n\tfrom filters f\n\tjoin shop.articles a on a.id = f.id\n\tlimit 25\n\toffset 0\n),\nr0 as (\n\tselect arts.id, coalesce(json_agg(\n\t\tjson_build_object(\n\t\t\t'url', r.url, 'label', r.label\n\t\t)\n\t) filter (where r.id is not null), null::JSON) as js\n\tfrom arts\n\tleft join shop.images r on r.article_id = arts.id\n\tgroup by arts.id\n)\nselect json_agg(\n\tjson_build_object(\n\t\t'id', a.id, 'title', a.title, 'price', a.price::text, 'images', r0.js\n\t)\n)\nfrom arts a\njoin r0 on a.id = r0.id;",
       [Arg.string "spanac"]) := by rfl

/-- Test `TestArticleListQuery`, cases "Undefined field error" and "Undefined relation field error". -/
theorem TestArticleListQuery_errors :
    (ArticleListQuery DefaultLimit { condEmpty with Fields := [99] } "shop").err.isSome = true ∧
      (ArticleListQuery DefaultLimit
        { condEmpty with
          Fields := [shop.ArticleFields_ID],
          Relations := some { Images := [99], Videos := [], Categories := [], Baseprices := [],
                              Variants := [] } } "shop").err.isSome = true := by decide

/-- Test `Test_filters`, all six cases. -/
theorem Test_filters_cases :
    filters condEmpty "shop" = ("", []) ∧
      filters { condEmpty with OnlyPublished := true } "shop" = ("\n\twhere m.published", []) ∧
      filters { condEmpty with OnlyPromoted := true } "shop" = ("\n\twhere m.promoted", []) ∧
      filters { condEmpty with OnlyCategoryId := 5 } "shop" =
        ("join shop.category_articles ac on ac.article_id = m.id\n\twhere ac.category_id = $1",
         [Arg.int32 5]) ∧
      filters { condEmpty with OnlyCategoryLabel := "spanac" } "shop" =
        ("join shop.category_articles ac on ac.article_id = m.id\n\tjoin shop.categories c on c.id = ac.category_id\n\twhere c.label = $1",
         [Arg.string "spanac"]) ∧
      filters condSpanac "shop" =
        ("join shop.category_articles ac on ac.article_id = m.id\n\tjoin shop.categories c on c.id = ac.category_id\n\twhere m.published\n\tand c.label = $1",
         [Arg.string "spanac"]) := by decide

/-- Test `Test_fieldColumns_columns`, all five cases. -/
theorem Test_fieldColumns_columns_cases :
    tfc.columns [] = ([], 0) ∧ tfc.columns [2, 3] = (["two", "three"], 0) ∧
      tfc.columns [2, 0] = (["one", "two", "three"], 0) ∧ tfc.columns [2, 3, 4] = ([], 4) := by decide

/-- Test `Test_articleRelations`, cases "Baseprice label" and "An error". -/
theorem Test_articleRelations_cases :
    articleRelations { Images := [], Videos := [], Categories := [],
                       Baseprices := [shop.BasePriceFields_BP_LABEL], Variants := [] } =
        ([{ name := "base_prices", columns := ["label"], id := "id",
            joinTable := "article_base_prices", joinIDs := ("article_id", "base_price_id") }],
         none) ∧
      (articleRelations { Images := [99], Videos := [], Categories := [], Baseprices := [],
                          Variants := [] }).2.isSome = true := by decide

end builder

/-! ## The field catalog -/

namespace builder

/-- The loop returns the ALL expansion at the first 0 when every identifier
before it is mapped. -/
theorem columnsLoop_zero (fc : fieldColumns) (fids : List Int) :
    ∀ (i : Nat) (cols : List String), (0 : Int) ∈ fids →
      (∀ id ∈ fids.takeWhile (fun id => decide (id ≠ 0)), (fc.M.lookup id).isSome = true) →
      fc.columnsLoop fids i cols = (fc.all, 0) := by
  induction fids with
  | nil => intro i cols h0; simp at h0
  | cons a rest ih =>
    intro i cols h0 hm
    by_cases ha : a = 0
    · simp [fieldColumns.columnsLoop, ha]
    · have hmem : (0 : Int) ∈ rest := by
        rcases List.mem_cons.1 h0 with h | h
        · exact absurd h.symm ha
        · exact h
      have hhead : (fc.M.lookup a).isSome = true := by
        apply hm
        simp [List.takeWhile, ha]
      have htail : ∀ id ∈ rest.takeWhile (fun id => decide (id ≠ 0)),
          (fc.M.lookup id).isSome = true := by
        intro id hid
        apply hm
        simp only [List.takeWhile, ha, ne_eq, not_false_eq_true, decide_True]
        exact List.mem_cons_of_mem _ hid
      obtain ⟨col, hcol⟩ := Option.isSome_iff_exists.1 hhead
      simp only [fieldColumns.columnsLoop, ha, if_false, hcol]
      exact ih (i + 1) (cols.set i col) hmem htail

/-- The loop returns the first unmapped identifier when no 0 and no other
unmapped identifier precedes it. -/
theorem columnsLoop_unmapped (fc : fieldColumns) (pre rest : List Int) (id : Int) :
    ∀ (i : Nat) (cols : List String),
      (∀ x ∈ pre, x ≠ 0 ∧ (fc.M.lookup x).isSome = true) → id ≠ 0 → fc.M.lookup id = none →
      fc.columnsLoop (pre ++ id :: rest) i cols = ([], id) := by
  induction pre with
  | nil =>
    intro i cols _ h0 hid
    simp [fieldColumns.columnsLoop, h0, hid]
  | cons a pre ih =>
    intro i cols hpre h0 hid
    have ha := hpre a (List.mem_cons_self _ _)
    obtain ⟨col, hcol⟩ := Option.isSome_iff_exists.1 ha.2
    simp only [List.cons_append, fieldColumns.columnsLoop, ha.1, if_false, hcol]
    exact ih (i + 1) (cols.set i col) (fun x hx => hpre x (List.mem_cons_of_mem _ hx)) h0 hid

/-- C1 (counterexample): in the catalog of the test, the request `[4, 0]`
contains the ALL sentinel, yet `columns` returns the unmapped identifier 4 and
no columns instead of the ALL expansion. -/
theorem C1_all_sentinel_counterexample :
    (0 : Int) ∈ [(4 : Int), 0] ∧ tfc.columns [4, 0] = ([], 4) ∧
      tfc.columns [4, 0] ≠ (tfc.all, 0) := by
  decide

/-- C1 (amended): for every field catalog and every request that contains the
ALL sentinel 0, if every identifier before the first 0 is mapped then `columns`
returns the ALL expansion and failing identifier 0, whatever follows the 0. -/
theorem C1_all_sentinel (fc : fieldColumns) (fids : List Int) (h0 : (0 : Int) ∈ fids)
    (hm : ∀ id ∈ fids.takeWhile (fun id => decide (id ≠ 0)),
      (fc.M.lookup id).isSome = true) :
    fc.columns fids = (fc.all, 0) :=
  columnsLoop_zero fc fids 0 _ h0 hm

/-- C1 (witness): the request `[2, 0, 4]` of the test catalog, with an unmapped
identifier after the sentinel. -/
theorem C1_all_sentinel_witness : tfc.columns [2, 0, 4] = (["one", "two", "three"], 0) :=
  C1_all_sentinel tfc [2, 0, 4] (by decide) (by decide)

end builder

namespace builder

/-- Resolution through a public wrapper fails with Unimplemented at the first
unmapped identifier. -/
theorem wrapColumns_unmapped (fc : fieldColumns) (names : List (Int × String))
    (pre rest : List Int) (id : Int)
    (hpre : ∀ x ∈ pre, x ≠ 0 ∧ (fc.M.lookup x).isSome = true) (h0 : id ≠ 0)
    (hid : fc.M.lookup id = none) :
    wrapColumns fc names (pre ++ id :: rest) =
      ([], some (status.Error codes.Code.Unimplemented (fieldErr (shop.EnumName names id)))) := by
  have h : fc.columns (pre ++ id :: rest) = ([], id) :=
    columnsLoop_unmapped fc pre rest id 0 _ hpre h0 hid
  simp [wrapColumns, h, h0]

/-- C2 (counterexample): the request `[0, 4]` of the test catalog contains the
unmapped identifier 4, yet `columns` returns the ALL expansion and failing
identifier 0; likewise `ArticleColumns` returns all columns and no error for
`[ALL, 9]`. -/
theorem C2_unmapped_counterexample :
    (4 : Int) ∈ [(0 : Int), 4] ∧ tfc.M.lookup 4 = none ∧
      tfc.columns [0, 4] = (["one", "two", "three"], 0) ∧
      ArticleFieldColumns.M.lookup 9 = none ∧
      ArticleColumns [shop.ArticleFields_ALL, 9] = (ArticleFieldColumns.all, none) := by
  decide

/-- C2 (amended): for every field catalog and every request in which an unmapped
non-zero identifier `id` is preceded only by mapped non-zero identifiers,
`columns` returns `id` and no columns; each of the six public wrappers then
returns no columns and an Unimplemented error naming `id`. -/
theorem C2_unmapped (fc : fieldColumns) (pre rest : List Int) (id : Int)
    (hpre : ∀ x ∈ pre, x ≠ 0 ∧ (fc.M.lookup x).isSome = true) (h0 : id ≠ 0)
    (hid : fc.M.lookup id = none) :
    fc.columns (pre ++ id :: rest) = ([], id) ∧
    (fc = ArticleFieldColumns → ArticleColumns (pre ++ id :: rest) =
      ([], some ⟨codes.Code.Unimplemented,
        fieldErr (shop.EnumName shop.ArticleFields_name id)⟩)) ∧
    (fc = ImageFieldColumns → ImageColumns (pre ++ id :: rest) =
      ([], some ⟨codes.Code.Unimplemented,
        fieldErr (shop.EnumName shop.MediaFields_name id)⟩)) ∧
    (fc = VideoFieldColumns → VideoColumns (pre ++ id :: rest) =
      ([], some ⟨codes.Code.Unimplemented,
        fieldErr (shop.EnumName shop.MediaFields_name id)⟩)) ∧
    (fc = CategoryFieldColumns → CategoryColumns (pre ++ id :: rest) =
      ([], some ⟨codes.Code.Unimplemented,
        fieldErr (shop.EnumName shop.CategoryFields_name id)⟩)) ∧
    (fc = BasePriceFieldColumns → BasePriceColumns (pre ++ id :: rest) =
      ([], some ⟨codes.Code.Unimplemented,
        fieldErr (shop.EnumName shop.BasePriceFields_name id)⟩)) ∧
    (fc = VariantFieldColumns → VariantColumns (pre ++ id :: rest) =
      ([], some ⟨codes.Code.Unimplemented,
        fieldErr (shop.EnumName shop.VariantFields_name id)⟩)) := by
  refine ⟨columnsLoop_unmapped fc pre rest id 0 _ hpre h0 hid, ?_, ?_, ?_, ?_, ?_, ?_⟩ <;>
    · intro hfc
      subst hfc
      exact wrapColumns_unmapped _ _ pre rest id hpre h0 hid

/-- C2 (witness): the article request `[ID, TITLE, 9]` of `TestArticleColumns`. -/
theorem C2_unmapped_witness :
    ArticleFieldColumns.columns ([1, 5] ++ 9 :: []) = ([], 9) ∧
      ArticleColumns ([1, 5] ++ 9 :: []) =
        ([], some ⟨codes.Code.Unimplemented, "Field 9 not defined"⟩) :=
  ⟨(C2_unmapped ArticleFieldColumns [1, 5] [] 9 (by decide) (by decide) (by decide)).1,
   (C2_unmapped ArticleFieldColumns [1, 5] [] 9 (by decide) (by decide) (by decide)).2.1 rfl⟩

end builder

/-! ## The list query: closed forms of the two loops -/

namespace builder

/-- The first loop of `list.query` in closed form. -/
theorem columnsFold_eq (cols : List String) :
    ∀ (sel jbo : List String),
      cols.foldl list.columnsStep (sel, jbo) =
        (sel ++ (cols.filter (fun c => decide (c ≠ "id"))).map (fun c => "a." ++ c),
         jbo ++ cols.flatMap (fun c => ["'" ++ c ++ "'", jboCast "a" c])) := by
  induction cols with
  | nil => intro sel jbo; simp
  | cons c cols ih =>
    intro sel jbo
    rw [List.foldl_cons, list.columnsStep, ih]
    by_cases hc : c = "id"
    · simp [hc]
    · simp [hc]

/-- Writing slot `i` of the preallocated `joins` slice. -/
theorem set_replicate_succ (done : List String) (n : Nat) (x : String) :
    (done ++ List.replicate (n + 1) "").set done.length x =
      (done ++ [x]) ++ List.replicate n "" := by
  simp [List.set_append, List.replicate_succ]

/-- The second loop of `list.query` in closed form. -/
theorem relationsLoop_eq (schema : String) (rels : List relation) :
    ∀ (i : Nat) (ctes jbo done : List String), done.length = i →
      list.relationsLoop schema rels i (ctes, jbo, done ++ List.replicate rels.length "") =
        (ctes ++ (rels.enumFrom i).map
            (fun p => (p.2.build schema ("r" ++ toString p.1)).1),
         jbo ++ (rels.enumFrom i).flatMap
            (fun p => ["'" ++ p.2.name ++ "'", "r" ++ toString p.1 ++ ".js"]),
         done ++ (rels.enumFrom i).map
            (fun p => "join " ++ ("r" ++ toString p.1) ++ " on a.id = " ++
              ("r" ++ toString p.1) ++ ".id")) := by
  induction rels with
  | nil => intro i ctes jbo done _; simp [list.relationsLoop]
  | cons r rels ih =>
    intro i ctes jbo done hlen
    subst hlen
    simp only [list.relationsLoop, List.length_cons, set_replicate_succ]
    rw [ih (done.length + 1) _ _ (done ++ [_]) (by simp)]
    simp [List.enumFrom_cons, relation.build]

end builder

namespace builder

/-- The local variables of `list.query` in closed form. -/
theorem vars_eq (l : list) (schema filters : String) :
    l.vars schema filters =
      { sel := "a.id" :: (l.columns.filter (fun c => decide (c ≠ "id"))).map (fun c => "a." ++ c),
        jbo := l.columns.flatMap (fun c => ["'" ++ c ++ "'", jboCast "a" c]) ++
          l.relations.enum.flatMap
            (fun p => ["'" ++ p.2.name ++ "'", "r" ++ toString p.1 ++ ".js"]),
        limits :=
          if l.limit ≠ 0 then "limit " ++ toString l.limit ++ "\n\toffset " ++ toString l.offset
          else "",
        ctes :=
          mainCTE schema l.name filters
            (Join ("a.id" ::
              (l.columns.filter (fun c => decide (c ≠ "id"))).map (fun c => "a." ++ c)) ", ")
            (if l.limit ≠ 0 then
              "limit " ++ toString l.limit ++ "\n\toffset " ++ toString l.offset
             else "") ::
          l.relations.enum.map (fun p => (p.2.build schema ("r" ++ toString p.1)).1),
        joins := l.relations.enum.map
          (fun p => "join " ++ ("r" ++ toString p.1) ++ " on a.id = " ++
            ("r" ++ toString p.1) ++ ".id") } := by
  have h := relationsLoop_eq schema l.relations 0
  simp only [List.length_nil, List.nil_append, forall_const] at h
  have h2 := fun ctes jbo => h ctes jbo [] rfl
  simp only [List.nil_append] at h2
  simp only [list.vars, columnsFold_eq, h2, List.enum]
  simp

/-- Keys of an argument list built from key and value pairs. -/
theorem jboKeys_flatMap {α : Type} (k v : α → String) (xs : List α) (rest : List String) :
    jboKeys (xs.flatMap (fun x => [k x, v x]) ++ rest) = xs.map k ++ jboKeys rest := by
  induction xs with
  | nil => simp
  | cons x xs ih =>
    have e : ([k x, v x] ++ xs.flatMap (fun x => [k x, v x])) ++ rest =
        k x :: v x :: (xs.flatMap (fun x => [k x, v x]) ++ rest) := rfl
    rw [List.flatMap_cons, e, jboKeys, ih]
    rfl

/-- Values of an argument list built from key and value pairs. -/
theorem jboValues_flatMap {α : Type} (k v : α → String) (xs : List α) (rest : List String) :
    jboValues (xs.flatMap (fun x => [k x, v x]) ++ rest) = xs.map v ++ jboValues rest := by
  induction xs with
  | nil => simp
  | cons x xs ih =>
    have e : ([k x, v x] ++ xs.flatMap (fun x => [k x, v x])) ++ rest =
        k x :: v x :: (xs.flatMap (fun x => [k x, v x]) ++ rest) := rfl
    rw [List.flatMap_cons, e, jboValues, ih]
    rfl

end builder

/-! ## The list query: key order, select list, limits -/

namespace builder

/-- Length of an argument list built from key and value pairs. -/
theorem length_flatMap_pair {α : Type} (k v : α → String) (xs : List α) :
    (xs.flatMap (fun x => [k x, v x])).length = 2 * xs.length := by
  induction xs with
  | nil => rfl
  | cons x xs ih =>
    rw [List.flatMap_cons, List.length_append, ih, List.length_cons, List.length_cons,
      List.length_cons, List.length_nil]
    omega

/-- C3 (counterexample): with the article columns requested as title, id the
keys of the final object are 'title', 'id' and not 'id', 'title'; with the
title alone requested there is no 'id' key at all. -/
theorem C3_key_order_counterexample :
    jboKeys (listTitleId.vars "shop" "").jbo = ["'title'", "'id'"] ∧
      jboKeys (listTitleId.vars "shop" "").jbo ≠
        "'id'" :: ((listTitleId.columns.filter (fun c => decide (c ≠ "id"))).map
          (fun c => "'" ++ c ++ "'") ++ listTitleId.relations.map (fun r => "'" ++ r.name ++ "'")) ∧
      jboKeys (listTitle.vars "shop" "").jbo = ["'title'"] ∧
      listTitleId.query "shop" "" =
        "with filters as (\n\tselect m.id\n\tfrom shop.articles m\n\t\n),\narts as (\n\tselect a.id, a.title\n\tfrom filters f\n\tjoin shop.articles a on a.id = f.id\n\t\n)\nselect json_agg(\n\tjson_build_object(\n\t\t'title', a.title, 'id', a.id\n\t)\n)\nfrom arts a\n;" := by
  refine ⟨by decide, by decide, by decide, by rfl⟩

/-- C3 (amended): the argument list of the final `json_build_object` emitted by
`list.query` has as keys every requested article column in request order (so
'id' comes first exactly when it is requested first), each paired with its
`jboCast` value, followed by one key per relation in relation order, the name of
relation `i` being paired with `r<i>.js`. -/
theorem C3_key_order (l : list) (schema filters : String) :
    l.query schema filters =
        listQuery (Join (l.vars schema filters).ctes ",\n")
          (Join (l.vars schema filters).jbo ", ") (Join (l.vars schema filters).joins "\n") ∧
      jboKeys (l.vars schema filters).jbo =
        l.columns.map (fun c => "'" ++ c ++ "'") ++
          l.relations.map (fun r => "'" ++ r.name ++ "'") ∧
      jboValues (l.vars schema filters).jbo =
        l.columns.map (fun c => jboCast "a" c) ++
          l.relations.enum.map (fun p => "r" ++ toString p.1 ++ ".js") ∧
      (l.vars schema filters).jbo.length = 2 * l.columns.length + 2 * l.relations.length := by
  refine ⟨rfl, ?_, ?_, ?_⟩
  · rw [vars_eq]
    simp only []
    rw [jboKeys_flatMap (fun c => "'" ++ c ++ "'") (fun c => jboCast "a" c)]
    have h := jboKeys_flatMap (fun p : Nat × relation => "'" ++ p.2.name ++ "'")
      (fun p => "r" ++ toString p.1 ++ ".js") l.relations.enum []
    rw [List.append_nil] at h
    rw [h]
    have e : l.relations.enum.map (fun p => "'" ++ p.2.name ++ "'") =
        (l.relations.enum.map Prod.snd).map (fun r => "'" ++ r.name ++ "'") := by
      rw [List.map_map]; rfl
    rw [e, List.enum_map_snd]
    simp [jboKeys]
  · rw [vars_eq]
    simp only []
    rw [jboValues_flatMap (fun c => "'" ++ c ++ "'") (fun c => jboCast "a" c)]
    have h := jboValues_flatMap (fun p : Nat × relation => "'" ++ p.2.name ++ "'")
      (fun p => "r" ++ toString p.1 ++ ".js") l.relations.enum []
    rw [List.append_nil] at h
    rw [h]
    simp [jboValues]
  · rw [vars_eq]
    simp only [List.length_append, length_flatMap_pair, List.enum_length]

end builder

/-! ## The list query: positional aliases -/

namespace builder

/-- The template `mainCTE` declares the two subqueries `filters` and `arts`. -/
theorem mainCTE_named (schema name filters sel limits : String) :
    mainCTE schema name filters sel limits =
      namedSubquery "filters" (filtersBody schema name filters) ++ ",\n" ++
        namedSubquery "arts" (artsBody sel limits) := by
  have h1 : "filters as (\n\tselect m.id\n\tfrom " =
      "filters" ++ (" as (" ++ "\n\tselect m.id\n\tfrom ") := by decide
  have h2 : "\n),\narts as (\n\tselect " =
      "\n" ++ (")" ++ (",\n" ++ ("arts" ++ (" as (" ++ "\n\tselect ")))) := by decide
  have h3 : "\n)" = "\n" ++ ")" := by decide
  simp only [mainCTE, namedSubquery, filtersBody, artsBody, h1, h2, h3, String.append_assoc]

/-- The template `relationCTE` declares one subquery, named by its alias. -/
theorem relationCTE_named (aliasName jbo joins : String) :
    relationCTE aliasName jbo joins = namedSubquery aliasName (relationBody jbo joins) := by
  have h1 : " as (\n\tselect arts.id, coalesce(json_agg(\n\t\tjson_build_object(\n\t\t\t" =
      " as (" ++ "\n\tselect arts.id, coalesce(json_agg(\n\t\tjson_build_object(\n\t\t\t" := by
    decide
  have h2 : "\n\tgroup by arts.id\n)" = "\n\tgroup by arts.id\n" ++ ")" := by decide
  simp only [relationCTE, namedSubquery, relationBody, h1, h2, String.append_assoc]

/-- Joining a list whose head already holds two joined items. -/
theorem Join_head_pair (x y sep : String) (rest : List String) :
    Join ((x ++ sep ++ y) :: rest) sep = Join (x :: y :: rest) sep := by
  cases rest with
  | nil => simp [Join]
  | cons r rs => simp [Join, String.append_assoc]

/-- Elements of an argument list built from key and value pairs. -/
theorem getElem?_flatMap_pair {α : Type} (k v : α → String) (xs : List α) :
    ∀ i : Nat, (xs.flatMap (fun x => [k x, v x]))[2 * i]? = xs[i]?.map k ∧
      (xs.flatMap (fun x => [k x, v x]))[2 * i + 1]? = xs[i]?.map v := by
  induction xs with
  | nil => intro i; simp
  | cons x xs ih =>
    intro i
    have e : (x :: xs).flatMap (fun x => [k x, v x]) =
        k x :: v x :: xs.flatMap (fun x => [k x, v x]) := rfl
    rw [e]
    cases i with
    | zero => simp
    | succ j =>
      have e1 : 2 * (j + 1) = (2 * j) + 1 + 1 := by omega
      rw [e1]
      simp only [List.getElem?_cons_succ]
      exact ih j

end builder

/-! ## The relation subqueries in closed form -/

namespace builder

/-- The loop of `relation.build` in closed form. -/
theorem buildFold_eq (cols : List String) :
    ∀ acc : List String,
      cols.foldl (fun jbo c => jbo ++ ["'" ++ c ++ "'", jboCast "r" c]) acc =
        acc ++ cols.flatMap (fun c => ["'" ++ c ++ "'", jboCast "r" c]) := by
  induction cols with
  | nil => intro acc; simp
  | cons c cols ih =>
    intro acc
    rw [List.foldl_cons, ih, List.flatMap_cons, List.append_assoc]

/-- The method `relation.build` in closed form: one subquery named by the alias,
and the key and value for the final object. -/
theorem build_eq (r : relation) (schema aliasName : String) :
    r.build schema aliasName =
      (namedSubquery aliasName
        (relationBody (Join (r.columns.flatMap (fun c => ["'" ++ c ++ "'", jboCast "r" c])) ", ")
          (r.joins schema)),
       ["'" ++ r.name ++ "'", aliasName ++ ".js"]) := by
  simp only [relation.build, buildFold_eq, List.nil_append, relationCTE_named]

end builder

namespace builder

/-- C10: relation aliasing in `list.query` is positional. For `n` relations the
`with` clause consists of exactly `2 + n` named subqueries: `filters`, `arts`,
and for the relation at position `i` (0-based) a subquery named `r<i>`; the
final object pairs the name of relation `i` with `r<i>.js`, and the final
statement has exactly `n` joins, the one at position `i` being
`join r<i> on a.id = r<i>.id`. The alias depends on the position only. The
statement that `list.query` returns is, written out: `with`, these `2 + n`
subqueries joined by a comma and a newline, the `select` of the final object,
`from arts a`, these `n` joins one per line, and a semicolon. -/
theorem C10_positional_aliases (l : list) (schema filters : String) :
    (l.vars schema filters).joins.length = l.relations.length ∧
    (∀ (i : Nat) (h : i < l.relations.length),
      (l.vars schema filters).ctes[i + 1]? =
          some (namedSubquery ("r" ++ toString i)
            (relationBody
              (Join (l.relations[i].columns.flatMap
                (fun c => ["'" ++ c ++ "'", jboCast "r" c])) ", ")
              (l.relations[i].joins schema))) ∧
        (l.vars schema filters).joins[i]? =
          some ("join " ++ ("r" ++ toString i) ++ " on a.id = " ++ ("r" ++ toString i) ++ ".id") ∧
        (l.vars schema filters).jbo[2 * l.columns.length + 2 * i]? =
          some ("'" ++ l.relations[i].name ++ "'") ∧
        (l.vars schema filters).jbo[2 * l.columns.length + 2 * i + 1]? =
          some ("r" ++ toString i ++ ".js")) ∧
    Join (l.vars schema filters).ctes ",\n" =
      Join (namedSubquery "filters" (filtersBody schema l.name filters) ::
            namedSubquery "arts"
              (artsBody (Join (l.vars schema filters).sel ", ") (l.vars schema filters).limits) ::
            l.relations.enum.map (fun p =>
              namedSubquery ("r" ++ toString p.1)
                (relationBody
                  (Join (p.2.columns.flatMap (fun c => ["'" ++ c ++ "'", jboCast "r" c])) ", ")
                  (p.2.joins schema)))) ",\n" ∧
    (namedSubquery "filters" (filtersBody schema l.name filters) ::
      namedSubquery "arts"
        (artsBody (Join (l.vars schema filters).sel ", ") (l.vars schema filters).limits) ::
      l.relations.enum.map (fun p =>
        namedSubquery ("r" ++ toString p.1)
          (relationBody
            (Join (p.2.columns.flatMap (fun c => ["'" ++ c ++ "'", jboCast "r" c])) ", ")
            (p.2.joins schema)))).length = 2 + l.relations.length ∧
    l.query schema filters =
      listQuery (Join (l.vars schema filters).ctes ",\n")
        (Join (l.vars schema filters).jbo ", ") (Join (l.vars schema filters).joins "\n") ∧
    l.query schema filters =
      "with " ++
        Join
          (("filters as (\n\tselect m.id\n\tfrom " ++ schema ++ "." ++ l.name ++ " m\n\t" ++ filters ++
              "\n)") ::
           ("arts as (\n\tselect " ++
              Join ("a.id" ::
                (l.columns.filter (fun c => decide (c ≠ "id"))).map (fun c => "a." ++ c)) ", " ++
              "\n\tfrom filters f\n\tjoin shop.articles a on a.id = f.id\n\t" ++
              (if l.limit ≠ 0 then
                "limit " ++ toString l.limit ++ "\n\toffset " ++ toString l.offset
               else "") ++
              "\n)") ::
           l.relations.enum.map (fun p =>
             "r" ++ toString p.1 ++
               " as (\n\tselect arts.id, coalesce(json_agg(\n\t\tjson_build_object(\n\t\t\t" ++
               Join (p.2.columns.flatMap (fun c => ["'" ++ c ++ "'", jboCast "r" c])) ", " ++
               "\n\t\t)\n\t) filter (where r.id is not null), null::JSON) as js\n\tfrom arts\n\t" ++
               p.2.joins schema ++ "\n\tgroup by arts.id\n)"))
          ",\n" ++
        "\nselect json_agg(\n\tjson_build_object(\n\t\t" ++
        Join
          (l.columns.flatMap (fun c => ["'" ++ c ++ "'", jboCast "a" c]) ++
            l.relations.enum.flatMap
              (fun p => ["'" ++ p.2.name ++ "'", "r" ++ toString p.1 ++ ".js"]))
          ", " ++
        "\n\t)\n)\nfrom arts a\n" ++
        Join
          (l.relations.enum.map
            (fun p => "join " ++ ("r" ++ toString p.1) ++ " on a.id = " ++ ("r" ++ toString p.1) ++
              ".id"))
          "\n" ++
        ";" := by
  refine ⟨?_, ?_, ?_, ?_, rfl, ?_⟩
  · rw [vars_eq]
    simp
  · intro i h
    have hget : l.relations[i]? = some l.relations[i] := List.getElem?_eq_getElem h
    rw [vars_eq]
    simp only []
    refine ⟨?_, ?_, ?_, ?_⟩
    · rw [List.getElem?_cons_succ, List.getElem?_map, List.getElem?_enum, hget]
      simp [build_eq]
    · rw [List.getElem?_map, List.getElem?_enum, hget]
      simp
    · have hlen := length_flatMap_pair (fun c => "'" ++ c ++ "'") (fun c => jboCast "a" c)
        l.columns
      rw [List.getElem?_append_right (by omega), hlen, Nat.add_sub_cancel_left,
        (getElem?_flatMap_pair (fun p : Nat × relation => "'" ++ p.2.name ++ "'")
          (fun p => "r" ++ toString p.1 ++ ".js") l.relations.enum i).1,
        List.getElem?_enum, hget]
      simp
    · have hlen := length_flatMap_pair (fun c => "'" ++ c ++ "'") (fun c => jboCast "a" c)
        l.columns
      have e : 2 * l.columns.length + 2 * i + 1 - 2 * l.columns.length = 2 * i + 1 := by omega
      rw [List.getElem?_append_right (by omega), hlen, e,
        (getElem?_flatMap_pair (fun p : Nat × relation => "'" ++ p.2.name ++ "'")
          (fun p => "r" ++ toString p.1 ++ ".js") l.relations.enum i).2,
        List.getElem?_enum, hget]
      simp
  · rw [vars_eq]
    simp only []
    rw [mainCTE_named, Join_head_pair]
    simp only [build_eq]
  · simp only [List.length_cons, List.length_map, List.enum_length]
    omega
  · have h2 : "\n),\narts as (\n\tselect " = "\n)" ++ (",\n" ++ "arts as (\n\tselect ") := by
      decide
    rw [← Join_head_pair]
    simp only [list.query, vars_eq, listQuery, mainCTE, relation.build, buildFold_eq,
      List.nil_append, relationCTE]
    simp only [h2, String.append_assoc]

/-- C10 (witness): the two relations of the test "All arts with images and
categories" get the aliases r0 and r1 in request order, and the statement
returned has the four subqueries filters, arts, r0, r1 and the two joins. -/
theorem C10_positional_aliases_witness :
    (listImagesCategories.vars "shop" "").joins[1]? = some "join r1 on a.id = r1.id" ∧
      (listImagesCategories.vars "shop" "").jbo[2 * 3 + 2 * 1]? = some "'categories'" ∧
      (listImagesCategories.vars "shop" "").jbo[2 * 3 + 2 * 1 + 1]? = some "r1.js" ∧
      listImagesCategories.query "shop" "" =
        "with filters as (\n\tselect m.id\n\tfrom shop.articles m\n\t\n),\narts as (\n\tselect a.id, a.title, a.price\n\tfrom filters f\n\tjoin shop.articles a on a.id = f.id\n\tlimit 25\n\toffset 0\n),\nr0 as (\n\tselect arts.id, coalesce(json_agg(\n\t\tjson_build_object(\n\t\t\t'url', r.url, 'label', r.label\n\t\t)\n\t) filter (where r.id is not null), null::JSON) as js\n\tfrom arts\n\tleft join shop.images r on r.article_id = arts.id\n\tgroup by arts.id\n),\nr1 as (\n\tselect arts.id, coalesce(json_agg(\n\t\tjson_build_object(\n\t\t\t'id', r.id, 'label', r.label\n\t\t)\n\t) filter (where r.id is not null), null::JSON) as js\n\tfrom arts\n\tleft join shop.category_articles j on j.article_id = arts.id\n\tleft join shop.categories r on r.id = j.category_id\n\tgroup by arts.id\n)\nselect json_agg(\n\tjson_build_object(\n\t\t'id', a.id, 'title', a.title, 'price', a.price::text, 'images', r0.js, 'categories', r1.js\n\t)\n)\nfrom arts a\njoin r0 on a.id = r0.id\njoin r1 on a.id = r1.id;" :=
  have h := (C10_positional_aliases listImagesCategories "shop" "").2.1 1 (by decide)
  ⟨h.2.1, h.2.2.1, h.2.2.2,
    (C10_positional_aliases listImagesCategories "shop" "").2.2.2.2.2.trans (by rfl)⟩

end builder

namespace builder

end builder

/-! ## ArticleListQuery: failure -/

namespace builder

/-- A public wrapper reports no error exactly when the catalog reports no
failing identifier. -/
theorem wrapColumns_err_none (fc : fieldColumns) (names : List (Int × String))
    (fields : List Int) :
    (wrapColumns fc names fields).2 = none ↔ (fc.columns fields).2 = 0 := by
  by_cases h : (fc.columns fields).2 = 0 <;> simp [wrapColumns, h]

/-- The error of a public wrapper is an Unimplemented error. -/
theorem wrapColumns_err_code (fc : fieldColumns) (names : List (Int × String))
    (fields : List Int) (e : status.Status) (h : (wrapColumns fc names fields).2 = some e) :
    e.code = codes.Code.Unimplemented := by
  by_cases h0 : (fc.columns fields).2 = 0
  · simp [wrapColumns, h0] at h
  · simp [wrapColumns, h0] at h
    rw [← h]
    rfl

/-- The error of `ArticleListQuery` is the first error among the six field
resolutions, and a failing call returns no query and no arguments. -/
theorem ArticleListQuery_err (DL : Int) (cond : shop.ListConditions) (schema : String) :
    (ArticleListQuery DL cond schema).err =
        [(ArticleColumns (defaults DL cond).fields).2,
         (ImageColumns (defaults DL cond).relations.Images).2,
         (VideoColumns (defaults DL cond).relations.Videos).2,
         (CategoryColumns (defaults DL cond).relations.Categories).2,
         (BasePriceColumns (defaults DL cond).relations.Baseprices).2,
         (VariantColumns (defaults DL cond).relations.Variants).2].findSome? id ∧
      ((ArticleListQuery DL cond schema).err = none ∨
        ((ArticleListQuery DL cond schema).query = "" ∧
          (ArticleListQuery DL cond schema).args = [])) := by
  rcases h0 : (ArticleColumns (defaults DL cond).fields).2 with _ | e0
  · rcases h1 : (ImageColumns (defaults DL cond).relations.Images).2 with _ | e1 <;>
    rcases h2 : (VideoColumns (defaults DL cond).relations.Videos).2 with _ | e2 <;>
    rcases h3 : (CategoryColumns (defaults DL cond).relations.Categories).2 with _ | e3 <;>
    rcases h4 : (BasePriceColumns (defaults DL cond).relations.Baseprices).2 with _ | e4 <;>
    rcases h5 : (VariantColumns (defaults DL cond).relations.Variants).2 with _ | e5 <;>
    simp [ArticleListQuery, articleRelations, h0, h1, h2, h3, h4, h5]
  · simp [ArticleListQuery, h0]

end builder

namespace builder

/-- C5: `ArticleListQuery` fails only if field resolution fails. It returns an
error if and only if resolving the defaulted article field list, or the field
list of one of the five relations of the defaulted relations object, reports a
failing identifier; the error is then the Unimplemented error of the first
failing resolution (article, images, videos, categories, base prices,
variants), and the call returns the empty SQL string and no arguments. -/
theorem C5_fails_only_on_resolution (DL : Int) (cond : shop.ListConditions)
    (schema : String) :
    ((ArticleListQuery DL cond schema).err ≠ none ↔
      ((ArticleFieldColumns.columns (defaults DL cond).fields).2 ≠ 0 ∨
       (ImageFieldColumns.columns (defaults DL cond).relations.Images).2 ≠ 0 ∨
       (VideoFieldColumns.columns (defaults DL cond).relations.Videos).2 ≠ 0 ∨
       (CategoryFieldColumns.columns (defaults DL cond).relations.Categories).2 ≠ 0 ∨
       (BasePriceFieldColumns.columns (defaults DL cond).relations.Baseprices).2 ≠ 0 ∨
       (VariantFieldColumns.columns (defaults DL cond).relations.Variants).2 ≠ 0)) ∧
    ((ArticleListQuery DL cond schema).err = none ∨
      ((ArticleListQuery DL cond schema).query = "" ∧
        (ArticleListQuery DL cond schema).args = [] ∧
        ∃ e, (ArticleListQuery DL cond schema).err = some e ∧
          e.code = codes.Code.Unimplemented)) ∧
    (ArticleListQuery DL cond schema).err =
      [(ArticleColumns (defaults DL cond).fields).2,
       (ImageColumns (defaults DL cond).relations.Images).2,
       (VideoColumns (defaults DL cond).relations.Videos).2,
       (CategoryColumns (defaults DL cond).relations.Categories).2,
       (BasePriceColumns (defaults DL cond).relations.Baseprices).2,
       (VariantColumns (defaults DL cond).relations.Variants).2].findSome? id := by
  have herr := ArticleListQuery_err DL cond schema
  have k0 : (ArticleColumns (defaults DL cond).fields).2 ≠ none ↔ (ArticleFieldColumns.columns (defaults DL cond).fields).2 ≠ 0 :=
    not_congr (wrapColumns_err_none ArticleFieldColumns shop.ArticleFields_name (defaults DL cond).fields)
  have k1 : (ImageColumns (defaults DL cond).relations.Images).2 ≠ none ↔ (ImageFieldColumns.columns (defaults DL cond).relations.Images).2 ≠ 0 :=
    not_congr (wrapColumns_err_none ImageFieldColumns shop.MediaFields_name (defaults DL cond).relations.Images)
  have k2 : (VideoColumns (defaults DL cond).relations.Videos).2 ≠ none ↔ (VideoFieldColumns.columns (defaults DL cond).relations.Videos).2 ≠ 0 :=
    not_congr (wrapColumns_err_none VideoFieldColumns shop.MediaFields_name (defaults DL cond).relations.Videos)
  have k3 : (CategoryColumns (defaults DL cond).relations.Categories).2 ≠ none ↔ (CategoryFieldColumns.columns (defaults DL cond).relations.Categories).2 ≠ 0 :=
    not_congr (wrapColumns_err_none CategoryFieldColumns shop.CategoryFields_name (defaults DL cond).relations.Categories)
  have k4 : (BasePriceColumns (defaults DL cond).relations.Baseprices).2 ≠ none ↔ (BasePriceFieldColumns.columns (defaults DL cond).relations.Baseprices).2 ≠ 0 :=
    not_congr (wrapColumns_err_none BasePriceFieldColumns shop.BasePriceFields_name (defaults DL cond).relations.Baseprices)
  have k5 : (VariantColumns (defaults DL cond).relations.Variants).2 ≠ none ↔ (VariantFieldColumns.columns (defaults DL cond).relations.Variants).2 ≠ 0 :=
    not_congr (wrapColumns_err_none VariantFieldColumns shop.VariantFields_name (defaults DL cond).relations.Variants)
  have c0 := wrapColumns_err_code ArticleFieldColumns shop.ArticleFields_name
    (defaults DL cond).fields
  have c1 := wrapColumns_err_code ImageFieldColumns shop.MediaFields_name
    (defaults DL cond).relations.Images
  have c2 := wrapColumns_err_code VideoFieldColumns shop.MediaFields_name
    (defaults DL cond).relations.Videos
  have c3 := wrapColumns_err_code CategoryFieldColumns shop.CategoryFields_name
    (defaults DL cond).relations.Categories
  have c4 := wrapColumns_err_code BasePriceFieldColumns shop.BasePriceFields_name
    (defaults DL cond).relations.Baseprices
  have c5 := wrapColumns_err_code VariantFieldColumns shop.VariantFields_name
    (defaults DL cond).relations.Variants
  refine ⟨?_, ?_, herr.1⟩
  · rw [herr.1, ← k0, ← k1, ← k2, ← k3, ← k4, ← k5]
    rcases (ArticleColumns (defaults DL cond).fields).2 with _ | e0 <;>
    rcases (ImageColumns (defaults DL cond).relations.Images).2 with _ | e1 <;>
    rcases (VideoColumns (defaults DL cond).relations.Videos).2 with _ | e2 <;>
    rcases (CategoryColumns (defaults DL cond).relations.Categories).2 with _ | e3 <;>
    rcases (BasePriceColumns (defaults DL cond).relations.Baseprices).2 with _ | e4 <;>
    rcases (VariantColumns (defaults DL cond).relations.Variants).2 with _ | e5 <;>
    simp
  · rcases herr.2 with h | h
    · exact Or.inl h
    · rcases hE : (ArticleListQuery DL cond schema).err with _ | e
      · exact Or.inl rfl
      · refine Or.inr ⟨h.1, h.2, e, rfl, ?_⟩
        have hf := herr.1
        rw [hE] at hf
        change some e = [(wrapColumns _ _ _).2, (wrapColumns _ _ _).2, (wrapColumns _ _ _).2,
          (wrapColumns _ _ _).2, (wrapColumns _ _ _).2, (wrapColumns _ _ _).2].findSome? id at hf
        obtain ⟨o, ho, hoe⟩ := List.exists_of_findSome?_eq_some hf.symm
        simp only [id] at hoe
        subst hoe
        simp only [List.mem_cons, List.mem_singleton, List.not_mem_nil, or_false] at ho
        rcases ho with h' | h' | h' | h' | h' | h'
        · exact c0 e h'.symm
        · exact c1 e h'.symm
        · exact c2 e h'.symm
        · exact c3 e h'.symm
        · exact c4 e h'.symm
        · exact c5 e h'.symm

end builder

/-! ## The filter fragment -/

namespace builder

/-- The function `filters` in closed form. -/
theorem filters_eq (cond : shop.ListConditions) (schema : String) :
    filters cond schema =
      if cond.OnlyPublished = false ∧ cond.OnlyPromoted = false ∧ cond.OnlyCategoryId = 0 ∧
          cond.OnlyCategoryLabel = "" then ("", [])
      else
        (categoryJoinPath cond schema ++ "\n\t" ++
          ("where " ++ Join (wherePredicates cond) "\n\tand "), categoryArgs cond) := by
  have e1 : toString (1 : Nat) = "1" := by decide
  rcases hp : cond.OnlyPublished <;> rcases hq : cond.OnlyPromoted <;>
    by_cases hc : cond.OnlyCategoryId = 0 <;> by_cases hl : cond.OnlyCategoryLabel = "" <;>
    simp [filters, filtersVars, wherePredicates, categoryJoinPath, categoryArgs, hp, hq, hc, hl,
      Join, joinArticlesCategory, joinCategories, String.append_assoc, e1]

end builder

namespace builder

end builder

namespace builder

/-- The placeholders of the WHERE clause are as many as the arguments. -/
theorem placeholders_wherePredicates (cond : shop.ListConditions) :
    placeholders (Join (wherePredicates cond) "\n\tand ") = (categoryArgs cond).length := by
  rcases hp : cond.OnlyPublished <;> rcases hq : cond.OnlyPromoted <;>
    by_cases hc : cond.OnlyCategoryId = 0 <;> by_cases hl : cond.OnlyCategoryLabel = "" <;>
    simp only [wherePredicates, categoryArgs, hp, hq, hc, hl, ne_eq, not_true_eq_false,
      not_false_eq_true, if_true, if_false, Bool.false_eq_true, List.nil_append,
      List.cons_append, List.length_nil, List.length_cons] <;>
    decide

/-- C6: for every `ListConditions` with at least one predicate, the fragment
returned by `filters` is the join path of the category filter followed by one
WHERE clause that lists the applicable predicates in the order m.published,
m.promoted, category predicate, joined by (newline, tab) `and`; the category
predicate is `ac.category_id = $1` with one join for a non-zero category id,
otherwise `c.label = $1` with two joins for a non-empty label; the arguments are
exactly the category value, as many as there are placeholders. For only
published with label "spanac" the fragment is the two joins followed by
`where m.published and c.label = $1` (up to whitespace) with arguments
`["spanac"]`. -/
theorem C6_filter_assembly (cond : shop.ListConditions) (schema : String)
    (h : cond.OnlyPublished = true ∨ cond.OnlyPromoted = true ∨ cond.OnlyCategoryId ≠ 0 ∨
      cond.OnlyCategoryLabel ≠ "") :
    filters cond schema =
        (categoryJoinPath cond schema ++ "\n\t" ++
          ("where " ++ Join (wherePredicates cond) "\n\tand "), categoryArgs cond) ∧
      (filters cond schema).2.length =
        placeholders (Join (wherePredicates cond) "\n\tand ") ∧
      filters condSpanac "shop" =
        ("join shop.category_articles ac on ac.article_id = m.id\n\tjoin shop.categories c on c.id = ac.category_id\n\twhere m.published\n\tand c.label = $1",
         [Arg.string "spanac"]) ∧
      Join (Fields (filters condSpanac "shop").1) " " =
        "join shop.category_articles ac on ac.article_id = m.id join shop.categories c on c.id = ac.category_id where m.published and c.label = $1" := by
  have hne : ¬ (cond.OnlyPublished = false ∧ cond.OnlyPromoted = false ∧
      cond.OnlyCategoryId = 0 ∧ cond.OnlyCategoryLabel = "") := by
    rintro ⟨h1, h2, h3, h4⟩
    rcases h with h | h | h | h
    · rw [h1] at h; exact Bool.noConfusion h
    · rw [h2] at h; exact Bool.noConfusion h
    · exact h h3
    · exact h h4
  have hf := filters_eq cond schema
  rw [if_neg hne] at hf
  refine ⟨hf, ?_, by decide, by decide⟩
  rw [hf, placeholders_wherePredicates]

/-- C6 (witness): the conditions of the test "Published and category id", for
which the predicates are m.published and c.label = $1. -/
theorem C6_filter_assembly_witness :
    condSpanac.OnlyPublished = true ∧
      wherePredicates condSpanac = ["m.published", "c.label = $1"] ∧
      (filters condSpanac "shop").2.length = 1 :=
  ⟨rfl, by decide,
    (C6_filter_assembly condSpanac "shop" (Or.inl rfl)).2.1.trans (by decide)⟩

end builder

namespace builder

end builder

/-! ## Builder and decoder -/

namespace server

/-- C4 (the code at the failing input): for conditions that request the base
prices relation, the builder emits the key 'base_prices' (the table name) for
it, while `articleValueToMsg` reads base prices from the key "baseprices". The
row the statement yields for an article with one base price therefore decodes to
an article without base prices; the requested relation is dropped. Under the
key "baseprices" the same base price is decoded. -/
theorem C4_base_prices_dropped (tl : timeLib) :
    (builder.ArticleListQuery 25 builder.condBasePrices "shop").err = none ∧
      (builder.ArticleListQuery 25 builder.condBasePrices "shop").query =
        "with filters as (\n\tselect m.id\n\tfrom shop.articles m\n\t\n),\narts as (\n\tselect a.id\n\tfrom filters f\n\tjoin shop.articles a on a.id = f.id\n\tlimit 25\n\toffset 0\n),\nr0 as (\n\tselect arts.id, coalesce(json_agg(\n\t\tjson_build_object(\n\t\t\t'label', r.label, 'price', r.price::text\n\t\t)\n\t) filter (where r.id is not null), null::JSON) as js\n\tfrom arts\n\tleft join shop.article_base_prices j on j.article_id = arts.id\n\tleft join shop.base_prices r on r.id = j.base_price_id\n\tgroup by arts.id\n)\nselect json_agg(\n\tjson_build_object(\n\t\t'id', a.id, 'base_prices', r0.js\n\t)\n)\nfrom arts a\njoin r0 on a.id = r0.id;" ∧
      (builder.articleRelations
          (builder.defaults 25 builder.condBasePrices).relations).1.map (fun r => r.name) =
        ["base_prices"] ∧
      builder.jboKeys
          (({ name := "articles", columns := ["id"],
              relations := (builder.articleRelations
                (builder.defaults 25 builder.condBasePrices).relations).1,
              limit := 25, offset := 0 } : builder.list).vars "shop" "").jbo =
        ["'id'", "'base_prices'"] ∧
      (builder.articleRelations (builder.defaults 25 builder.condAll).relations).1.map (fun r => r.name) =
        ["images", "videos", "categories", "base_prices", "variants"] ∧
      articleValueToMsg tl rowBasePrices =
        Except.ok
          { Id := 1, Created := none, Updated := none, Published := false, Title := "",
            Description := "", Price := "", Promoted := false, Images := [], Videos := [],
            Categories := [], Baseprices := [], Variants := [] } ∧
      articleValueToMsg tl rowBaseprices =
        Except.ok
          { Id := 1, Created := none, Updated := none, Published := false, Title := "",
            Description := "", Price := "", Promoted := false, Images := [], Videos := [],
            Categories := [],
            Baseprices := [{ Id := 0, Label := "gold", Price := "10.50" }],
            Variants := [] } := by
  refine ⟨by decide, by rfl, by decide, by decide, by decide, by rfl, by rfl⟩

end server

/-! ## Agreement with the expected values of the server tests -/

namespace server

/-- Test `Test_checkRequired`: a nil map, and all entries zero. -/
theorem Test_checkRequired_cases :
    checkRequired [] = none ∧
      checkRequired valsAllZero =
        some ⟨codes.Code.InvalidArgument, "Missing required fields: Float, Int, Nil, String"⟩ := by
  decide

/-- Test `Test_orderArticlesMsgToModels`: its four cases. -/
theorem Test_checkOrderArticles_cases :
    checkOrderArticles [] = some ⟨codes.Code.InvalidArgument, "No articles in order"⟩ ∧
      checkOrderArticles
          [{ ArticleId := 1, Amount := 0 }, { ArticleId := 2, Amount := 0 },
           { ArticleId := 3, Amount := 0 }] =
        some ⟨codes.Code.InvalidArgument, "No articles in order"⟩ ∧
      checkOrderArticles
          [{ ArticleId := 1, Amount := 0 }, { ArticleId := 2, Amount := -1 },
           { ArticleId := 3, Amount := 0 }] =
        some ⟨codes.Code.InvalidArgument, "Negative amount on order article 2: -1"⟩ ∧
      checkOrderArticles
          [{ ArticleId := 1, Amount := 0 }, { ArticleId := 2, Amount := 10 },
           { ArticleId := 3, Amount := 22 }] = none := by
  decide

/-- Test `Test_orderArticlesModelsToMsg`, case "Articles": 4 at 44.44 and 5 at
55.55. -/
theorem Test_orderArticlesModelsToMsg_Articles :
    orderArticlesModelsToMsg
        [{ ArticleID := 44, Amount := 4, Title := "Something 4", Price := decimal.New 4444 2 },
         { ArticleID := 55, Amount := 5, Title := "Something 5", Price := decimal.New 5555 2 }] =
      Except.ok
        ([{ ArticleId := 44, Amount := 4, Title := "Something 4", Price := "44.44",
            Total := "177.76" },
          { ArticleId := 55, Amount := 5, Title := "Something 5", Price := "55.55",
            Total := "277.75" }],
         "455.51") := by
  rfl

/-- Test `Test_requestTx_calcPrice`: zero ids, a base price that is not stored,
and the four calculations. -/
theorem Test_calcPrice_cases :
    calcPrice testStore { ID := 13, Title := "ID 13", Price := decimal.New 2299 2 } 0 41 =
        Except.error
          ⟨codes.Code.InvalidArgument, "Article ID 13 missing BasePrice or Variant ID"⟩ ∧
      calcPrice testStore { ID := 13, Title := "ID 13", Price := decimal.New 2299 2 } 31 0 =
        Except.error
          ⟨codes.Code.InvalidArgument, "Article ID 13 missing BasePrice or Variant ID"⟩ ∧
      calcPrice testStore { ID := 13, Title := "ID 13", Price := decimal.New 2299 2 } 29 41 =
        Except.error ⟨codes.Code.NotFound, "BasePrice and/or Variant for Article ID 13"⟩ ∧
      (calcPrice testStore { ID := 13, Title := "ID 13", Price := decimal.New 2299 2 } 31 41).map
          (fun c => c.Price) = Except.ok (decimal.New 1483515 4) ∧
      (calcPrice testStore { ID := 13, Title := "ID 13", Price := decimal.New 2299 2 } 31 42).map
          (fun c => c.Price) = Except.ok (decimal.New 4450545 4) ∧
      (calcPrice testStore { ID := 13, Title := "ID 13", Price := decimal.New 2299 2 } 32 41).map
          (fun c => c.Price) = Except.ok (decimal.New 3329667 4) ∧
      (calcPrice testStore { ID := 13, Title := "ID 13", Price := decimal.New 2299 2 } 32 42).map
          (fun c => c.Price) = Except.ok (decimal.New 9989001 4) := by
  refine ⟨by rfl, by rfl, by rfl, by rfl, by rfl, by rfl, by rfl⟩

/-- Test `Test_requestTx_newOrderArticle`: an article that is not stored, and a
regular article without base prices and variants. -/
theorem Test_newOrderArticle_cases :
    newOrderArticle testStore { ArticleId := 99, Amount := 2 } =
        Except.error ⟨codes.Code.NotFound, "Article with ID 99 not found"⟩ ∧
      newOrderArticle testStore { ArticleId := 12, Amount := 2 } =
        Except.ok
          { ArticleID := 12, Amount := 2, Title := "ID 12", Price := decimal.New 1212 2 } := by
  refine ⟨by rfl, by rfl⟩

end server

/-! ## Agreement with the expected values of the tests of the write path -/

namespace server

/-- Test `Test_articleMsgToModel`: its two cases. -/
theorem Test_articleMsgToModel_cases :
    articleMsgToModel testSetString zeroArticle =
      Except.error
        ⟨codes.Code.InvalidArgument, "Missing required fields: Description, Price, Title"⟩ ∧
    articleMsgToModel testSetString articleAllFields =
      Except.ok
        { ID := 12345, Published := true, Title := "Ain't it good?",
          Description := "Best procuct to buy!", Price := decimal.New 2000001 2,
          Promoted := true } := by
  exact ⟨by rfl, by rfl⟩

/-- Test `Test_variantsMsgToModel`: its three cases. -/
theorem Test_variantsMsgToModel_cases :
    variantsMsgToModel testSetString 0 [{ Id := 0, Labels := [], Multiplier := "" }] =
      Except.error
        ⟨codes.Code.InvalidArgument, "Missing required fields: ArticleID, Labels, Multiplier"⟩ ∧
    variantsMsgToModel testSetString 999 variantsAllFields =
      Except.ok
        [{ ID := 1001, ArticleID := 999, Labels := ["hello", "world"],
           Multiplier := decimal.New 4455 2 },
         { ID := 1002, ArticleID := 999, Labels := ["foo", "bar"],
           Multiplier := decimal.New 9999 2 }] ∧
    variantsMsgToModel testSetString 999
        [{ Id := 1001, Labels := ["hello", "world"], Multiplier := "spanac" }] =
      Except.error
        ⟨codes.Code.InvalidArgument, "Can't convert Multiplier string spanac to decimal"⟩ := by
  exact ⟨by rfl, by rfl, by rfl⟩

/-- Tests `Test_imagesMsgToModel` and `Test_videosMsgToModel`: their two cases. -/
theorem Test_imagesMsgToModel_cases :
    imagesMsgToModel 0 [mediaEmpty] =
      Except.error
        ⟨codes.Code.InvalidArgument, "Missing required fields: ArticleID, Label, URL"⟩ ∧
    imagesMsgToModel 999 mediaAllFields =
      Except.ok
        [{ ID := 1001, ArticleID := 999, Position := 1, Label := "Thousand one",
           URL := "https://example.com/image1001.jpg" },
         { ID := 1002, ArticleID := 999, Position := 2, Label := "Thousand two",
           URL := "https://example.com/image1002.jpg" }] ∧
    videosMsgToModel 0 [mediaEmpty] =
      Except.error
        ⟨codes.Code.InvalidArgument, "Missing required fields: ArticleID, Label, URL"⟩ ∧
    videosMsgToModel 999 mediaAllFields =
      Except.ok
        [{ ID := 1001, ArticleID := 999, Position := 1, Label := "Thousand one",
           URL := "https://example.com/image1001.jpg" },
         { ID := 1002, ArticleID := 999, Position := 2, Label := "Thousand two",
           URL := "https://example.com/image1002.jpg" }] := by
  exact ⟨by rfl, by rfl, by rfl, by rfl⟩

/-- Test `Test_timeBytesToMsg`: its four cases. -/
theorem Test_timeBytesToMsg_cases :
    timeBytesToMsg testTime "" "" = Except.ok (none, none) ∧
    timeBytesToMsg testTime "2020-02-01T09:51:55+02:00" "2020-02-10T15:03:33+02:00" =
      Except.ok (some ⟨1580543515, 0⟩, some ⟨1581339813, 0⟩) ∧
    (∃ e, timeBytesToMsg testTime "~" "2020-02-10T15:03:33+02:00" = Except.error e) ∧
    (∃ e, timeBytesToMsg testTime "2020-02-01T09:51:55+02:00" "~" = Except.error e) := by
  exact ⟨by rfl, by rfl, ⟨_, by rfl⟩, ⟨_, by rfl⟩⟩

/-- Test `Test_jsonScanner_articlesJSONtoMsg`: its three cases. -/
theorem Test_jsonScanner_articlesJSONtoMsg_cases :
    (∃ e, articlesJSONtoMsg testTime docNotArray = Except.error e) ∧
    (∃ e, articlesJSONtoMsg testTime docInvalidCreated = Except.error e) ∧
    articlesJSONtoMsg testTime docSuccess =
      Except.ok
        [{ Id := 1, Created := some ⟨1580543515, 0⟩, Updated := some ⟨1581339813, 0⟩,
           Published := true, Title := "Some title", Description := "Some description",
           Price := "7993.60", Promoted := true,
           Images := [{ Id := 21, Url := "https://ex.com/i1", Label := "foo" },
                      { Id := 22, Url := "https://ex.com/i2", Label := "bar" }],
           Videos := [], Categories := [], Baseprices := [], Variants := [] }] := by
  exact ⟨⟨_, by rfl⟩, ⟨_, by rfl⟩, by rfl⟩

/-- Test `Test_requestTx_checkDBErrors`: its six cases. -/
theorem Test_requestTx_checkDBErrors_cases :
    checkDBErrors "testing" [] false = none ∧
    checkDBErrors "testing" [none, none, none] false = none ∧
    checkDBErrors "testing" [none, some dbError.ErrNoRows, none] true =
      some (status.Error codes.Code.NotFound "testing") ∧
    checkDBErrors "testing" [none, some dbError.ErrNoRows, none] false = none ∧
    checkDBErrors "testing" [none, some (dbError.other "other"), none] true =
      some (status.Error codes.Code.Internal errDB) ∧
    checkDBErrors "testing" [none, some (dbError.other "other"), some dbError.ErrNoRows] true =
      some (status.Error codes.Code.Internal errDB) := by
  decide

/-- Tests `Test_requestTx_updateVariants`, "Cleanup Error", and
`Test_requestTx_upsertArticle`, "Insert err": on a closed transaction both
return the Internal error "Database error". -/
theorem Test_requestTx_closed_cases :
    (updateVariants closedTx testSetString [] 13 variantsCleanupError).2 =
      some (goError.status (status.Error codes.Code.Internal errDB)) ∧
    (upsertArticle closedTx testSetString [] articleAllFields).2 =
      Except.error (goError.status (status.Error codes.Code.Internal errDB)) := by
  exact ⟨by rfl, by rfl⟩

end server

/-! ## Defaults -/

namespace builder

/-- C11: for every `ListConditions`, `defaults` substitutes the field set (ID,
TITLE, PRICE, PROMOTED) when no fields are requested and the relation set that
requests only images with (URL, LABEL) when there is no relations object; a
non-empty field list and a non-nil relations object are returned unchanged. -/
theorem C11_default_fields_relations (DL : Int) (cond : shop.ListConditions) :
    (cond.Fields = [] →
      (defaults DL cond).fields =
        [shop.ArticleFields_ID, shop.ArticleFields_TITLE, shop.ArticleFields_PRICE,
         shop.ArticleFields_PROMOTED]) ∧
    (cond.Relations = none →
      (defaults DL cond).relations =
        { Images := [shop.MediaFields_MD_URL, shop.MediaFields_MD_LABEL], Videos := [],
          Categories := [], Baseprices := [], Variants := [] }) ∧
    (cond.Fields ≠ [] → (defaults DL cond).fields = cond.Fields) ∧
    (∀ r : shop.ArticleRelations, cond.Relations = some r → (defaults DL cond).relations = r) := by
  refine ⟨?_, ?_, ?_, ?_⟩
  · intro h
    rcases hl : cond.Limits with _ | l
    · simp [defaults, h, hl]
    · by_cases h0 : l.Limit = 0 <;> simp [defaults, h, hl, h0]
  · intro h
    rcases hl : cond.Limits with _ | l
    · simp [defaults, h, hl]
    · by_cases h0 : l.Limit = 0 <;> simp [defaults, h, hl, h0]
  · intro h
    have hlen : cond.Fields.length ≠ 0 := by
      intro h0
      exact h (List.length_eq_zero.1 h0)
    rcases hl : cond.Limits with _ | l
    · simp [defaults, hlen, hl]
    · by_cases h0 : l.Limit = 0 <;> simp [defaults, hlen, hl, h0]
  · intro r h
    rcases hl : cond.Limits with _ | l
    · simp [defaults, h, hl]
    · by_cases h0 : l.Limit = 0 <;> simp [defaults, h, hl, h0]

/-- C11 (witness): the empty conditions of the test "Defaults" and the
conditions of the test "Custom". -/
theorem C11_default_fields_relations_witness :
    (defaults DefaultLimit condEmpty).fields = [1, 5, 7, 8] ∧
      (defaults DefaultLimit condEmpty).relations =
        { Images := [3, 2], Videos := [], Categories := [], Baseprices := [], Variants := [] } ∧
      (defaults DefaultLimit condCustom).fields = [shop.ArticleFields_TITLE] ∧
      (defaults DefaultLimit condCustom).relations =
        { Images := [], Videos := [shop.MediaFields_MD_URL], Categories := [], Baseprices := [],
          Variants := [] } :=
  ⟨(C11_default_fields_relations DefaultLimit condEmpty).1 rfl,
   (C11_default_fields_relations DefaultLimit condEmpty).2.1 rfl,
   (C11_default_fields_relations DefaultLimit condCustom).2.2.1 (by decide),
   (C11_default_fields_relations DefaultLimit condCustom).2.2.2 _ rfl⟩

end builder

namespace builder

/-- The limits that `defaults` returns. -/
theorem defaults_limits (DL : Int) (cond : shop.ListConditions) :
    (defaults DL cond).limits =
      match cond.Limits with
      | none => { Limit := DL, Offset := 0 }
      | some l => if l.Limit = 0 then { Limit := DL, Offset := l.Offset } else l := by
  rcases hl : cond.Limits with _ | l
  · simp [defaults, hl]
  · by_cases h0 : l.Limit = 0 <;> simp [defaults, hl, h0]

/-- A successful `ArticleListQuery` returns the statement of the list query
made from the resolved columns and relations and the defaulted limits. -/
theorem ArticleListQuery_ok (DL : Int) (cond : shop.ListConditions) (schema : String)
    (h : (ArticleListQuery DL cond schema).err = none) :
    (ArticleListQuery DL cond schema).query =
      ({ name := models.TableNames.Articles,
         columns := (ArticleColumns (defaults DL cond).fields).1,
         relations := (articleRelations (defaults DL cond).relations).1,
         limit := (defaults DL cond).limits.Limit,
         offset := (defaults DL cond).limits.Offset } : list).query schema
        (filters (defaults DL cond).cond schema).1 ∧
    (ArticleListQuery DL cond schema).args = (filters (defaults DL cond).cond schema).2 := by
  rcases h0 : (ArticleColumns (defaults DL cond).fields).2 with _ | e0
  · rcases h1 : (articleRelations (defaults DL cond).relations).2 with _ | e1
    · simp [ArticleListQuery, h0, h1, shop.GetLimit, shop.GetOffset]
    · simp [ArticleListQuery, h0, h1] at h
  · simp [ArticleListQuery, h0] at h

/-- C12: limit defaulting. `defaults` returns limit `DefaultLimit` and offset 0
when the limits object is absent, limit `DefaultLimit` and the supplied offset
when the supplied limit is 0, and the supplied limit and offset otherwise. With
`DefaultLimit = 0` an unset limit stays 0, and the statement that
`ArticleListQuery` then builds has an empty limit slot: no LIMIT is applied. -/
theorem C12_limit_defaulting (DL : Int) (cond : shop.ListConditions) (schema : String) :
    (cond.Limits = none → (defaults DL cond).limits = { Limit := DL, Offset := 0 }) ∧
    (∀ l : shop.Limits, cond.Limits = some l → l.Limit = 0 →
      (defaults DL cond).limits = { Limit := DL, Offset := l.Offset }) ∧
    (∀ l : shop.Limits, cond.Limits = some l → l.Limit ≠ 0 → (defaults DL cond).limits = l) ∧
    (shop.GetLimit cond.Limits = 0 → (defaults 0 cond).limits.Limit = 0) ∧
    (shop.GetLimit cond.Limits = 0 → (ArticleListQuery 0 cond schema).err = none →
      ∃ l : list, l.limit = 0 ∧
        (ArticleListQuery 0 cond schema).query =
          l.query schema (filters (defaults 0 cond).cond schema).1 ∧
        (l.vars schema (filters (defaults 0 cond).cond schema).1).limits = "") := by
  have hz : shop.GetLimit cond.Limits = 0 → (defaults 0 cond).limits.Limit = 0 := by
    intro h
    rw [defaults_limits]
    rcases hl : cond.Limits with _ | l
    · rfl
    · rw [hl] at h
      have h0 : l.Limit = 0 := h
      simp [h0]
  refine ⟨?_, ?_, ?_, hz, ?_⟩
  · intro h
    rw [defaults_limits, h]
  · intro l h h0
    rw [defaults_limits, h]
    simp [h0]
  · intro l h h0
    rw [defaults_limits, h]
    simp [h0]
  · intro h herr
    refine ⟨_, ?_, (ArticleListQuery_ok 0 cond schema herr).1, ?_⟩
    · exact hz h
    · rw [vars_eq]
      simp [hz h]

/-- C12 (witness): absent limits, a limits object with limit 0, and the limits
(99, 22) of the test "Custom"; with default limit 0 the empty conditions give a
statement without LIMIT. -/
theorem C12_limit_defaulting_witness :
    (defaults DefaultLimit condEmpty).limits = { Limit := 25, Offset := 0 } ∧
      (defaults DefaultLimit condZeroLimit).limits = { Limit := 25, Offset := 0 } ∧
      (defaults DefaultLimit condCustom).limits = { Limit := 99, Offset := 22 } ∧
      (defaults 0 condEmpty).limits.Limit = 0 :=
  ⟨(C12_limit_defaulting DefaultLimit condEmpty "shop").1 rfl,
   (C12_limit_defaulting DefaultLimit condZeroLimit "shop").2.1 _ rfl rfl,
   (C12_limit_defaulting DefaultLimit condCustom "shop").2.2.1 _ rfl (by decide),
   (C12_limit_defaulting DefaultLimit condEmpty "shop").2.2.2.1 rfl⟩

/-- Applying `defaults` to conditions that `defaults` has processed changes
nothing. -/
theorem defaults_idem (DL : Int) (cond : shop.ListConditions) :
    defaults DL (defaults DL cond).cond = defaults DL cond := by
  rcases hl : cond.Limits with _ | l
  · simp [defaults, hl]
  · by_cases h0 : l.Limit = 0
    · by_cases hd : DL = 0
      · simp [defaults, hl, h0, hd]
      · simp [defaults, hl, h0, hd]
    · simp [defaults, hl, h0]

/-- The function `ArticleListQuery` depends on the conditions through `defaults`
only. -/
theorem ArticleListQuery_congr (DL : Int) (c1 c2 : shop.ListConditions) (schema : String)
    (h : defaults DL c1 = defaults DL c2) :
    ArticleListQuery DL c1 schema = ArticleListQuery DL c2 schema := by
  simp only [ArticleListQuery, h]

/-- C13: idempotence of query building. For every conditions value, schema name
and `DefaultLimit`, a second call of `ArticleListQuery` on the conditions object
as the first call left it returns the same SQL text, the same arguments and the
same error, and leaves the object as it is; applying `defaults` to conditions
already processed by `defaults` changes nothing. -/
theorem C13_idempotence (DL : Int) (cond : shop.ListConditions) (schema : String) :
    (ArticleListQuery DL (ArticleListQuery DL cond schema).cond schema).query =
        (ArticleListQuery DL cond schema).query ∧
      (ArticleListQuery DL (ArticleListQuery DL cond schema).cond schema).args =
        (ArticleListQuery DL cond schema).args ∧
      (ArticleListQuery DL (ArticleListQuery DL cond schema).cond schema).err =
        (ArticleListQuery DL cond schema).err ∧
      (ArticleListQuery DL (ArticleListQuery DL cond schema).cond schema).cond =
        (ArticleListQuery DL cond schema).cond ∧
      defaults DL (defaults DL cond).cond = defaults DL cond := by
  have hc : (ArticleListQuery DL cond schema).cond = (defaults DL cond).cond := by
    rcases h0 : (ArticleColumns (defaults DL cond).fields).2 with _ | e0
    · rcases h1 : (articleRelations (defaults DL cond).relations).2 with _ | e1
      · simp [ArticleListQuery, h0, h1]
      · simp [ArticleListQuery, h0, h1]
    · simp [ArticleListQuery, h0]
  have h := ArticleListQuery_congr DL (defaults DL cond).cond cond schema (defaults_idem DL cond)
  rw [hc, h]
  exact ⟨rfl, rfl, rfl, hc, defaults_idem DL cond⟩

end builder

/-! ## The ALL expansion made by init -/

namespace builder

/-- In a mapping with distinct keys every entry is found under its key. -/
theorem map_lookup_keys (M : List (Int × String)) (h : (M.map Prod.fst).Nodup) :
    (M.map Prod.fst).map (fun k => (M.lookup k).getD "") = M.map Prod.snd := by
  induction M with
  | nil => rfl
  | cons e M ih =>
    obtain ⟨k0, v0⟩ := e
    simp only [List.map_cons, List.nodup_cons] at h
    simp only [List.map_cons, List.lookup_cons, beq_self_eq_true, Option.getD_some]
    congr 1
    rw [← ih h.2]
    apply List.map_congr_left
    intro k hk
    have hne : k ≠ k0 := by
      intro e
      exact h.1 (e ▸ hk)
    have hb : (k == k0) = false := by simpa using hne
    simp [hb]

/-- The sorted keys of `init`: strictly ascending, and a rearrangement of the
keys of the mapping. -/
theorem init_keys (M : List (Int × String)) (h : (M.map Prod.fst).Nodup) :
    (((M.map Prod.fst).dedup).insertionSort (fun a b => a ≤ b)).Sorted (fun a b => a < b) ∧
      (((M.map Prod.fst).dedup).insertionSort (fun a b => a ≤ b)).Perm (M.map Prod.fst) := by
  have hd : (M.map Prod.fst).dedup = M.map Prod.fst := List.Nodup.dedup h
  rw [hd]
  have hp := List.perm_insertionSort (fun a b : Int => a ≤ b) (M.map Prod.fst)
  have hs := List.sorted_insertionSort (fun a b : Int => a ≤ b) (M.map Prod.fst)
  exact ⟨hs.lt_of_le (hp.nodup_iff.2 h), hp⟩

end builder

namespace builder

/-- C14: for every field catalog whose mapping has distinct keys (a Go map),
`init` makes the ALL expansion by listing the columns in strictly ascending
order of field identifier; it contains every mapped column exactly once and
nothing else, so its length is the size of the mapping. The ALL expansions of
the six catalogs (article, image, video, category, base price, variant) are
listed. -/
theorem C14_all_expansion (fc : fieldColumns) (hM : (fc.M.map Prod.fst).Nodup) :
    (∃ ks : List Int, ks.Sorted (fun a b => a < b) ∧ ks.Perm (fc.M.map Prod.fst) ∧
      (init fc).all = ks.map (fun k => (fc.M.lookup k).getD "")) ∧
    (init fc).all.Perm (fc.M.map Prod.snd) ∧
    (init fc).all.length = fc.M.length ∧
    (init fc).M = fc.M ∧
    ArticleFieldColumns.all =
      ["id", "created_at", "updated_at", "published", "title", "description", "price",
       "promoted"] ∧
    ImageFieldColumns.all = ["id", "label", "url"] ∧
    VideoFieldColumns.all = ["id", "label", "url"] ∧
    CategoryFieldColumns.all = ["id", "created_at", "updated_at", "label"] ∧
    BasePriceFieldColumns.all = ["id", "created_at", "updated_at", "label", "price"] ∧
    VariantFieldColumns.all = ["id", "created_at", "updated_at", "labels", "multiplier"] ∧
    [ArticleFieldColumns, ImageFieldColumns, VideoFieldColumns, CategoryFieldColumns,
      BasePriceFieldColumns, VariantFieldColumns].map (fun c => c.all.length) =
      [ArticleFieldColumns, ImageFieldColumns, VideoFieldColumns, CategoryFieldColumns,
        BasePriceFieldColumns, VariantFieldColumns].map (fun c => c.M.length) := by
  have hk := init_keys fc.M hM
  have hall : (init fc).all =
      (((fc.M.map Prod.fst).dedup).insertionSort (fun a b => a ≤ b)).map
        (fun k => (fc.M.lookup k).getD "") := rfl
  have hperm : (init fc).all.Perm (fc.M.map Prod.snd) := by
    rw [hall, ← map_lookup_keys fc.M hM]
    exact hk.2.map _
  refine ⟨⟨_, hk.1, hk.2, hall⟩, hperm, ?_, rfl, by decide, by decide, by decide, by decide,
    by decide, by decide, by decide⟩
  rw [hperm.length_eq, List.length_map]

/-- C14 (witness): the mapping of the article catalog, whose keys 1 to 8 are
distinct. -/
theorem C14_all_expansion_witness :
    ArticleFieldColumns.all.Perm (ArticleFieldColumns.M.map Prod.snd) ∧
      ArticleFieldColumns.all.length = 8 :=
  ⟨(C14_all_expansion ArticleFieldColumns (by decide)).2.1,
   (C14_all_expansion ArticleFieldColumns (by decide)).2.2.1⟩

end builder

/-! ## Resolution of a fully mapped request -/

namespace builder

/-- The loop of `columns` on a request of mapped non-zero identifiers: the
slots written so far are kept and each remaining slot receives its column. -/
theorem columnsLoop_mapped (fc : fieldColumns) (fids : List Int) :
    ∀ (done : List String),
      (∀ id ∈ fids, id ≠ 0 ∧ (fc.M.lookup id).isSome = true) →
      fc.columnsLoop fids done.length (done ++ List.replicate fids.length "") =
        (done ++ fids.map (fun id => (fc.M.lookup id).getD ""), 0) := by
  induction fids with
  | nil => intro done _; simp [fieldColumns.columnsLoop]
  | cons a rest ih =>
    intro done h
    have ha := h a (List.mem_cons_self _ _)
    obtain ⟨col, hcol⟩ := Option.isSome_iff_exists.1 ha.2
    simp only [fieldColumns.columnsLoop, ha.1, if_false, hcol, List.length_cons,
      set_replicate_succ]
    have := ih (done ++ [col]) (fun id hid => h id (List.mem_cons_of_mem _ hid))
    simp only [List.length_append, List.length_singleton] at this
    rw [this]
    simp [hcol]

/-- C15: for every field catalog and every request whose identifiers are all
mapped and non-zero, `columns` returns failing identifier 0 and a column list of
the length of the request whose i-th entry is the column mapped to the i-th
identifier (request order and duplicates preserved). A nil or empty request
yields the empty column list, which differs from a non-empty ALL expansion. -/
theorem C15_mapped_request (fc : fieldColumns) (fids : List Int)
    (h : ∀ id ∈ fids, id ≠ 0 ∧ (fc.M.lookup id).isSome = true) :
    (fc.columns fids).2 = 0 ∧
    (fc.columns fids).1.length = fids.length ∧
    (∀ (i : Nat) (hi : i < fids.length), (fc.columns fids).1[i]? = fc.M.lookup fids[i]) ∧
    fc.columns [] = ([], 0) ∧
    (fc.all ≠ [] → (fc.columns []).1 ≠ fc.all) := by
  have hc : fc.columns fids = (fids.map (fun id => (fc.M.lookup id).getD ""), 0) := by
    have := columnsLoop_mapped fc fids [] h
    simpa [fieldColumns.columns] using this
  refine ⟨by rw [hc], by rw [hc]; simp, ?_, rfl, ?_⟩
  · intro i hi
    rw [hc]
    simp only [List.getElem?_map, List.getElem?_eq_getElem hi, Option.map_some']
    obtain ⟨col, hcol⟩ := Option.isSome_iff_exists.1 (h fids[i] (List.getElem_mem _)).2
    rw [hcol]
    rfl
  · intro hall e
    exact hall e.symm

/-- C15 (witness): the request `[2, 3, 2]` of the test catalog, with a
duplicate. -/
theorem C15_mapped_request_witness :
    tfc.columns [2, 3, 2] = (["two", "three", "two"], 0) ∧
      (tfc.columns [2, 3, 2]).1.length = 3 ∧ (tfc.columns []).1 ≠ tfc.all :=
  ⟨by decide, (C15_mapped_request tfc [2, 3, 2] (by decide)).2.1,
   (C15_mapped_request tfc [2, 3, 2] (by decide)).2.2.2.2 (by decide)⟩

end builder

/-! ## The text cast of decimal columns -/

namespace builder

/-- A text cast changes the rendered value. -/
theorem cast_ne (s : String) : s ≠ s ++ "::text" := by
  intro e
  have e2 := congrArg String.length e
  rw [String.length_append] at e2
  have : "::text".length = 6 := by decide
  omega

/-- The function `jboCast` as a conditional on the allow-list. -/
theorem jboCast_eq (aliasName col : String) :
    jboCast aliasName col =
      if col = "price" ∨ col = "multiplier" then aliasName ++ "." ++ col ++ "::text"
      else aliasName ++ "." ++ col := rfl

/-- C16: decimal columns are identified by a fixed allow-list of names. For
every alias and column name `jboCast` returns `<alias>.<col>::text` if and only
if the column name is "price" or "multiplier", and `<alias>.<col>` otherwise.
Consequently, in the final object of `list.query` the value paired with the key
of the i-th article column, and in the object of every relation subquery the
value paired with the key of its i-th column, is text-cast exactly when that
column is "price" or "multiplier". The statement that `list.query` returns is,
written out, the text in which every value of an article column and of a
relation column is `<alias>.<col>::text` for these two names and `<alias>.<col>`
for every other name. -/
theorem C16_decimal_cast (aliasName col : String) (l : list) (schema filters : String)
    (r : relation) (relAlias : String) :
    (jboCast aliasName col = aliasName ++ "." ++ col ++ "::text" ↔
      (col = "price" ∨ col = "multiplier")) ∧
    (jboCast aliasName col = aliasName ++ "." ++ col ↔
      ¬ (col = "price" ∨ col = "multiplier")) ∧
    (∀ (i : Nat) (hi : i < l.columns.length),
      (l.vars schema filters).jbo[2 * i]? = some ("'" ++ l.columns[i] ++ "'") ∧
      (l.vars schema filters).jbo[2 * i + 1]? =
        some (if l.columns[i] = "price" ∨ l.columns[i] = "multiplier" then
                "a" ++ "." ++ l.columns[i] ++ "::text"
              else "a" ++ "." ++ l.columns[i])) ∧
    (r.build schema relAlias).1 =
      namedSubquery relAlias
        (relationBody
          (Join (r.columns.flatMap (fun c => ["'" ++ c ++ "'", jboCast "r" c])) ", ")
          (r.joins schema)) ∧
    (∀ (i : Nat) (hi : i < r.columns.length),
      (r.columns.flatMap (fun c => ["'" ++ c ++ "'", jboCast "r" c]))[2 * i]? =
        some ("'" ++ r.columns[i] ++ "'") ∧
      (r.columns.flatMap (fun c => ["'" ++ c ++ "'", jboCast "r" c]))[2 * i + 1]? =
        some (if r.columns[i] = "price" ∨ r.columns[i] = "multiplier" then
                "r" ++ "." ++ r.columns[i] ++ "::text"
              else "r" ++ "." ++ r.columns[i])) ∧
    l.query schema filters =
      "with " ++
        Join
          (("filters as (\n\tselect m.id\n\tfrom " ++ schema ++ "." ++ l.name ++ " m\n\t" ++ filters ++
              "\n)") ::
           ("arts as (\n\tselect " ++
              Join ("a.id" ::
                (l.columns.filter (fun c => decide (c ≠ "id"))).map (fun c => "a." ++ c)) ", " ++
              "\n\tfrom filters f\n\tjoin shop.articles a on a.id = f.id\n\t" ++
              (if l.limit ≠ 0 then
                "limit " ++ toString l.limit ++ "\n\toffset " ++ toString l.offset
               else "") ++
              "\n)") ::
           l.relations.enum.map (fun p =>
             "r" ++ toString p.1 ++
               " as (\n\tselect arts.id, coalesce(json_agg(\n\t\tjson_build_object(\n\t\t\t" ++
               Join (p.2.columns.flatMap (fun c =>
                 ["'" ++ c ++ "'",
                  (if c = "price" ∨ c = "multiplier" then "r" ++ "." ++ c ++ "::text"
                      else "r" ++ "." ++ c)])) ", " ++
               "\n\t\t)\n\t) filter (where r.id is not null), null::JSON) as js\n\tfrom arts\n\t" ++
               p.2.joins schema ++ "\n\tgroup by arts.id\n)"))
          ",\n" ++
        "\nselect json_agg(\n\tjson_build_object(\n\t\t" ++
        Join
          (l.columns.flatMap (fun c =>
            ["'" ++ c ++ "'",
             (if c = "price" ∨ c = "multiplier" then "a" ++ "." ++ c ++ "::text"
                 else "a" ++ "." ++ c)]) ++
            l.relations.enum.flatMap
              (fun p => ["'" ++ p.2.name ++ "'", "r" ++ toString p.1 ++ ".js"]))
          ", " ++
        "\n\t)\n)\nfrom arts a\n" ++
        Join
          (l.relations.enum.map
            (fun p => "join " ++ ("r" ++ toString p.1) ++ " on a.id = " ++ ("r" ++ toString p.1) ++
              ".id"))
          "\n" ++
        ";" := by
  refine ⟨?_, ?_, ?_, ?_, ?_, ?_⟩
  · by_cases h : col = "price" ∨ col = "multiplier"
    · simp only [jboCast_eq, h, if_true]
    · simp only [jboCast_eq, h, if_false, iff_false]
      exact cast_ne _
  · by_cases h : col = "price" ∨ col = "multiplier"
    · simp only [jboCast_eq, h, if_true, not_true_eq_false, iff_false]
      exact fun e => cast_ne _ e.symm
    · simp only [jboCast_eq, h, if_false, not_false_eq_true]
  · intro i hi
    have hlen := length_flatMap_pair (fun c => "'" ++ c ++ "'") (fun c => jboCast "a" c)
      l.columns
    have hp := getElem?_flatMap_pair (fun c => "'" ++ c ++ "'") (fun c => jboCast "a" c)
      l.columns i
    rw [vars_eq]
    simp only []
    rw [List.getElem?_append_left (by omega), List.getElem?_append_left (by omega), hp.1, hp.2,
      List.getElem?_eq_getElem hi]
    exact ⟨rfl, rfl⟩
  · rw [build_eq]
  · intro i hi
    have hp := getElem?_flatMap_pair (fun c => "'" ++ c ++ "'") (fun c => jboCast "r" c)
      r.columns i
    rw [hp.1, hp.2, List.getElem?_eq_getElem hi]
    exact ⟨rfl, rfl⟩
  · have h2 : "\n),\narts as (\n\tselect " = "\n)" ++ (",\n" ++ "arts as (\n\tselect ") := by
      decide
    rw [← Join_head_pair]
    simp only [list.query, vars_eq, listQuery, mainCTE, relation.build, buildFold_eq,
      List.nil_append, relationCTE]
    simp only [jboCast, h2, String.append_assoc]

/-- C16 (witness): the article columns id, title, price of the test "All arts
with variants", of which only price is cast, and the statement returned, in
which `a.price` and `r.multiplier` are cast and no other value is. -/
theorem C16_decimal_cast_witness :
    (listVariants.vars "shop" "").jbo[2 * 2 + 1]? = some "a.price::text" ∧
      (listVariants.vars "shop" "").jbo[2 * 1 + 1]? = some "a.title" ∧
      listVariants.query "shop" "" =
        "with filters as (\n\tselect m.id\n\tfrom shop.articles m\n\t\n),\narts as (\n\tselect a.id, a.title, a.price\n\tfrom filters f\n\tjoin shop.articles a on a.id = f.id\n\tlimit 100\n\toffset 200\n),\nr0 as (\n\tselect arts.id, coalesce(json_agg(\n\t\tjson_build_object(\n\t\t\t'labels', r.labels, 'multiplier', r.multiplier::text\n\t\t)\n\t) filter (where r.id is not null), null::JSON) as js\n\tfrom arts\n\tleft join shop.variants r on r.article_id = arts.id\n\tgroup by arts.id\n)\nselect json_agg(\n\tjson_build_object(\n\t\t'id', a.id, 'title', a.title, 'price', a.price::text, 'variants', r0.js\n\t)\n)\nfrom arts a\njoin r0 on a.id = r0.id;" :=
  ⟨((C16_decimal_cast "a" "price" listVariants "shop" ""
      { name := "variants", columns := ["labels", "multiplier"], id := "article_id" } "r0").2.2.1
      2 (by decide)).2,
   ((C16_decimal_cast "a" "price" listVariants "shop" ""
      { name := "variants", columns := ["labels", "multiplier"], id := "article_id" } "r0").2.2.1
      1 (by decide)).2,
   (C16_decimal_cast "a" "price" listVariants "shop" ""
      { name := "variants", columns := ["labels", "multiplier"], id := "article_id" }
      "r0").2.2.2.2.2.trans (by rfl)⟩

end builder

/-! ## Validation of order lines -/

namespace server

/-- The loop of `checkOrderArticles` on lines without negative amount adds up
the amounts. -/
theorem checkOrderArticlesLoop_nonneg (sa : List shop.Order_ArticleAmount) :
    ∀ total : Int, (∀ a ∈ sa, 0 ≤ a.Amount) →
      checkOrderArticlesLoop sa total = Except.ok (total + (sa.map (fun a => a.Amount)).sum) := by
  induction sa with
  | nil => intro total _; simp [checkOrderArticlesLoop]
  | cons a rest ih =>
    intro total h
    have ha : ¬ a.Amount < 0 := not_lt.2 (h a (List.mem_cons_self _ _))
    simp only [checkOrderArticlesLoop, ha, if_false]
    rw [ih _ (fun x hx => h x (List.mem_cons_of_mem _ hx))]
    simp [add_assoc]

/-- The loop of `checkOrderArticles` stops at the first negative amount. -/
theorem checkOrderArticlesLoop_negative (pre rest : List shop.Order_ArticleAmount)
    (a : shop.Order_ArticleAmount) :
    ∀ total : Int, (∀ x ∈ pre, 0 ≤ x.Amount) → a.Amount < 0 →
      checkOrderArticlesLoop (pre ++ a :: rest) total =
        Except.error (status.Error codes.Code.InvalidArgument
          (errNegAmount a.ArticleId a.Amount)) := by
  induction pre with
  | nil => intro total _ ha; simp [checkOrderArticlesLoop, ha]
  | cons p pre ih =>
    intro total h ha
    have hp : ¬ p.Amount < 0 := not_lt.2 (h p (List.mem_cons_self _ _))
    simp only [List.cons_append, checkOrderArticlesLoop, hp, if_false]
    exact ih _ (fun x hx => h x (List.mem_cons_of_mem _ hx)) ha

/-- A list with a negative amount splits at its first negative line. -/
theorem split_first_negative (sa : List shop.Order_ArticleAmount)
    (h : ¬ ∀ a ∈ sa, 0 ≤ a.Amount) :
    ∃ pre a rest, sa = pre ++ a :: rest ∧ (∀ x ∈ pre, 0 ≤ x.Amount) ∧ a.Amount < 0 := by
  induction sa with
  | nil => exact absurd (fun a ha => absurd ha (List.not_mem_nil a)) h
  | cons b rest ih =>
    by_cases hb : b.Amount < 0
    · exact ⟨[], b, rest, rfl, fun x hx => absurd hx (List.not_mem_nil x), hb⟩
    · have hrest : ¬ ∀ a ∈ rest, 0 ≤ a.Amount := by
        intro hall
        apply h
        intro a ha
        rcases List.mem_cons.1 ha with e | e
        · rw [e]; exact not_lt.1 hb
        · exact hall a e
      obtain ⟨pre, a, rest2, e, hpre, ha⟩ := ih hrest
      refine ⟨b :: pre, a, rest2, by rw [e]; rfl, ?_, ha⟩
      intro x hx
      rcases List.mem_cons.1 hx with e2 | e2
      · rw [e2]; exact not_lt.1 hb
      · exact hpre x e2

/-- Non-negative amounts add up to 0 exactly when all of them are 0. -/
theorem sum_amounts_eq_zero (sa : List shop.Order_ArticleAmount)
    (h : ∀ a ∈ sa, 0 ≤ a.Amount) :
    (sa.map (fun a => a.Amount)).sum = 0 ↔ ∀ a ∈ sa, a.Amount = 0 := by
  induction sa with
  | nil => simp
  | cons b rest ih =>
    have hb := h b (List.mem_cons_self _ _)
    have hr : ∀ a ∈ rest, 0 ≤ a.Amount := fun x hx => h x (List.mem_cons_of_mem _ hx)
    have hs : 0 ≤ (rest.map (fun a => a.Amount)).sum := by
      apply List.sum_nonneg
      intro x hx
      obtain ⟨a, ha, e⟩ := List.mem_map.1 hx
      rw [← e]
      exact hr a ha
    simp only [List.map_cons, List.sum_cons, List.mem_cons, forall_eq_or_imp]
    rw [← ih hr]
    constructor
    · intro e
      constructor <;> omega
    · rintro ⟨e1, e2⟩
      omega

/-- C19: for every list of submitted order lines, `checkOrderArticles` returns
nil if and only if every amount is non-negative and at least one amount is
non-zero. If some amount is negative it returns InvalidArgument naming the
article id and amount of the first negative line; if all amounts are zero
(also for the empty or nil list) it returns InvalidArgument "No articles in
order". -/
theorem C19_order_amounts (sa : List shop.Order_ArticleAmount) :
    (checkOrderArticles sa = none ↔
      ((∀ a ∈ sa, 0 ≤ a.Amount) ∧ ∃ a ∈ sa, a.Amount ≠ 0)) ∧
    (∀ (pre rest : List shop.Order_ArticleAmount) (a : shop.Order_ArticleAmount),
      sa = pre ++ a :: rest → (∀ x ∈ pre, 0 ≤ x.Amount) → a.Amount < 0 →
      checkOrderArticles sa =
        some ⟨codes.Code.InvalidArgument,
          "Negative amount on order article " ++ toString a.ArticleId ++ ": " ++
            toString a.Amount⟩) ∧
    ((∀ a ∈ sa, a.Amount = 0) →
      checkOrderArticles sa = some ⟨codes.Code.InvalidArgument, "No articles in order"⟩) ∧
    checkOrderArticles [] = some ⟨codes.Code.InvalidArgument, "No articles in order"⟩ := by
  have hneg : ∀ (pre rest : List shop.Order_ArticleAmount) (a : shop.Order_ArticleAmount),
      sa = pre ++ a :: rest → (∀ x ∈ pre, 0 ≤ x.Amount) → a.Amount < 0 →
      checkOrderArticles sa =
        some ⟨codes.Code.InvalidArgument,
          "Negative amount on order article " ++ toString a.ArticleId ++ ": " ++
            toString a.Amount⟩ := by
    intro pre rest a e hpre ha
    rw [e, checkOrderArticles, checkOrderArticlesLoop_negative pre rest a 0 hpre ha]
    rfl
  have hzero : (∀ a ∈ sa, a.Amount = 0) →
      checkOrderArticles sa = some ⟨codes.Code.InvalidArgument, "No articles in order"⟩ := by
    intro h
    have hnn : ∀ a ∈ sa, 0 ≤ a.Amount := fun a ha => le_of_eq (h a ha).symm
    rw [checkOrderArticles, checkOrderArticlesLoop_nonneg sa 0 hnn]
    simp only [zero_add]
    rw [if_pos ((sum_amounts_eq_zero sa hnn).2 h)]
    rfl
  refine ⟨?_, hneg, hzero, rfl⟩
  constructor
  · intro h
    by_cases hnn : ∀ a ∈ sa, 0 ≤ a.Amount
    · refine ⟨hnn, ?_⟩
      by_contra hno
      have hall : ∀ a ∈ sa, a.Amount = 0 := by
        intro a ha
        by_contra hne
        exact hno ⟨a, ha, hne⟩
      rw [hzero hall] at h
      exact Option.noConfusion h
    · obtain ⟨pre, a, rest, e, hpre, ha⟩ := split_first_negative sa hnn
      rw [hneg pre rest a e hpre ha] at h
      exact Option.noConfusion h
  · rintro ⟨hnn, a, ha, hne⟩
    rw [checkOrderArticles, checkOrderArticlesLoop_nonneg sa 0 hnn]
    simp only [zero_add]
    have : ¬ (sa.map (fun a => a.Amount)).sum = 0 := by
      intro e
      exact hne ((sum_amounts_eq_zero sa hnn).1 e a ha)
    rw [if_neg this]

/-- C19 (witness): the case "Negative article" of the test: the second line,
article 2 with amount -1, is the first negative one. -/
theorem C19_order_amounts_witness :
    checkOrderArticles
        ([{ ArticleId := 1, Amount := 0 }] ++
          ({ ArticleId := 2, Amount := -1 } : shop.Order_ArticleAmount) ::
            [{ ArticleId := 3, Amount := 0 }]) =
      some ⟨codes.Code.InvalidArgument, "Negative amount on order article 2: -1"⟩ :=
  (C19_order_amounts _).2.1 [{ ArticleId := 1, Amount := 0 }] [{ ArticleId := 3, Amount := 0 }]
    { ArticleId := 2, Amount := -1 } rfl (by decide) (by decide)

end server

/-! ## Required fields -/

namespace server

/-- The order of Go strings is total. -/
theorem leChars_total : ∀ a b : List Char, leChars a b = true ∨ leChars b a = true
  | [], _ => Or.inl rfl
  | _ :: _, [] => Or.inr rfl
  | a :: as, b :: bs => by
    by_cases h1 : a.toNat < b.toNat
    · left; simp [leChars, h1]
    · by_cases h2 : b.toNat < a.toNat
      · right; simp [leChars, h2]
      · rcases leChars_total as bs with h | h
        · left; simp [leChars, h1, h2, h]
        · right; simp [leChars, h1, h2, h]

/-- The order of Go strings is transitive. -/
theorem leChars_trans : ∀ a b c : List Char,
    leChars a b = true → leChars b c = true → leChars a c = true
  | [], _, _, _, _ => rfl
  | _ :: _, [], _, h, _ => by simp [leChars] at h
  | _ :: _, _ :: _, [], _, h => by simp [leChars] at h
  | a :: as, b :: bs, c :: cs, hab, hbc => by
    by_cases h1 : a.toNat < b.toNat
    · by_cases h2 : b.toNat < c.toNat
      · have : a.toNat < c.toNat := by omega
        simp [leChars, this]
      · by_cases h3 : c.toNat < b.toNat
        · simp [leChars, h2, h3] at hbc
        · have : a.toNat < c.toNat := by omega
          simp [leChars, this]
    · by_cases h1' : b.toNat < a.toNat
      · simp [leChars, h1, h1'] at hab
      · simp only [leChars, h1, h1', if_false] at hab
        by_cases h2 : b.toNat < c.toNat
        · have : a.toNat < c.toNat := by omega
          simp [leChars, this]
        · by_cases h3 : c.toNat < b.toNat
          · simp [leChars, h2, h3] at hbc
          · simp only [leChars, h2, h3, if_false] at hbc
            have e1 : ¬ a.toNat < c.toNat := by omega
            have e2 : ¬ c.toNat < a.toNat := by omega
            simp only [leChars, e1, e2, if_false]
            exact leChars_trans as bs cs hab hbc

/-- The order of Go strings is antisymmetric. -/
theorem leChars_antisymm : ∀ a b : List Char,
    leChars a b = true → leChars b a = true → a = b
  | [], [], _, _ => rfl
  | [], _ :: _, _, h => by simp [leChars] at h
  | _ :: _, [], h, _ => by simp [leChars] at h
  | a :: as, b :: bs, hab, hba => by
    by_cases h1 : a.toNat < b.toNat
    · have h2 : ¬ b.toNat < a.toNat := by omega
      simp [leChars, h1, h2] at hba
    · by_cases h2 : b.toNat < a.toNat
      · simp [leChars, h1, h2] at hab
      · simp only [leChars, h1, h2, if_false] at hab hba
        have e : a.toNat = b.toNat := by omega
        have ec : a = b := Char.ext (UInt32.eq_of_toBitVec_eq (BitVec.eq_of_toNat_eq e))
        rw [ec, leChars_antisymm as bs hab hba]

end server

namespace server

/-- One step of the loop of `checkRequired` appends the name of a missing
entry. -/
theorem checkRequiredStep_eq (empty : List String) (kv : String × Any) :
    checkRequiredStep empty kv = if missing kv.2 = true then empty ++ [kv.1] else empty := by
  obtain ⟨k, v⟩ := kv
  cases v with
  | nil => simp [checkRequiredStep, missing]
  | string s => by_cases h : s = "" <;> simp [checkRequiredStep, missing, h]
  | int n => by_cases h : n = 0 <;> simp [checkRequiredStep, missing, h]
  | float64 z => cases z <;> simp [checkRequiredStep, missing]
  | strings ss =>
    cases ss with
    | nil => simp [checkRequiredStep, missing]
    | cons s ss => simp [checkRequiredStep, missing]
  | other => simp [checkRequiredStep, missing]

/-- The loop of `checkRequired` collects the names of the missing entries. -/
theorem checkRequiredFold_eq (vals : List (String × Any)) :
    ∀ acc : List String, vals.foldl checkRequiredStep acc = acc ++ missingNames vals := by
  induction vals with
  | nil => intro acc; simp [missingNames]
  | cons kv vals ih =>
    intro acc
    rw [List.foldl_cons, ih, checkRequiredStep_eq]
    by_cases h : missing kv.2 = true
    · simp [missingNames, h, List.filter_cons]
    · simp [missingNames, h, List.filter_cons]

/-- The result of `sort.Strings` is ascending and a rearrangement of its
argument. -/
theorem sortStrings_sorted_perm (l : List String) :
    (sortStrings l).Sorted (fun a b => leChars a.data b.data = true) ∧
      (sortStrings l).Perm l := by
  haveI : IsTotal String (fun a b => leChars a.data b.data = true) :=
    ⟨fun a b => leChars_total a.data b.data⟩
  haveI : IsTrans String (fun a b => leChars a.data b.data = true) :=
    ⟨fun a b c => leChars_trans a.data b.data c.data⟩
  exact ⟨List.sorted_insertionSort _ l, List.perm_insertionSort _ l⟩

/-- Sorting does not depend on the order of the argument. -/
theorem sortStrings_perm (l1 l2 : List String) (h : l1.Perm l2) :
    sortStrings l1 = sortStrings l2 := by
  haveI : IsAntisymm String (fun a b => leChars a.data b.data = true) :=
    ⟨fun a b h1 h2 => String.ext (leChars_antisymm a.data b.data h1 h2)⟩
  have p1 := sortStrings_sorted_perm l1
  have p2 := sortStrings_sorted_perm l2
  exact List.eq_of_perm_of_sorted (p1.2.trans (h.trans p2.2.symm)) p1.1 p2.1

/-- The function `checkRequired` in closed form. -/
theorem checkRequired_eq (vals : List (String × Any)) :
    checkRequired vals =
      if missingNames vals = [] then none
      else some ⟨codes.Code.InvalidArgument,
        "Missing required fields: " ++ Join (sortStrings (missingNames vals)) ", "⟩ := by
  have hf := checkRequiredFold_eq vals []
  rw [List.nil_append] at hf
  have hlen : (sortStrings (missingNames vals)).length = (missingNames vals).length :=
    (sortStrings_sorted_perm _).2.length_eq
  simp only [checkRequired, hf]
  by_cases h : missingNames vals = []
  · simp [h, sortStrings]
  · have hpos : 0 < (missingNames vals).length := List.length_pos.2 h
    simp only [h, if_false]
    rw [if_pos (by omega)]
    rfl

/-- C20: for every map of required values, `checkRequired` returns nil if and
only if no value is nil, the empty string, the integer 0, the float 0.0 or an
empty string list. Otherwise it returns an InvalidArgument error whose message
is "Missing required fields: " followed by the names of all missing entries,
sorted ascending and joined by ", "; the result does not depend on the order in
which the map is iterated. -/
theorem C20_required_fields (vals : List (String × Any)) :
    (checkRequired vals = none ↔ ∀ kv ∈ vals, missing kv.2 = false) ∧
    ((∃ kv ∈ vals, missing kv.2 = true) →
      checkRequired vals =
        some ⟨codes.Code.InvalidArgument,
          "Missing required fields: " ++ Join (sortStrings (missingNames vals)) ", "⟩) ∧
    (sortStrings (missingNames vals)).Sorted (fun a b => leChars a.data b.data = true) ∧
    (sortStrings (missingNames vals)).Perm (missingNames vals) ∧
    (∀ vals2 : List (String × Any), vals2.Perm vals →
      checkRequired vals2 = checkRequired vals) := by
  have hnil : missingNames vals = [] ↔ ∀ kv ∈ vals, missing kv.2 = false := by
    simp only [missingNames, List.map_eq_nil_iff, List.filter_eq_nil_iff]
    constructor
    · intro h kv hkv
      simpa using h kv hkv
    · intro h kv hkv
      simp [h kv hkv]
  refine ⟨?_, ?_, (sortStrings_sorted_perm _).1, (sortStrings_sorted_perm _).2, ?_⟩
  · rw [checkRequired_eq, ← hnil]
    by_cases h : missingNames vals = [] <;> simp [h]
  · rintro ⟨kv, hkv, hm⟩
    have h : missingNames vals ≠ [] := by
      intro e
      have := hnil.1 e kv hkv
      rw [this] at hm
      exact Bool.noConfusion hm
    rw [checkRequired_eq, if_neg h]
  · intro vals2 hp
    have hm : (missingNames vals2).Perm (missingNames vals) :=
      (hp.filter _).map _
    rw [checkRequired_eq, checkRequired_eq, sortStrings_perm _ _ hm]
    by_cases h : missingNames vals = []
    · have h2 : missingNames vals2 = [] := by
        rw [h] at hm
        exact hm.eq_nil
      simp [h, h2]
    · have h2 : missingNames vals2 ≠ [] := by
        intro e
        rw [e] at hm
        exact h hm.symm.eq_nil
      simp [h, h2]

/-- C20 (witness): the map of the case "All entries zero" of the test, whose
four entries are all missing. -/
theorem C20_required_fields_witness :
    checkRequired valsAllZero =
      some ⟨codes.Code.InvalidArgument, "Missing required fields: Float, Int, Nil, String"⟩ :=
  (C20_required_fields valsAllZero).2.1 ⟨("Nil", Any.nil), by decide, by decide⟩

end server

/-! ## Decimal arithmetic: values and rounding -/

namespace decimal

/-- Rounding leaves a decimal of at most sixteen significant digits as it is. -/
theorem round_of_fits (x : Big) (h : x.fits = true) : x.round = x := by
  have h1 : x.unscaled.natAbs < 10 ^ DefaultPrecision := by simpa [Big.fits] using h
  simp [Big.round, h1]

/-- The value of the exact product is the product of the values. -/
theorem toRat_exactMul (x y : Big) : (exactMul x y).toRat = x.toRat * y.toRat := by
  have h10 : (10 : ℚ) ≠ 0 := by norm_num
  simp only [Big.toRat, exactMul, Int.cast_mul, neg_add, zpow_add₀ h10]
  ring

/-- The value of the exact sum is the sum of the values. -/
theorem toRat_exactAdd (x y : Big) : (exactAdd x y).toRat = x.toRat + y.toRat := by
  have h10 : (10 : ℚ) ≠ 0 := by norm_num
  by_cases h : y.scale ≤ x.scale
  · have hn : ((x.scale - y.scale).toNat : Int) = x.scale - y.scale :=
      Int.toNat_of_nonneg (by omega)
    have hy : (10 : ℚ) ^ (-y.scale) = (10 : ℚ) ^ (x.scale - y.scale).toNat * (10 : ℚ) ^ (-x.scale) := by
      rw [← zpow_natCast, hn, ← zpow_add₀ h10]
      congr 1
      ring
    simp only [Big.toRat, exactAdd, h, if_true, Int.cast_add, Int.cast_mul, Int.cast_pow,
      Int.cast_ofNat, hy]
    ring
  · have hn : ((y.scale - x.scale).toNat : Int) = y.scale - x.scale :=
      Int.toNat_of_nonneg (by omega)
    have hx : (10 : ℚ) ^ (-x.scale) = (10 : ℚ) ^ (y.scale - x.scale).toNat * (10 : ℚ) ^ (-y.scale) := by
      rw [← zpow_natCast, hn, ← zpow_add₀ h10]
      congr 1
      ring
    simp only [Big.toRat, exactAdd, h, if_false, Int.cast_add, Int.cast_mul, Int.cast_pow,
      Int.cast_ofNat, hx]
    ring

/-- A product of at most sixteen significant digits is not rounded: its value
is the product of the values. -/
theorem toRat_Mul (x y : Big) (h : (exactMul x y).fits = true) :
    (Mul x y).toRat = x.toRat * y.toRat := by
  rw [Mul, round_of_fits _ h, toRat_exactMul]

/-- A sum of at most sixteen significant digits is not rounded: its value is the
sum of the values. -/
theorem toRat_Add (x y : Big) (h : (exactAdd x y).fits = true) :
    (Add x y).toRat = x.toRat + y.toRat := by
  rw [Add, round_of_fits _ h, toRat_exactAdd]

/-- The value of an integer. -/
theorem toRat_New_zero (v : Int) : (New v 0).toRat = v := by
  simp [Big.toRat, New]

/-- The value of the zero decimal. -/
theorem toRat_zero : zero.toRat = 0 := by
  simp [Big.toRat, zero]

end decimal

/-! ## Order lines and their sum -/

namespace server

/-- The loop of `orderArticlesModelsToMsg` on lines that can be decoded makes
one message line per stored line and adds up the totals. -/
theorem orderArticlesLoop_decodable (arts : List models.OrderArticle) :
    ∀ (sum : decimal.Big) (soaa : List shop.Order_ArticleAmount),
      (∀ a ∈ arts, decodable a = true) →
      orderArticlesLoop arts sum soaa =
        Except.ok (soaa ++ arts.map lineOf,
          arts.foldl (fun s a => decimal.Add s (lineTotal a)) sum) := by
  induction arts with
  | nil => intro sum soaa _; simp [orderArticlesLoop]
  | cons a rest ih =>
    intro sum soaa h
    have ha := h a (List.mem_cons_self _ _)
    have hr : ∀ x ∈ rest, decodable x = true := fun x hx => h x (List.mem_cons_of_mem _ hx)
    rcases hv : a.Details.Valid with _ | _
    · simp only [orderArticlesLoop, hv, Bool.false_eq_true, if_false]
      rw [ih _ _ hr]
      simp [lineOf, detailsOf, hv, lineTotal]
    · rcases hb : a.Details.Bytes with d | err
      · simp only [orderArticlesLoop, hv, hb, if_true]
        rw [ih _ _ hr]
        simp [lineOf, detailsOf, hv, hb, lineTotal]
      · simp [decodable, hv, hb] at ha

/-- The loop of `orderArticlesModelsToMsg` returns the error of the first line
whose details do not decode. -/
theorem orderArticlesLoop_malformed (pre rest : List models.OrderArticle)
    (a : models.OrderArticle) (err : String) :
    ∀ (sum : decimal.Big) (soaa : List shop.Order_ArticleAmount),
      (∀ x ∈ pre, decodable x = true) → a.Details.Valid = true →
      a.Details.Bytes = null.Document.malformed err →
      orderArticlesLoop (pre ++ a :: rest) sum soaa = Except.error err := by
  induction pre with
  | nil =>
    intro sum soaa _ hv hb
    simp [orderArticlesLoop, hv, hb]
  | cons p pre ih =>
    intro sum soaa h hv hb
    have hp := h p (List.mem_cons_self _ _)
    have hr : ∀ x ∈ pre, decodable x = true := fun x hx => h x (List.mem_cons_of_mem _ hx)
    rcases hpv : p.Details.Valid with _ | _
    · simp only [List.cons_append, orderArticlesLoop, hpv, Bool.false_eq_true, if_false]
      exact ih _ _ hr hv hb
    · rcases hpb : p.Details.Bytes with d | e
      · simp only [List.cons_append, orderArticlesLoop, hpv, hpb, if_true]
        exact ih _ _ hr hv hb
      · simp [decodable, hpv, hpb] at hp

/-- The value of the running sum after a loop in which no step rounds. -/
theorem toRat_foldl_totals (arts : List models.OrderArticle) :
    ∀ sum : decimal.Big, exactWithin sum arts = true →
      (arts.foldl (fun s a => decimal.Add s (lineTotal a)) sum).toRat =
        sum.toRat + (arts.map (fun a => a.Price.toRat * (a.Amount : ℚ))).sum := by
  induction arts with
  | nil => intro sum _; simp
  | cons a rest ih =>
    intro sum h
    simp only [exactWithin, Bool.and_eq_true] at h
    rw [List.foldl_cons, ih _ h.2, decimal.toRat_Add _ _ h.1.2, lineTotal,
      decimal.toRat_Mul _ _ h.1.1, decimal.toRat_New_zero]
    simp [add_assoc]

/-- C18 (counterexample): the stored line of the test case "Unmarshal error",
whose details do not decode, makes `orderArticlesModelsToMsg` return the error
of `json.Unmarshal` instead of lines with totals and a sum. And the sum is
rounded to sixteen significant digits: a line of 1000000000000000 and a line of
0.01, both of amount 1, give the sum "1000000000000000", while the exact sum of
the two totals is 1000000000000000.01. -/
theorem C18_order_sum_counterexample :
    orderArticlesModelsToMsg [unmarshalErrorLine] =
        Except.error "invalid character '^' looking for beginning of value" ∧
      orderArticlesModelsToMsg longSumLines =
        Except.ok
          ([{ ArticleId := 11, Amount := 1, Title := "ID 11", Price := "1000000000000000",
              Total := "1000000000000000" },
            { ArticleId := 12, Amount := 1, Title := "ID 12", Price := "0.01", Total := "0.01" }],
           "1000000000000000") ∧
      (decimal.exactAdd (decimal.New 1000000000000000 0) (decimal.New 1 2)).String =
        "1000000000000000.01" := by
  refine ⟨by rfl, by rfl, by rfl⟩

/-- C18 (amended): for every list of stored order lines whose details, where
present, decode, `orderArticlesModelsToMsg` returns one message line per stored
line in the same order, each with the total `Mul(price, amount)`, and the text
of the sum that `Add` accumulates over the line totals from zero, where `Mul`
and `Add` of the decimal library round their result to sixteen significant
digits. A line total whose exact product has at most sixteen significant digits
is exactly its unit price times its amount, and when no line total and no
partial sum has more than sixteen significant digits the sum is exactly the sum
of the unit prices times the amounts. The empty list gives sum "0"; the lines
of the test data with amounts 1, 3, 5 at unit prices 30000.99, 12.12, 148.3515
give sum "30779.1075". If the details of some line do not decode, the error of
decoding the first such line is returned. -/
theorem C18_order_sum (arts : List models.OrderArticle)
    (h : ∀ a ∈ arts, decodable a = true) :
    (∃ sum : decimal.Big,
      orderArticlesModelsToMsg arts = Except.ok (arts.map lineOf, sum.String) ∧
      sum = arts.foldl
        (fun s a => decimal.Add s (decimal.Mul a.Price (decimal.New a.Amount 0))) decimal.zero ∧
      (exactWithin decimal.zero arts = true →
        sum.toRat = (arts.map (fun a => a.Price.toRat * (a.Amount : ℚ))).sum)) ∧
    (arts.map lineOf).length = arts.length ∧
    (∀ a ∈ arts,
      (lineOf a).Total = (decimal.Mul a.Price (decimal.New a.Amount 0)).String ∧
      decimal.Mul a.Price (decimal.New a.Amount 0) =
        (decimal.exactMul a.Price (decimal.New a.Amount 0)).round ∧
      ((decimal.exactMul a.Price (decimal.New a.Amount 0)).fits = true →
        (decimal.Mul a.Price (decimal.New a.Amount 0)).toRat =
          a.Price.toRat * (a.Amount : ℚ))) ∧
    orderArticlesModelsToMsg [] = Except.ok ([], "0") ∧
    orderArticlesModelsToMsg testOrderArticles =
      Except.ok
        ([{ ArticleId := 11, Amount := 1, Title := "ID 11", Price := "30000.99",
            Total := "30000.99" },
          { ArticleId := 12, Amount := 3, Title := "ID 12", Price := "12.12", Total := "36.36" },
          { ArticleId := 13, Amount := 5, Title := "ID 13", Price := "148.3515",
            Total := "741.7575",
            Details := some
              { BasePrice := some { Id := 0, Label := "Cheap material", Price := "44.55" },
                Variant := some { Id := 0, Labels := ["hello", "world"],
                                  Multiplier := "3.33" } } }],
         "30779.1075") ∧
    (∀ (rest : List models.OrderArticle) (a : models.OrderArticle) (err : String),
      a.Details.Valid = true → a.Details.Bytes = null.Document.malformed err →
      orderArticlesModelsToMsg (arts ++ a :: rest) = Except.error err) := by
  have hloop := orderArticlesLoop_decodable arts decimal.zero [] h
  refine ⟨⟨arts.foldl (fun s a => decimal.Add s (lineTotal a)) decimal.zero, ?_, rfl, ?_⟩,
    by simp, ?_, by rfl, by rfl, ?_⟩
  · rw [orderArticlesModelsToMsg, hloop]
    rfl
  · intro hw
    rw [toRat_foldl_totals arts _ hw, decimal.toRat_zero, zero_add]
  · intro a _
    refine ⟨rfl, rfl, ?_⟩
    intro hf
    rw [decimal.toRat_Mul _ _ hf, decimal.toRat_New_zero]
  · intro rest a err hv hb
    rw [orderArticlesModelsToMsg, orderArticlesLoop_malformed arts rest a err _ _ h hv hb]

/-- C18 (witness): the three order lines of the test data, on which no step
rounds. -/
theorem C18_order_sum_witness :
    (testOrderArticles.map lineOf).length = 3 ∧
      exactWithin decimal.zero testOrderArticles = true ∧
      ∃ sum : decimal.Big,
        orderArticlesModelsToMsg testOrderArticles =
          Except.ok (testOrderArticles.map lineOf, sum.String) ∧
        sum = testOrderArticles.foldl
          (fun s a => decimal.Add s (decimal.Mul a.Price (decimal.New a.Amount 0)))
          decimal.zero ∧
        (exactWithin decimal.zero testOrderArticles = true →
          sum.toRat = (testOrderArticles.map (fun a => a.Price.toRat * (a.Amount : ℚ))).sum) :=
  ⟨(C18_order_sum testOrderArticles (by decide)).2.1, by decide,
   (C18_order_sum testOrderArticles (by decide)).1⟩

end server

/-! ## Order pricing -/

namespace server

/-- C17 (counterexample): article 13 of the test storage exists and has base
prices and variants, and the order line of the test case "Calc: unknown base
price" carries the non-zero base price id 99 and variant id 41; yet no line
price is computed: no base price 99 is stored and `newOrderArticle` returns a
NotFound error. And a computed price is rounded to sixteen significant digits:
the base price 99999999.99 and the multiplier 1.23456789 give the line price
123456788.9876543, while the exact product is 123456788.9876543211. -/
theorem C17_order_pricing_counterexample :
    testStore.FindArticle 13 =
        Except.ok { ID := 13, Title := "ID 13", Price := decimal.New 2299 2 } ∧
      shouldCalcPrice testStore { ID := 13, Title := "ID 13", Price := decimal.New 2299 2 } =
        (true, none) ∧
      newOrderArticle testStore
          { ArticleId := 13, Amount := 3, BasePriceId := 99, VariantId := 41 } =
        Except.error ⟨codes.Code.NotFound, "BasePrice and/or Variant for Article ID 13"⟩ ∧
      newOrderArticle longProductStore
          { ArticleId := 13, Amount := 1, BasePriceId := 31, VariantId := 41 } =
        Except.ok
          { ArticleID := 13, Amount := 1, Title := "ID 13",
            Price := decimal.New 1234567889876543 7,
            Details := null.NewJSON
              { BasePrice := some { Id := 0, Label := "Cheap material", Price := "99999999.99" },
                Variant := some { Id := 0, Labels := ["hello", "world"],
                                  Multiplier := "1.23456789" } } } ∧
      (decimal.New 1234567889876543 7).String = "123456788.9876543" ∧
      (decimal.exactMul (decimal.New 9999999999 2) (decimal.New 123456789 8)).String =
        "123456788.9876543211" := by
  refine ⟨by rfl, by rfl, by rfl, by rfl, by rfl, by rfl⟩

/-- C17 (amended): order pricing in `newOrderArticle`, for every order line
whose article exists and for which the two existence queries succeed. If the
article has both at least one base price and at least one variant, a zero
base-price id or zero variant id on the line is an InvalidArgument error;
otherwise, when the base price and the variant with the ids of the line are
found, the line price is `Mul(basePrice.price, variant.multiplier)` of the
decimal library, the product rounded to sixteen significant digits, which is
exactly basePrice.price * variant.multiplier when the exact product has at most
sixteen significant digits, with details carrying the label and price of the
base price and the labels and multiplier of the variant, and when the base
price or the variant is not found the result is a NotFound error. If the article lacks base prices or lacks
variants, the line price is the price of the article unchanged and no details
are set. -/
theorem C17_order_pricing (db : Store) (so : shop.Order_ArticleAmount) (art : models.Article)
    (hart : db.FindArticle so.ArticleId = Except.ok art)
    (hbp : (db.BasePricesExists art).2 = none) (hvt : (db.VariantsExists art).2 = none) :
    ((db.BasePricesExists art).1 = true → (db.VariantsExists art).1 = true →
      ((so.BasePriceId = 0 ∨ so.VariantId = 0) →
        newOrderArticle db so =
          Except.error ⟨codes.Code.InvalidArgument,
            "Article ID " ++ toString art.ID ++ " missing BasePrice or Variant ID"⟩) ∧
      (so.BasePriceId ≠ 0 → so.VariantId ≠ 0 →
        (∀ (bp : models.BasePrice) (vrt : models.Variant),
          db.FindBasePrice so.BasePriceId = Except.ok bp →
          db.FindVariant so.VariantId = Except.ok vrt →
          newOrderArticle db so =
            Except.ok
              { ArticleID := so.ArticleId, Amount := so.Amount, Title := art.Title,
                Price := decimal.Mul bp.Price vrt.Multiplier,
                Details := null.NewJSON
                  { BasePrice := some { Id := 0, Label := bp.Label, Price := bp.Price.String },
                    Variant := some { Id := 0, Labels := vrt.Labels,
                                      Multiplier := vrt.Multiplier.String } } } ∧
          decimal.Mul bp.Price vrt.Multiplier = (decimal.exactMul bp.Price vrt.Multiplier).round ∧
          ((decimal.exactMul bp.Price vrt.Multiplier).fits = true →
            (decimal.Mul bp.Price vrt.Multiplier).toRat =
              bp.Price.toRat * vrt.Multiplier.toRat)) ∧
        (db.FindBasePrice so.BasePriceId = Except.error dbError.ErrNoRows →
          newOrderArticle db so =
            Except.error ⟨codes.Code.NotFound,
              "BasePrice and/or Variant for Article ID " ++ toString art.ID⟩) ∧
        (∀ bp : models.BasePrice, db.FindBasePrice so.BasePriceId = Except.ok bp →
          db.FindVariant so.VariantId = Except.error dbError.ErrNoRows →
          newOrderArticle db so =
            Except.error ⟨codes.Code.NotFound,
              "BasePrice and/or Variant for Article ID " ++ toString art.ID⟩))) ∧
    (((db.BasePricesExists art).1 = false ∨ (db.VariantsExists art).1 = false) →
      newOrderArticle db so =
        Except.ok
          { ArticleID := so.ArticleId, Amount := so.Amount, Title := art.Title,
            Price := art.Price, Details := null.JSON.zero }) := by
  constructor
  · intro hb hv
    have hs : shouldCalcPrice db art = (true, none) := by
      simp [shouldCalcPrice, hb, hv, hbp, hvt, checkDBErrors]
    refine ⟨?_, ?_⟩
    · intro hz
      simp [newOrderArticle, hart, hs, calcPrice, hz, errVrtPrice, status.Error]
    · intro h1 h2
      have hz : ¬ (so.BasePriceId = 0 ∨ so.VariantId = 0) := by
        rintro (h | h)
        · exact h1 h
        · exact h2 h
      refine ⟨?_, ?_, ?_⟩
      · intro bp vrt hfb hfv
        refine ⟨?_, rfl, decimal.toRat_Mul _ _⟩
        simp [newOrderArticle, hart, hs, calcPrice, hz, hfb, hfv, errOf, checkDBErrors]
      · intro hfb
        simp [newOrderArticle, hart, hs, calcPrice, hz, hfb, errOf, checkDBErrors, status.Error]
      · intro bp hfb hfv
        simp [newOrderArticle, hart, hs, calcPrice, hz, hfb, hfv, errOf, checkDBErrors,
          status.Error]
  · intro hl
    have hs : (shouldCalcPrice db art).1 = false ∧ (shouldCalcPrice db art).2 = none := by
      rcases hl with h | h <;> simp [shouldCalcPrice, h, hbp, hvt, checkDBErrors]
    simp [newOrderArticle, hart, hs.1, hs.2]

/-- C17 (witness): the order line of the test case "Calc: success", article 13
with base price 31 (44.55) and variant 41 (3.33): the line price is 148.3515. -/
theorem C17_order_pricing_witness :
    newOrderArticle testStore
        { ArticleId := 13, Amount := 3, BasePriceId := 31, VariantId := 41 } =
      Except.ok
        { ArticleID := 13, Amount := 3, Title := "ID 13", Price := decimal.New 1483515 4,
          Details := null.NewJSON
            { BasePrice := some { Id := 0, Label := "Cheap material", Price := "44.55" },
              Variant := some { Id := 0, Labels := ["hello", "world"],
                                Multiplier := "3.33" } } } :=
  ((((C17_order_pricing testStore
      { ArticleId := 13, Amount := 3, BasePriceId := 31, VariantId := 41 }
      { ID := 13, Title := "ID 13", Price := decimal.New 2299 2 } rfl rfl rfl).1 rfl rfl).2
      (by decide) (by decide)).1
      { ID := 31, Label := "Cheap material", Price := decimal.New 4455 2 }
      { ID := 41, Labels := ["hello", "world"], Multiplier := decimal.New 333 2 } rfl rfl).1

end server

/-! ## The steps of SaveArticle -/

namespace server

/-- C21 (the code at the failing input): for the message `&shop.Article{}`,
which lacks title, description and price, `articleMsgToModel` returns the
InvalidArgument error that names the three fields, sorted; `upsertArticle` only
logs it, goes on to call `Upsert` on the nil row and returns the Internal error
"Database error". For every storage, every message that `articleMsgToModel`
rejects and every state, `upsertArticle` runs the upsert on the nil row and
answers by its outcome; a status error that `upsertArticle` returns is never
another one than Internal "Database error". -/
theorem C21_validation_error_not_returned :
    articleMsgToModel testSetString zeroArticle =
      Except.error (status.Error codes.Code.InvalidArgument
        "Missing required fields: Description, Price, Title") ∧
    upsertArticle logTx testSetString [] zeroArticle =
      (["Article.Upsert"],
       Except.error (goError.status (status.Error codes.Code.Internal "Database error"))) ∧
    articleMsgToModel testSetString { articleAllFields with Price := "spanac" } =
      Except.error (status.Error codes.Code.InvalidArgument
        "Can't convert Price string spanac to decimal") ∧
    upsertArticle logTx testSetString [] { articleAllFields with Price := "spanac" } =
      (["Article.Upsert"],
       Except.error (goError.status (status.Error codes.Code.Internal "Database error"))) ∧
    (∀ (σ : Type) (tx : Tx σ) (SetString : String → Option decimal.Big) (s : σ)
        (sa : shop.Article) (e : status.Status),
      articleMsgToModel SetString sa = Except.error e →
      upsertArticle tx SetString s sa =
        ((tx.ArticleUpsert s none).1,
         match (tx.ArticleUpsert s none).2 with
         | Except.error _ =>
           Except.error (goError.status (status.Error codes.Code.Internal "Database error"))
         | Except.ok art => Except.ok art)) ∧
    (∀ (σ : Type) (tx : Tx σ) (SetString : String → Option decimal.Big) (s : σ)
        (sa : shop.Article) (err : goError),
      (upsertArticle tx SetString s sa).2 = Except.error err →
      err = goError.status (status.Error codes.Code.Internal "Database error")) := by
  refine ⟨by rfl, by rfl, by rfl, by rfl, ?_, ?_⟩
  · intro σ tx SetString s sa e h
    simp only [upsertArticle, h, internalDB, errDB]
    rcases (tx.ArticleUpsert s none).2 with e2 | a <;> rfl
  · intro σ tx SetString s sa err h
    simp only [upsertArticle] at h
    split at h
    · simp only [Except.error.injEq] at h
      rw [← h]
      rfl
    · cases h

/-- C22 (the code at the failing input): on a transaction that has been closed,
`updateImages` and `updateVideos` called for article 12 with the media items of
the test "TX error" return the error of their delete-all cleanup as the storage
gave it, with its text, while `updateVariants` returns the Internal error
"Database error" for its failing cleanup. For every storage, when the media
items are valid and the cleanup fails, `updateImages` and `updateVideos` return
the storage error itself; every other storage failure inside these steps, and
every storage failure of `upsertArticle`, `setArticleCategories`,
`setArticleBasePrices` and `updateVariants`, is the Internal error "Database
error". -/
theorem C22_cleanup_error_handed_on :
    updateImages closedTx [] 12 mediaTxError =
      (["Images.DeleteAll"],
       some (goError.driver
         (dbError.other "sql: transaction has already been committed or rolled back"))) ∧
    updateVideos closedTx [] 12 mediaTxError =
      (["Videos.DeleteAll"],
       some (goError.driver
         (dbError.other "sql: transaction has already been committed or rolled back"))) ∧
    updateVariants closedTx testSetString [] 13 variantsCleanupError =
      (["Variants.DeleteAll"],
       some (goError.status (status.Error codes.Code.Internal "Database error"))) ∧
    (∀ (σ : Type) (tx : Tx σ) (s s2 : σ) (aid : Int) (mds : List shop.Media)
        (imgs : List models.Image) (e : dbError),
      imagesMsgToModel aid mds = Except.ok imgs →
      tx.ImagesDeleteAll s aid = (s2, Except.error e) →
      updateImages tx s aid mds = (s2, some (goError.driver e))) ∧
    (∀ (σ : Type) (tx : Tx σ) (s s2 : σ) (aid : Int) (mds : List shop.Media)
        (vids : List models.Video) (e : dbError),
      videosMsgToModel aid mds = Except.ok vids →
      tx.VideosDeleteAll s aid = (s2, Except.error e) →
      updateVideos tx s aid mds = (s2, some (goError.driver e))) ∧
    (∀ (σ : Type) (tx : Tx σ) (SetString : String → Option decimal.Big) (s s2 : σ) (aid : Int)
        (sv : List shop.Variant) (vars : List models.Variant) (e : dbError),
      variantsMsgToModel SetString aid sv = Except.ok vars →
      tx.VariantsDeleteAll s aid = (s2, Except.error e) →
      updateVariants tx SetString s aid sv = (s2, some internalDB)) ∧
    (∀ (σ : Type) (tx : Tx σ) (s : σ) (imgs : List models.Image) (err : goError),
      (insertImages tx s imgs).2 = some err → err = internalDB) ∧
    (∀ (σ : Type) (tx : Tx σ) (s : σ) (vids : List models.Video) (err : goError),
      (upsertVideos tx s vids).2 = some err → err = internalDB) ∧
    (∀ (σ : Type) (tx : Tx σ) (s : σ) (vars : List models.Variant) (err : goError),
      (insertVariants tx s vars).2 = some err → err = internalDB) ∧
    (∀ (σ : Type) (tx : Tx σ) (s : σ) (art : models.Article) (sc : List shop.Category)
        (err : goError),
      (setArticleCategories tx s art sc).2 = some err → err = internalDB) ∧
    (∀ (σ : Type) (tx : Tx σ) (s : σ) (art : models.Article) (sbp : List shop.BasePrice)
        (bases : List models.BasePrice) (err : goError),
      setArticleBasePricesLoop sbp [] = Except.ok bases →
      (setArticleBasePrices tx s art sbp).2 = some err → err = internalDB) ∧
    internalDB = goError.status (status.Error codes.Code.Internal "Database error") := by
  refine ⟨by rfl, by rfl, by rfl, ?_, ?_, ?_, ?_, ?_, ?_, ?_, ?_, rfl⟩
  · intro σ tx s s2 aid mds imgs e h1 h2
    simp only [updateImages, h1, h2]
  · intro σ tx s s2 aid mds vids e h1 h2
    simp only [updateVideos, h1, h2]
  · intro σ tx SetString s s2 aid sv vars e h1 h2
    simp only [updateVariants, h1, h2]
  · intro σ tx s imgs
    induction imgs generalizing s with
    | nil => intro err h; simp [insertImages] at h
    | cons img rest ih =>
      intro err h
      rw [insertImages] at h
      rcases hr : (tx.ImageInsert s img).2 with _ | e
      · simp only [hr] at h
        exact ih _ err h
      · simp only [hr, Option.some.injEq] at h
        exact h.symm
  · intro σ tx s vids
    induction vids generalizing s with
    | nil => intro err h; simp [upsertVideos] at h
    | cons vid rest ih =>
      intro err h
      rw [upsertVideos] at h
      rcases hr : (tx.VideoUpsert s vid).2 with _ | e
      · simp only [hr] at h
        exact ih _ err h
      · simp only [hr, Option.some.injEq] at h
        exact h.symm
  · intro σ tx s vars
    induction vars generalizing s with
    | nil => intro err h; simp [insertVariants] at h
    | cons v rest ih =>
      intro err h
      rw [insertVariants] at h
      rcases hr : (tx.VariantInsert s v).2 with _ | e
      · simp only [hr] at h
        exact ih _ err h
      · simp only [hr, Option.some.injEq] at h
        exact h.symm
  · intro σ tx s art sc err h
    simp only [setArticleCategories] at h
    split at h
    · simp only [Option.some.injEq] at h
      exact h.symm
    · cases h
  · intro σ tx s art sbp bases err h1 h
    simp only [setArticleBasePrices, h1] at h
    split at h
    · simp only [Option.some.injEq] at h
      exact h.symm
    · cases h

end server

/-! ## Classification of storage errors -/

namespace server

/-- The result of `checkDBErrors` is decided by the first entry that is not
passed over. -/
theorem checkDBErrors_find (logMsg : String) (errs : List (Option dbError)) (warnNoRows : Bool) :
    checkDBErrors logMsg errs warnNoRows =
      match errs.find? (fun e => !skipped warnNoRows e) with
      | none => none
      | some (some dbError.ErrNoRows) => some (status.Error codes.Code.NotFound logMsg)
      | some _ => some (status.Error codes.Code.Internal errDB) := by
  induction errs with
  | nil => rfl
  | cons e rest ih =>
    cases e with
    | none => simpa [checkDBErrors, skipped] using ih
    | some d =>
      cases d with
      | ErrNoRows =>
        cases warnNoRows with
        | true => simp [checkDBErrors, skipped]
        | false => simpa [checkDBErrors, skipped] using ih
      | other m => simp [checkDBErrors, skipped]

/-- The first entry that is not passed over, after a prefix of entries that
are. -/
theorem find_first_not_skipped (w : Bool) (pre : List (Option dbError)) (e : Option dbError)
    (rest : List (Option dbError)) (hp : ∀ x ∈ pre, skipped w x = true)
    (he : skipped w e = false) :
    (pre ++ e :: rest).find? (fun e => !skipped w e) = some e := by
  induction pre with
  | nil => simp [he]
  | cons a pre ih =>
    have ha : skipped w a = true := hp a (List.mem_cons_self _ _)
    simp only [List.cons_append, List.find?_cons, ha, Bool.not_true]
    exact ih (fun x hx => hp x (List.mem_cons_of_mem _ hx))

/-- C23: `checkDBErrors` classifies a list of storage errors by the no-rows
sentinel alone, deciding on the first entry in list order that is not passed
over: nil entries are passed over, a no-rows error is passed over when
`warnNoRows` is false and yields NotFound with the given message when it is
true, and any other error yields Internal with the fixed message "Database
error", whatever its own text. If every entry is passed over the result is nil;
hence with `warnNoRows` false the result is nil if and only if every entry is
nil or no-rows. -/
theorem C23_checkDBErrors (logMsg : String) (errs : List (Option dbError)) (warnNoRows : Bool) :
    (∀ e, skipped warnNoRows e = true ↔
      (e = none ∨ (e = some dbError.ErrNoRows ∧ warnNoRows = false))) ∧
    (∀ pre e rest, errs = pre ++ e :: rest → (∀ x ∈ pre, skipped warnNoRows x = true) →
      skipped warnNoRows e = false →
      checkDBErrors logMsg errs warnNoRows =
        if e = some dbError.ErrNoRows then some (status.Error codes.Code.NotFound logMsg)
        else some (status.Error codes.Code.Internal "Database error")) ∧
    ((∀ x ∈ errs, skipped warnNoRows x = true) → checkDBErrors logMsg errs warnNoRows = none) ∧
    (checkDBErrors logMsg errs false = none ↔
      ∀ e ∈ errs, e = none ∨ e = some dbError.ErrNoRows) := by
  have hfind := checkDBErrors_find logMsg
  have hall : ∀ (w : Bool) (l : List (Option dbError)), (∀ x ∈ l, skipped w x = true) →
      l.find? (fun e => !skipped w e) = none := by
    intro w l hl
    rw [List.find?_eq_none]
    intro x hx
    simp [hl x hx]
  refine ⟨?_, ?_, ?_, ?_⟩
  · intro e
    cases e with
    | none => simp [skipped]
    | some d => cases d <;> simp [skipped]
  · intro pre e rest he hp hs
    rw [hfind, he, find_first_not_skipped warnNoRows pre e rest hp hs]
    cases e with
    | none => simp [skipped] at hs
    | some d => cases d <;> simp [errDB]
  · intro h
    rw [hfind, hall warnNoRows errs h]
  · constructor
    · intro h e he
      by_contra hne
      have hs : skipped false e = false := by
        cases e with
        | none => simp at hne
        | some d => cases d <;> simp [skipped] at hne ⊢
      rw [hfind] at h
      cases hf : errs.find? (fun e => !skipped false e) with
      | none =>
        rw [List.find?_eq_none] at hf
        have := hf e he
        simp [hs] at this
      | some x =>
        rw [hf] at h
        have hx := List.find?_some hf
        cases x with
        | none => simp [skipped] at hx
        | some d => cases d <;> simp [skipped] at hx h
    · intro h
      rw [hfind, hall false errs]
      intro x hx
      rcases h x hx with rfl | rfl <;> simp [skipped]

end server

/-! ## Positions of media items -/

namespace server

/-- The required values of a media item are all present exactly when the
article id is not 0 and the label and the URL are not empty; otherwise
`checkRequired` returns an InvalidArgument error. -/
theorem mediaRequired (aid : Int) (l u : String) :
    (aid ≠ 0 ∧ l ≠ "" ∧ u ≠ "" →
      checkRequired [("ArticleID", Any.int aid), ("Label", Any.string l), ("URL", Any.string u)] =
        none) ∧
    (aid = 0 ∨ l = "" ∨ u = "" →
      ∃ msg,
        checkRequired [("ArticleID", Any.int aid), ("Label", Any.string l),
            ("URL", Any.string u)] =
          some ⟨codes.Code.InvalidArgument, msg⟩) := by
  rw [checkRequired_eq]
  constructor
  · rintro ⟨h1, h2, h3⟩
    simp [missingNames, missing, h1, h2, h3]
  · intro h
    have hne : missingNames [("ArticleID", Any.int aid), ("Label", Any.string l),
        ("URL", Any.string u)] ≠ [] := by
      rcases h with h | h | h <;> subst h
      · simp [missingNames, missing, List.filter_cons]
      · by_cases h1 : aid = 0 <;> simp [missingNames, missing, List.filter_cons, h1]
      · by_cases h1 : aid = 0 <;> by_cases h2 : l = "" <;>
          simp [missingNames, missing, List.filter_cons, h1, h2]
    rw [if_neg hne]
    exact ⟨_, rfl⟩

/-- The loop of `imagesMsgToModel` on media items that have all required
values. -/
theorem imagesMsgToModelLoop_ok (aid : Int) (h0 : aid ≠ 0) (sm : List shop.Media)
    (h : ∀ m ∈ sm, m.Label ≠ "" ∧ m.Url ≠ "") :
    ∀ (i : Nat) (imgs : List models.Image),
      imagesMsgToModelLoop aid sm i imgs =
        Except.ok (imgs ++ (sm.enumFrom i).map (fun p =>
          { ID := p.2.Id, ArticleID := aid, Position := (p.1 : Int) + 1, Label := p.2.Label,
            URL := p.2.Url })) := by
  induction sm with
  | nil => intro i imgs; simp [imagesMsgToModelLoop]
  | cons m rest ih =>
    intro i imgs
    have hm := h m (List.mem_cons_self _ _)
    rw [imagesMsgToModelLoop]
    simp only [(mediaRequired aid m.Label m.Url).1 ⟨h0, hm.1, hm.2⟩]
    rw [ih (fun x hx => h x (List.mem_cons_of_mem _ hx))]
    simp [List.enumFrom_cons]

/-- The loop of `imagesMsgToModel` stops at the first media item that lacks a
required value. -/
theorem imagesMsgToModelLoop_err (aid : Int) (pre : List shop.Media) (m : shop.Media)
    (rest : List shop.Media) (hpre : ∀ x ∈ pre, aid ≠ 0 ∧ x.Label ≠ "" ∧ x.Url ≠ "")
    (hm : aid = 0 ∨ m.Label = "" ∨ m.Url = "") :
    ∀ (i : Nat) (imgs : List models.Image),
      ∃ msg, imagesMsgToModelLoop aid (pre ++ m :: rest) i imgs =
          Except.error ⟨codes.Code.InvalidArgument, msg⟩ ∧
        checkRequired [("ArticleID", Any.int aid), ("Label", Any.string m.Label),
            ("URL", Any.string m.Url)] = some ⟨codes.Code.InvalidArgument, msg⟩ := by
  induction pre with
  | nil =>
    intro i imgs
    obtain ⟨msg, e⟩ := (mediaRequired aid m.Label m.Url).2 hm
    refine ⟨msg, ?_, e⟩
    rw [List.nil_append, imagesMsgToModelLoop]
    simp only [e]
  | cons x pre ih =>
    intro i imgs
    have hx := hpre x (List.mem_cons_self _ _)
    rw [List.cons_append, imagesMsgToModelLoop]
    simp only [(mediaRequired aid x.Label x.Url).1 hx]
    exact ih (fun y hy => hpre y (List.mem_cons_of_mem _ hy)) _ _

/-- The loop of `videosMsgToModel` on media items that have all required
values. -/
theorem videosMsgToModelLoop_ok (aid : Int) (h0 : aid ≠ 0) (sm : List shop.Media)
    (h : ∀ m ∈ sm, m.Label ≠ "" ∧ m.Url ≠ "") :
    ∀ (i : Nat) (vids : List models.Video),
      videosMsgToModelLoop aid sm i vids =
        Except.ok (vids ++ (sm.enumFrom i).map (fun p =>
          { ID := p.2.Id, ArticleID := aid, Position := (p.1 : Int) + 1, Label := p.2.Label,
            URL := p.2.Url })) := by
  induction sm with
  | nil => intro i vids; simp [videosMsgToModelLoop]
  | cons m rest ih =>
    intro i vids
    have hm := h m (List.mem_cons_self _ _)
    rw [videosMsgToModelLoop]
    simp only [(mediaRequired aid m.Label m.Url).1 ⟨h0, hm.1, hm.2⟩]
    rw [ih (fun x hx => h x (List.mem_cons_of_mem _ hx))]
    simp [List.enumFrom_cons]

/-- The loop of `videosMsgToModel` stops at the first media item that lacks a
required value. -/
theorem videosMsgToModelLoop_err (aid : Int) (pre : List shop.Media) (m : shop.Media)
    (rest : List shop.Media) (hpre : ∀ x ∈ pre, aid ≠ 0 ∧ x.Label ≠ "" ∧ x.Url ≠ "")
    (hm : aid = 0 ∨ m.Label = "" ∨ m.Url = "") :
    ∀ (i : Nat) (vids : List models.Video),
      ∃ msg, videosMsgToModelLoop aid (pre ++ m :: rest) i vids =
          Except.error ⟨codes.Code.InvalidArgument, msg⟩ ∧
        checkRequired [("ArticleID", Any.int aid), ("Label", Any.string m.Label),
            ("URL", Any.string m.Url)] = some ⟨codes.Code.InvalidArgument, msg⟩ := by
  induction pre with
  | nil =>
    intro i vids
    obtain ⟨msg, e⟩ := (mediaRequired aid m.Label m.Url).2 hm
    refine ⟨msg, ?_, e⟩
    rw [List.nil_append, videosMsgToModelLoop]
    simp only [e]
  | cons x pre ih =>
    intro i vids
    have hx := hpre x (List.mem_cons_self _ _)
    rw [List.cons_append, videosMsgToModelLoop]
    simp only [(mediaRequired aid x.Label x.Url).1 hx]
    exact ih (fun y hy => hpre y (List.mem_cons_of_mem _ hy)) _ _

/-- The first element of a list that has a property, after a prefix of
elements that do not have it. -/
theorem split_first {α : Type} (P : α → Prop) (l : List α) (h : ∃ x ∈ l, P x) :
    ∃ pre x rest, l = pre ++ x :: rest ∧ (∀ y ∈ pre, ¬ P y) ∧ P x := by
  classical
  induction l with
  | nil => simp at h
  | cons a l ih =>
    by_cases ha : P a
    · exact ⟨[], a, l, rfl, by simp, ha⟩
    · obtain ⟨x, hx, hp⟩ := h
      have hx2 : x ∈ l := by
        rcases List.mem_cons.mp hx with e | e
        · subst e; exact absurd hp ha
        · exact e
      obtain ⟨pre, y, rest, e, h1, h2⟩ := ih ⟨x, hx2, hp⟩
      refine ⟨a :: pre, y, rest, by simp [e], ?_, h2⟩
      intro z hz
      rcases List.mem_cons.mp hz with e2 | e2
      · subst e2; exact ha
      · exact h1 z e2

/-- C24 (counterexample): with article id 0 and no media items both functions
return the empty list and no error, where the claim has an InvalidArgument
error for every call with article id 0. -/
theorem C24_positions_counterexample :
    imagesMsgToModel 0 [] = Except.ok [] ∧ videosMsgToModel 0 [] = Except.ok [] ∧
      ¬ (∀ (aid : Int) (sm : List shop.Media), aid = 0 →
          ∃ msg, imagesMsgToModel aid sm = Except.error ⟨codes.Code.InvalidArgument, msg⟩) := by
  refine ⟨rfl, rfl, ?_⟩
  intro h
  obtain ⟨msg, e⟩ := h 0 [] rfl
  have e2 : imagesMsgToModel 0 [] = Except.ok [] := rfl
  rw [e2] at e
  cases e

/-- C24 (amended): positions are re-derived from the order of submission. For a
non-zero article id and media items that all have a non-empty label and URL,
`imagesMsgToModel` and `videosMsgToModel` return a list of the same length whose
element at index `i` (0-based) has position `i + 1`, the given article id and
the id, label and URL of the input at index `i`. If the list is not empty and
the article id is 0, or if some item lacks a label or a URL, they return the
InvalidArgument error of `checkRequired` for the first such item and no rows.
For the empty list they return the empty list, whatever the article id. -/
theorem C24_positions (aid : Int) (sm : List shop.Media) :
    (aid ≠ 0 → (∀ m ∈ sm, m.Label ≠ "" ∧ m.Url ≠ "") →
      imagesMsgToModel aid sm = Except.ok (sm.enum.map (fun p => imageRow aid p.1 p.2)) ∧
        videosMsgToModel aid sm = Except.ok (sm.enum.map (fun p => videoRow aid p.1 p.2)) ∧
        (sm.enum.map (fun p => imageRow aid p.1 p.2)).length = sm.length ∧
        (sm.enum.map (fun p => videoRow aid p.1 p.2)).length = sm.length ∧
        (∀ (i : Nat) (h : i < sm.length),
          (sm.enum.map (fun p => imageRow aid p.1 p.2))[i]? = some (imageRow aid i sm[i]) ∧
          (sm.enum.map (fun p => videoRow aid p.1 p.2))[i]? = some (videoRow aid i sm[i])) ∧
        (∀ (i : Nat) (m : shop.Media),
          imageRow aid i m =
              { ID := m.Id, ArticleID := aid, Position := i + 1, Label := m.Label, URL := m.Url } ∧
            videoRow aid i m =
              { ID := m.Id, ArticleID := aid, Position := i + 1, Label := m.Label,
                URL := m.Url })) ∧
    (((sm ≠ [] ∧ aid = 0) ∨ ∃ m ∈ sm, m.Label = "" ∨ m.Url = "") →
      ∃ pre m rest msg, sm = pre ++ m :: rest ∧
        (∀ x ∈ pre, aid ≠ 0 ∧ x.Label ≠ "" ∧ x.Url ≠ "") ∧
        (aid = 0 ∨ m.Label = "" ∨ m.Url = "") ∧
        checkRequired [("ArticleID", Any.int aid), ("Label", Any.string m.Label),
            ("URL", Any.string m.Url)] = some ⟨codes.Code.InvalidArgument, msg⟩ ∧
        imagesMsgToModel aid sm = Except.error ⟨codes.Code.InvalidArgument, msg⟩ ∧
        videosMsgToModel aid sm = Except.error ⟨codes.Code.InvalidArgument, msg⟩) ∧
    (imagesMsgToModel aid [] = Except.ok [] ∧ videosMsgToModel aid [] = Except.ok []) := by
  refine ⟨?_, ?_, rfl, rfl⟩
  · intro h0 h
    refine ⟨?_, ?_, by simp, by simp, ?_, fun i m => ⟨rfl, rfl⟩⟩
    · rw [imagesMsgToModel, imagesMsgToModelLoop_ok aid h0 sm h]
      simp [List.enum, imageRow]
    · rw [videosMsgToModel, videosMsgToModelLoop_ok aid h0 sm h]
      simp [List.enum, videoRow]
    · intro i hi
      simp [List.getElem?_map, List.getElem?_enum, List.getElem?_eq_getElem hi]
  · intro h
    have hex : ∃ m ∈ sm, aid = 0 ∨ m.Label = "" ∨ m.Url = "" := by
      rcases h with ⟨hne, h0⟩ | ⟨m, hm, hb⟩
      · obtain ⟨m, hm⟩ := List.exists_mem_of_ne_nil sm hne
        exact ⟨m, hm, Or.inl h0⟩
      · exact ⟨m, hm, Or.inr hb⟩
    obtain ⟨pre, m, rest, e, hpre, hm⟩ :=
      split_first (fun m : shop.Media => aid = 0 ∨ m.Label = "" ∨ m.Url = "") sm hex
    have hpre2 : ∀ x ∈ pre, aid ≠ 0 ∧ x.Label ≠ "" ∧ x.Url ≠ "" := by
      intro x hx
      have := hpre x hx
      simp only [not_or] at this
      exact this
    obtain ⟨msg, e1, e2⟩ := imagesMsgToModelLoop_err aid pre m rest hpre2 hm 0 []
    obtain ⟨msg2, e3, e4⟩ := videosMsgToModelLoop_err aid pre m rest hpre2 hm 0 []
    have hmsg : msg2 = msg := by
      rw [e2] at e4
      simpa using e4.symm
    subst hmsg
    exact ⟨pre, m, rest, msg2, e, hpre2, hm, e2, by rw [imagesMsgToModel, e, e1],
      by rw [videosMsgToModel, e, e3]⟩

/-- C24 (witness): the images c and a saved again in the order c, a for article
12 get the positions 1 and 2; the media item of the test "Missing fields" with
article id 0 is rejected. -/
theorem C24_positions_witness :
    imagesMsgToModel 12 [mediaC, mediaA] =
      Except.ok [imageRow 12 0 mediaC, imageRow 12 1 mediaA] ∧
    (imageRow 12 0 mediaC).Position = 1 ∧ (imageRow 12 1 mediaA).Position = 2 ∧
    (∃ pre m rest msg, [mediaEmpty] = pre ++ m :: rest ∧
        (∀ x ∈ pre, (0 : Int) ≠ 0 ∧ x.Label ≠ "" ∧ x.Url ≠ "") ∧
        ((0 : Int) = 0 ∨ m.Label = "" ∨ m.Url = "") ∧
        checkRequired [("ArticleID", Any.int 0), ("Label", Any.string m.Label),
            ("URL", Any.string m.Url)] = some ⟨codes.Code.InvalidArgument, msg⟩ ∧
        imagesMsgToModel 0 [mediaEmpty] = Except.error ⟨codes.Code.InvalidArgument, msg⟩ ∧
        videosMsgToModel 0 [mediaEmpty] = Except.error ⟨codes.Code.InvalidArgument, msg⟩) :=
  ⟨((C24_positions 12 [mediaC, mediaA]).1 (by decide) (by decide)).1, by decide, by decide,
   (C24_positions 0 [mediaEmpty]).2.1 (Or.inl ⟨by decide, rfl⟩)⟩

end server

/-! ## The decoder of a result document -/

namespace server

/-- A Go string has length 0 exactly when it is the empty string. -/
theorem length_eq_zero_iff_empty (s : String) : s.length = 0 ↔ s = "" := by
  constructor
  · intro h
    have hd : s.data = [] := List.length_eq_zero.mp h
    exact String.ext hd
  · rintro rfl
    rfl

/-- The function `timeModelToMsg` succeeds exactly when each of the two
instants is the zero time or is accepted by `TimestampProto`; its error is an
OutOfRange error. -/
theorem timeModelToMsg_ok_iff (tl : timeLib) (ct ut : time.Time) :
    ((∃ cu, timeModelToMsg tl ct ut = Except.ok cu) ↔
      ((ct.IsZero = true ∨ ∃ ts, tl.TimestampProto ct = Except.ok ts) ∧
       (ut.IsZero = true ∨ ∃ ts, tl.TimestampProto ut = Except.ok ts))) ∧
    (∀ e, timeModelToMsg tl ct ut = Except.error e → e.code = codes.Code.OutOfRange) := by
  rcases hc : ct.IsZero <;> rcases hu : ut.IsZero <;>
    rcases hpc : tl.TimestampProto ct with ec | tc <;>
    rcases hpu : tl.TimestampProto ut with eu | tu <;>
    simp [timeModelToMsg, hc, hu, hpc, hpu, status.Error]

/-- The function `timeBytesToMsg` succeeds exactly on two accepted timestamp
texts; its error is an OutOfRange error. -/
theorem timeBytesToMsg_ok_iff (tl : timeLib) (ca ua : String) :
    ((∃ cu, timeBytesToMsg tl ca ua = Except.ok cu) ↔ (timeOK tl ca ∧ timeOK tl ua)) ∧
    (∀ e, timeBytesToMsg tl ca ua = Except.error e → e.code = codes.Code.OutOfRange) := by
  have hz : time.Time.zero.IsZero = true := by decide
  simp only [timeBytesToMsg, ne_eq, length_eq_zero_iff_empty, timeOK]
  by_cases h1 : ca = "" <;> by_cases h2 : ua = ""
  · have := timeModelToMsg_ok_iff tl time.Time.zero time.Time.zero
    simp only [hz, true_or, true_and] at this
    simpa [h1, h2] using this
  · rcases hp : tl.Parse ua with e | t
    · simp [hp, h1, h2, status.Error]
    · have := timeModelToMsg_ok_iff tl time.Time.zero t
      simp only [hz, true_or, true_and] at this
      simpa [hp, h1, h2] using this
  · rcases hp : tl.Parse ca with e | t
    · simp [hp, h1, h2, status.Error]
    · have := timeModelToMsg_ok_iff tl t time.Time.zero
      simp only [hz, true_or, and_true] at this
      simpa [hp, h1, h2] using this
  · rcases hpc : tl.Parse ca with e | t
    · simp [hpc, h1, h2, status.Error]
    · rcases hpu : tl.Parse ua with e | u
      · simp [hpc, hpu, h1, h2, status.Error]
      · have := timeModelToMsg_ok_iff tl t u
        simpa [hpc, hpu, h1, h2] using this

/-- The function `articleValueToMsg` succeeds exactly when the texts that it
reads under the keys "created_at" and "updated_at" are accepted; its error is
an OutOfRange error. -/
theorem articleValueToMsg_ok_iff (tl : timeLib) (v : fj.Value) :
    ((∃ sa, articleValueToMsg tl v = Except.ok sa) ↔
      (timeOK tl (v.GetStringBytes "created_at") ∧ timeOK tl (v.GetStringBytes "updated_at"))) ∧
    (∀ e, articleValueToMsg tl v = Except.error e → e.code = codes.Code.OutOfRange) := by
  have h := timeBytesToMsg_ok_iff tl (v.GetStringBytes "created_at")
    (v.GetStringBytes "updated_at")
  rcases ht : timeBytesToMsg tl (v.GetStringBytes "created_at")
      (v.GetStringBytes "updated_at") with e | cu
  · rw [ht] at h
    simp only [articleValueToMsg, ht]
    refine ⟨?_, ?_⟩
    · rw [← h.1]
      simp
    · intro e2 he
      have : e = e2 := by simpa using he
      subst this
      exact h.2 e rfl
  · rw [ht] at h
    simp only [articleValueToMsg, ht]
    refine ⟨?_, ?_⟩
    · rw [← h.1]
      simp
    · intro e2 he
      simp at he

/-- The loop of `articlesJSONtoMsg` returns the decoded elements in order. -/
theorem articlesJSONtoMsgLoop_ok (tl : timeLib) (vs : List fj.Value) :
    ∀ (sas l : List shop.Article),
      articlesJSONtoMsgLoop tl vs sas = Except.ok l ↔
        ∃ l2, l = sas ++ l2 ∧
          List.Forall₂ (fun v sa => articleValueToMsg tl v = Except.ok sa) vs l2 := by
  induction vs with
  | nil =>
    intro sas l
    simp only [articlesJSONtoMsgLoop, Except.ok.injEq]
    constructor
    · rintro rfl
      exact ⟨[], by simp, List.Forall₂.nil⟩
    · rintro ⟨l2, e, hf⟩
      cases hf
      simp [e]
  | cons v rest ih =>
    intro sas l
    rw [articlesJSONtoMsgLoop]
    rcases hv : articleValueToMsg tl v with e | sa
    · simp only
      constructor
      · intro h
        cases h
      · rintro ⟨l2, _, hf⟩
        cases hf with
        | cons h1 _ => rw [hv] at h1; cases h1
    · simp only
      rw [ih]
      constructor
      · rintro ⟨l2, e, hf⟩
        exact ⟨sa :: l2, by simp [e], List.Forall₂.cons hv hf⟩
      · rintro ⟨l2, e, hf⟩
        cases hf with
        | cons h1 h2 =>
          rw [hv] at h1
          cases h1
          exact ⟨_, by simp [e], h2⟩

/-- The loop of `articlesJSONtoMsg` fails with the error of the first element
that does not decode. -/
theorem articlesJSONtoMsgLoop_err (tl : timeLib) (pre : List fj.Value) (v : fj.Value)
    (rest : List fj.Value) (e : status.Status)
    (hpre : ∀ x ∈ pre, ∃ sa, articleValueToMsg tl x = Except.ok sa)
    (hv : articleValueToMsg tl v = Except.error e) :
    ∀ sas, articlesJSONtoMsgLoop tl (pre ++ v :: rest) sas = Except.error e := by
  induction pre with
  | nil =>
    intro sas
    rw [List.nil_append, articlesJSONtoMsgLoop, hv]
  | cons x pre ih =>
    intro sas
    obtain ⟨sa, hx⟩ := hpre x (List.mem_cons_self _ _)
    rw [List.cons_append, articlesJSONtoMsgLoop, hx]
    exact ih (fun y hy => hpre y (List.mem_cons_of_mem _ hy)) _

/-- A list has an elementwise related partner exactly when each element has
one. -/
theorem exists_forall2_iff {α β : Type} (R : α → β → Prop) (a : List α) :
    (∃ l, List.Forall₂ R a l) ↔ ∀ v ∈ a, ∃ b, R v b := by
  induction a with
  | nil => exact ⟨fun _ => by simp, fun _ => ⟨[], List.Forall₂.nil⟩⟩
  | cons x xs ih =>
    constructor
    · rintro ⟨l, hf⟩
      cases hf with
      | cons h1 h2 =>
        intro v hv
        rcases List.mem_cons.mp hv with e | e
        · subst e; exact ⟨_, h1⟩
        · exact ih.1 ⟨_, h2⟩ v e
    · intro h
      obtain ⟨b, hb⟩ := h x (List.mem_cons_self _ _)
      obtain ⟨l, hl⟩ := ih.2 (fun v hv => h v (List.mem_cons_of_mem _ hv))
      exact ⟨b :: l, List.Forall₂.cons hb hl⟩

/-- C25 (counterexample): the document `[{"created_at" : 5}]` decodes to one
article with zero values, although the member "created_at" of its element is
present and is neither an empty text nor a timestamp: it is a number, which the
decoder reads like an absent member. -/
theorem C25_decode_counterexample :
    articlesJSONtoMsg testTime docNumberCreated = Except.ok [zeroArticle] ∧
    (fj.Value.TypeObject [("created_at", fj.Value.TypeNumber 5)]).Get "created_at" =
      some (fj.Value.TypeNumber 5) ∧
    (fj.Value.TypeObject [("created_at", fj.Value.TypeNumber 5)]).Get "created_at" ≠ none ∧
    ¬ ∃ s : String,
      (fj.Value.TypeObject [("created_at", fj.Value.TypeNumber 5)]).Get "created_at" =
        some (fj.Value.TypeString s) := by
  have h : (fj.Value.TypeObject [("created_at", fj.Value.TypeNumber 5)]).Get "created_at" =
      some (fj.Value.TypeNumber 5) := rfl
  refine ⟨rfl, h, ?_, ?_⟩
  · rw [h]
    simp
  · rw [h]
    rintro ⟨s, hs⟩
    injection hs with hs
    cases hs

/-- C25 (amended): `articlesJSONtoMsg` succeeds exactly when the parsed top-level
value is a JSON array and, for every element, each of the members "created_at"
and "updated_at" is absent, is not a JSON string, is the empty string, or is a
text that `time.Parse` accepts and whose instant is the zero time or is
accepted by `ptypes.TimestampProto`. On success it returns one article per
element in array order, each the result of `articleValueToMsg` (an element
without keys gives the zero values). A top-level value that is not an array is
the Internal error "Fatal I/O error"; an element whose timestamp is not
accepted makes the whole decode fail with the OutOfRange error of the first
such element, the elements are not skipped. -/
theorem C25_decode (tl : timeLib) (s : fj.Value) :
    (∀ l, articlesJSONtoMsg tl s = Except.ok l ↔
      ∃ a, s = fj.Value.TypeArray a ∧
        List.Forall₂ (fun v sa => articleValueToMsg tl v = Except.ok sa) a l) ∧
    ((∃ l, articlesJSONtoMsg tl s = Except.ok l) ↔
      ∃ a, s = fj.Value.TypeArray a ∧
        ∀ v ∈ a, timeOK tl (v.GetStringBytes "created_at") ∧
          timeOK tl (v.GetStringBytes "updated_at")) ∧
    ((∀ a, s ≠ fj.Value.TypeArray a) →
      articlesJSONtoMsg tl s =
        Except.error (status.Error codes.Code.Internal "Fatal I/O error")) ∧
    (∀ pre v rest, s = fj.Value.TypeArray (pre ++ v :: rest) →
      (∀ x ∈ pre, timeOK tl (x.GetStringBytes "created_at") ∧
        timeOK tl (x.GetStringBytes "updated_at")) →
      ¬ (timeOK tl (v.GetStringBytes "created_at") ∧ timeOK tl (v.GetStringBytes "updated_at")) →
      ∃ e, articleValueToMsg tl v = Except.error e ∧ e.code = codes.Code.OutOfRange ∧
        articlesJSONtoMsg tl s = Except.error e) ∧
    (∀ (v : fj.Value) (key : String),
      (v.Get key = none → v.GetStringBytes key = "") ∧
      (∀ x, v.Get key = some x → (∀ str, x ≠ fj.Value.TypeString str) →
        v.GetStringBytes key = "") ∧
      (∀ str, v.Get key = some (fj.Value.TypeString str) → v.GetStringBytes key = str)) ∧
    articleValueToMsg tl (fj.Value.TypeObject []) = Except.ok zeroArticle := by
  have h1 : ∀ l, articlesJSONtoMsg tl s = Except.ok l ↔
      ∃ a, s = fj.Value.TypeArray a ∧
        List.Forall₂ (fun v sa => articleValueToMsg tl v = Except.ok sa) a l := by
    intro l
    cases s with
    | TypeArray a =>
      simp only [articlesJSONtoMsg, fj.Value.Array]
      rw [articlesJSONtoMsgLoop_ok]
      simp
    | _ => simp [articlesJSONtoMsg, fj.Value.Array]
  refine ⟨h1, ?_, ?_, ?_, ?_, rfl⟩
  · constructor
    · rintro ⟨l, hl⟩
      obtain ⟨a, e, hf⟩ := (h1 l).1 hl
      refine ⟨a, e, fun v hv => ?_⟩
      exact (articleValueToMsg_ok_iff tl v).1.1 ((exists_forall2_iff _ a).1 ⟨l, hf⟩ v hv)
    · rintro ⟨a, e, h⟩
      obtain ⟨l, hl⟩ := (exists_forall2_iff
        (fun v sa => articleValueToMsg tl v = Except.ok sa) a).2
        (fun v hv => (articleValueToMsg_ok_iff tl v).1.2 (h v hv))
      exact ⟨l, (h1 l).2 ⟨a, e, hl⟩⟩
  · intro h
    cases s with
    | TypeArray a => exact absurd rfl (h a)
    | _ => rfl
  · intro pre v rest e hpre hv
    subst e
    rcases hr : articleValueToMsg tl v with err | sa
    · refine ⟨err, rfl, (articleValueToMsg_ok_iff tl v).2 err hr, ?_⟩
      simp only [articlesJSONtoMsg, fj.Value.Array]
      exact articlesJSONtoMsgLoop_err tl pre v rest err
        (fun x hx => (articleValueToMsg_ok_iff tl x).1.2 (hpre x hx)) hr []
    · exact absurd ((articleValueToMsg_ok_iff tl v).1.1 ⟨sa, hr⟩) hv
  · intro v key
    refine ⟨?_, ?_, ?_⟩
    · intro h
      simp [fj.Value.GetStringBytes, h]
    · intro x h hx
      cases x with
      | TypeString str => exact absurd rfl (hx str)
      | _ => simp [fj.Value.GetStringBytes, h]
    · intro str h
      simp [fj.Value.GetStringBytes, h]

end server

/-! ## The relations of a request -/

namespace builder

/-- The relations that `articleRelations` returns when the five field lists
resolve. -/
theorem articleRelations_ok (rel : shop.ArticleRelations)
    (h : ∀ e ∈ relationErrors rel, e = none) :
    articleRelations rel =
      ((relationCandidates rel).filter (fun r => decide (r.columns ≠ [])), none) := by
  simp only [relationErrors, List.mem_cons, List.mem_singleton, forall_eq_or_imp, forall_eq,
    List.not_mem_nil, IsEmpty.forall_iff, implies_true, and_true] at h
  obtain ⟨h0, h1, h2, h3, h4⟩ := h
  simp only [articleRelations, h0, h1, h2, h3, h4, relationCandidates]
  simp only [List.find?, Option.isSome]
  have hl : ∀ l : List String, (l.length > 0) ↔ l ≠ [] := by
    intro l; cases l <;> simp
  simp only [hl, List.filter, models.TableNames, models.ImageColumns, models.VideoColumns,
    models.CategoryColumns, models.BasePriceColumns, models.VariantColumns]
  by_cases c0 : (ImageColumns rel.Images).1 = [] <;>
  by_cases c1 : (VideoColumns rel.Videos).1 = [] <;>
  by_cases c2 : (CategoryColumns rel.Categories).1 = [] <;>
  by_cases c3 : (BasePriceColumns rel.Baseprices).1 = [] <;>
  by_cases c4 : (VariantColumns rel.Variants).1 = [] <;>
  simp [c0, c1, c2, c3, c4]

/-- The first entry of a list of optional errors that is an error. -/
theorem find_first_some {α : Type} (l : List (Option α)) (h : ∃ e ∈ l, e ≠ none) :
    ∃ pre a rest, l = pre ++ some a :: rest ∧ (∀ x ∈ pre, x = none) ∧
      l.find? Option.isSome = some (some a) := by
  induction l with
  | nil => simp at h
  | cons x xs ih =>
    cases x with
    | some a => exact ⟨[], a, xs, rfl, by simp, by simp⟩
    | none =>
      obtain ⟨e, he, hne⟩ := h
      have he2 : e ∈ xs := by
        rcases List.mem_cons.mp he with h1 | h1
        · exact absurd h1 hne
        · exact h1
      obtain ⟨pre, a, rest, h1, h2, h3⟩ := ih ⟨e, he2, hne⟩
      refine ⟨none :: pre, a, rest, by simp [h1], ?_, by simpa using h3⟩
      intro y hy
      rcases List.mem_cons.mp hy with h4 | h4
      · exact h4
      · exact h2 y h4

/-- The result of `articleRelations` when a resolution fails. -/
theorem articleRelations_err (rel : shop.ArticleRelations) (st : status.Status)
    (h : (relationErrors rel).find? Option.isSome = some (some st)) :
    articleRelations rel = ([], some st) := by
  simp only [relationErrors] at h
  simp only [articleRelations, h]

/-- C26: when all five field lists of a relations request resolve,
`articleRelations` returns, without error, the relations images, videos,
categories, base_prices, variants in this fixed order, keeping exactly those
whose field list resolves to at least one column (an empty field list resolves
to no column, so its relation is left out). When a resolution fails it returns
no relations and the error of the first failing relation in the fixed order. -/
theorem C26_relations_fixed_order (rel : shop.ArticleRelations) :
    ((∀ e ∈ relationErrors rel, e = none) →
      articleRelations rel =
        ((relationCandidates rel).filter (fun r => decide (r.columns ≠ [])), none) ∧
      ((articleRelations rel).1.map (fun r => r.name)).Sublist
        ["images", "videos", "categories", "base_prices", "variants"] ∧
      (∀ r ∈ relationCandidates rel, r ∈ (articleRelations rel).1 ↔ r.columns ≠ [])) ∧
    ((∃ e ∈ relationErrors rel, e ≠ none) →
      ∃ pre st rest, relationErrors rel = pre ++ some st :: rest ∧ (∀ x ∈ pre, x = none) ∧
        articleRelations rel = ([], some st)) ∧
    ((ImageColumns []).1 = [] ∧ (VideoColumns []).1 = [] ∧ (CategoryColumns []).1 = [] ∧
      (BasePriceColumns []).1 = [] ∧ (VariantColumns []).1 = []) := by
  refine ⟨?_, ?_, by decide⟩
  · intro h
    have e := articleRelations_ok rel h
    refine ⟨e, ?_, ?_⟩
    · rw [e]
      have hs : ((relationCandidates rel).filter (fun r => decide (r.columns ≠ []))).Sublist
          (relationCandidates rel) := List.filter_sublist _
      exact hs.map (fun r => r.name)
    · intro r hr
      rw [e]
      simp [List.mem_filter, hr]
  · intro h
    obtain ⟨pre, st, rest, h1, h2, h3⟩ := find_first_some (relationErrors rel) h
    exact ⟨pre, st, rest, h1, h2, articleRelations_err rel st h3⟩

/-- C26 at concrete requests: three of five relations requested; two field
lists that do not resolve, of which the first in the fixed order is reported. -/
theorem C26_relations_fixed_order_witness :
    (articleRelations relThree).1.map (fun r => r.name) = ["images", "categories", "variants"] ∧
    (∃ pre st rest, relationErrors relTwoUnknown = pre ++ some st :: rest ∧
      (∀ x ∈ pre, x = none) ∧ articleRelations relTwoUnknown = ([], some st)) ∧
    articleRelations relTwoUnknown =
      ([], some (status.Error codes.Code.Unimplemented "Field 99 not defined")) :=
  ⟨by decide,
   (C26_relations_fixed_order relTwoUnknown).2.1
     ⟨some (status.Error codes.Code.Unimplemented "Field 99 not defined"), by decide, by simp⟩,
   by decide⟩

end builder

/-! ## The joins of a relation -/

namespace builder

/-- C27: for every relation and schema, `relation.joins` is the single join
`left join <schema>.<name> r on r.<id> = arts.id` when the relation has no join
table, and otherwise the two joins
`left join <schema>.<joinTable> j on j.<joinIDs[0]> = arts.id` and
`left join <schema>.<name> r on r.<id> = j.<joinIDs[1]>`, in this order on two
lines. `relation.build` wraps these joins in a subquery named by the given
alias, whose object keys are the columns of the relation in order, and returns
the relation name paired with `<alias>.js`. Of the relations of an article the
ones without a join table join on their own `article_id`, and the ones with a
join table join on the `id` of the target table. -/
theorem C27_relation_joins (r : relation) (schema aliasName : String) :
    (r.joinTable = "" →
      r.joins schema =
        "left join " ++ schema ++ "." ++ r.name ++ " r on r." ++ r.id ++ " = arts.id") ∧
    (r.joinTable ≠ "" →
      r.joins schema =
        Join ["left join " ++ schema ++ "." ++ r.joinTable ++ " j on j." ++ r.joinIDs.1 ++
                " = arts.id",
              "left join " ++ schema ++ "." ++ r.name ++ " r on r." ++ r.id ++ " = j." ++
                r.joinIDs.2] "\n\t" ∧
      r.joins schema =
        "left join " ++ schema ++ "." ++ r.joinTable ++ " j on j." ++ r.joinIDs.1 ++
          " = arts.id\n\tleft join " ++ schema ++ "." ++ r.name ++ " r on r." ++ r.id ++
          " = j." ++ r.joinIDs.2) ∧
    (r.build schema aliasName).1 =
      aliasName ++ " as (\n\tselect arts.id, coalesce(json_agg(\n\t\tjson_build_object(\n\t\t\t" ++
        Join (r.columns.flatMap (fun c => ["'" ++ c ++ "'", jboCast "r" c])) ", " ++
        "\n\t\t)\n\t) filter (where r.id is not null), null::JSON) as js\n\tfrom arts\n\t" ++
        r.joins schema ++ "\n\tgroup by arts.id\n)" ∧
    jboKeys (r.columns.flatMap (fun c => ["'" ++ c ++ "'", jboCast "r" c])) =
      r.columns.map (fun c => "'" ++ c ++ "'") ∧
    (r.build schema aliasName).2 = ["'" ++ r.name ++ "'", aliasName ++ ".js"] ∧
    (∀ rel : shop.ArticleRelations, ∀ x ∈ (articleRelations rel).1,
      (x.joinTable = "" ∧ x.id = "article_id") ∨
        (x.joinTable ≠ "" ∧ x.id = "id" ∧ x.joinIDs.1 = "article_id")) := by
  refine ⟨?_, ?_, ?_, ?_, ?_, ?_⟩
  · intro h
    simp only [relation.joins, h, if_true, leftJoin, String.append_assoc]
    have e : " r on r." = " " ++ ("r" ++ (" on " ++ ("r" ++ "."))) := by decide
    have e2 : " = arts.id" = " = " ++ ("arts" ++ ("." ++ "id")) := by decide
    rw [e, e2]
    simp only [String.append_assoc]
  · intro h
    have e : " j on j." = " " ++ ("j" ++ (" on " ++ ("j" ++ "."))) := by decide
    have e2 : " = arts.id" = " = " ++ ("arts" ++ ("." ++ "id")) := by decide
    have e3 : " r on r." = " " ++ ("r" ++ (" on " ++ ("r" ++ "."))) := by decide
    have e4 : " = j." = " = " ++ ("j" ++ ".") := by decide
    have e5 : " = arts.id\n\tleft join " = " = " ++ ("arts" ++ ("." ++ ("id" ++ ("\n\t" ++ "left join ")))) := by
      decide
    constructor
    · simp only [relation.joins, h, if_false, leftJoin, String.append_assoc]
      rw [e, e2, e3, e4]
      simp only [String.append_assoc]
    · simp only [relation.joins, h, if_false, leftJoin, String.append_assoc, Join]
      rw [e, e5, e3, e4]
      simp only [String.append_assoc]
  · rw [build_eq]
    simp only [namedSubquery, relationBody, String.append_assoc]
    have e : " as (\n\tselect arts.id, coalesce(json_agg(\n\t\tjson_build_object(\n\t\t\t" =
        " as (" ++ "\n\tselect arts.id, coalesce(json_agg(\n\t\tjson_build_object(\n\t\t\t" := by
      decide
    have e2 : "\n\tgroup by arts.id\n)" = "\n\tgroup by arts.id\n" ++ ")" := by decide
    rw [e, e2]
    simp only [String.append_assoc]
  · have h := jboKeys_flatMap (fun c => "'" ++ c ++ "'") (fun c => jboCast "r" c) r.columns []
    simpa [jboKeys] using h
  · rw [build_eq]
  · intro rel x hx
    by_cases herr : ∀ e ∈ relationErrors rel, e = none
    · rw [articleRelations_ok rel herr] at hx
      have hx2 := (List.mem_filter.mp hx).1
      simp only [relationCandidates, List.mem_cons, List.mem_singleton, List.not_mem_nil,
        or_false] at hx2
      rcases hx2 with h | h | h | h | h <;> subst h <;> simp
    · have h2 : ∃ e ∈ relationErrors rel, e ≠ none := by
        by_contra hc
        apply herr
        intro e he
        by_contra hne
        exact hc ⟨e, he, hne⟩
      obtain ⟨pre, st, rest, _, _, h3⟩ := find_first_some (relationErrors rel) h2
      rw [articleRelations_err rel st h3] at hx
      simp at hx

end builder

/-! ## The schema of the table references -/

namespace builder

/-- The head of a joined list. -/
theorem Join_cons_head (x : String) (rest : List String) (sep : String) :
    ∃ tail, Join (x :: rest) sep = x ++ tail := by
  cases rest with
  | nil => exact ⟨"", by simp [Join]⟩
  | cons y ys => exact ⟨sep ++ Join (y :: ys) sep, by simp [Join, String.append_assoc]⟩

/-- A text that begins with `k` contains `k`. -/
theorem contains_here (k b : String) : ∃ pre post, k ++ b = pre ++ (k ++ post) :=
  ⟨"", b, by simp⟩

/-- A text contains `k` when a tail of it does. -/
theorem contains_tail (a s k : String) (h : ∃ pre post, s = pre ++ (k ++ post)) :
    ∃ pre post, a ++ s = pre ++ (k ++ post) := by
  obtain ⟨pre, post, e⟩ := h
  exact ⟨a ++ pre, post, by rw [e]; simp only [String.append_assoc]⟩

/-- C28 (the code at the failing input): for the conditions of the test
"Published articles in category with images" and the schema "public", the
statement of `ArticleListQuery` qualifies the articles table of the `filters`
subquery, the category tables of the filter fragment and the images table with
"public", but the `arts` subquery joins `shop.articles`. The format string
`mainCTE` writes the schema argument into the `filters` subquery only and has
the text `shop.articles` in the `arts` subquery, so every statement that
`ArticleListQuery` builds, for every schema, joins `shop.articles` there. -/
theorem C28_arts_schema_fixed :
    (ArticleListQuery 25 condSpanac "public").err = none ∧
    (ArticleListQuery 25 condSpanac "public").query =
      "with filters as (\n\tselect m.id\n\tfrom public.articles m\n\tjoin public.category_articles ac on ac.article_id = m.id\n\tjoin public.categories c on c.id = ac.category_id\n\twhere m.published\n\tand c.label = $1\n),\narts as (\n\tselect a.id, a.title, a.price, a.promoted\n\tfrom filters f\n\tjoin shop.articles a on a.id = f.id\n\tlimit 25\n\toffset 0\n),\nr0 as (\n\tselect arts.id, coalesce(json_agg(\n\t\tjson_build_object(\n\t\t\t'url', r.url, 'label', r.label\n\t\t)\n\t) filter (where r.id is not null), null::JSON) as js\n\tfrom arts\n\tleft join public.images r on r.article_id = arts.id\n\tgroup by arts.id\n)\nselect json_agg(\n\tjson_build_object(\n\t\t'id', a.id, 'title', a.title, 'price', a.price::text, 'promoted', a.promoted, 'images', r0.js\n\t)\n)\nfrom arts a\njoin r0 on a.id = r0.id;" ∧
    (∀ schema name filters sel limits : String,
      mainCTE schema name filters sel limits =
        "filters as (\n\tselect m.id\n\tfrom " ++ schema ++ "." ++ name ++ " m\n\t" ++ filters ++
          "\n),\narts as (\n\tselect " ++ sel ++ "\n\tfrom filters f\n\tjoin " ++
          "shop.articles" ++ " a on a.id = f.id\n\t" ++ limits ++ "\n)") ∧
    (∀ (DL : Int) (cond : shop.ListConditions) (schema : String),
      (ArticleListQuery DL cond schema).err = none →
      ∃ pre post, (ArticleListQuery DL cond schema).query =
        pre ++ "\n\tfrom filters f\n\tjoin shop.articles a on a.id = f.id\n\t" ++ post) := by
  refine ⟨by decide, by rfl, ?_, ?_⟩
  · intro schema name filters sel limits
    simp only [mainCTE, String.append_assoc]
    have e : "\n\tfrom filters f\n\tjoin shop.articles a on a.id = f.id\n\t" =
        "\n\tfrom filters f\n\tjoin " ++ ("shop.articles" ++ " a on a.id = f.id\n\t") := by decide
    rw [e]
    simp only [String.append_assoc]
  · intro DL cond schema herr
    rw [(ArticleListQuery_ok DL cond schema herr).1]
    simp only [list.query, vars_eq]
    obtain ⟨tail, ht⟩ := Join_cons_head
      (mainCTE schema models.TableNames.Articles (filters (defaults DL cond).cond schema).1
        (Join ("a.id" ::
          ((ArticleColumns (defaults DL cond).fields).1.filter (fun c => decide (c ≠ "id"))).map
            (fun c => "a." ++ c)) ", ")
        (if (defaults DL cond).limits.Limit ≠ 0 then
          "limit " ++ toString (defaults DL cond).limits.Limit ++ "\n\toffset " ++
            toString (defaults DL cond).limits.Offset
         else ""))
      ((articleRelations (defaults DL cond).relations).1.enum.map
        (fun p => (p.2.build schema ("r" ++ toString p.1)).1)) ",\n"
    rw [ht]
    simp only [listQuery, mainCTE, String.append_assoc]
    repeat (first
      | exact contains_here "\n\tfrom filters f\n\tjoin shop.articles a on a.id = f.id\n\t" _
      | apply contains_tail)

end builder

/-! ## Filter values and the SQL text -/

namespace builder

/-- The statement and the error of `ArticleListQuery` depend on the conditions
through the defaulted fields, relations and limits and through the filter
fragment only. -/
theorem ArticleListQuery_query_congr (DL : Int) (c1 c2 : shop.ListConditions) (schema : String)
    (hf : (defaults DL c1).fields = (defaults DL c2).fields)
    (hr : (defaults DL c1).relations = (defaults DL c2).relations)
    (hl : (defaults DL c1).limits = (defaults DL c2).limits)
    (hq : (filters (defaults DL c1).cond schema).1 = (filters (defaults DL c2).cond schema).1) :
    (ArticleListQuery DL c1 schema).query = (ArticleListQuery DL c2 schema).query ∧
      (ArticleListQuery DL c1 schema).err = (ArticleListQuery DL c2 schema).err := by
  simp only [ArticleListQuery, hf, hr, hl, hq]
  rcases h0 : (ArticleColumns (defaults DL c2).fields).2 with _ | e0
  · rcases h1 : (articleRelations (defaults DL c2).relations).2 with _ | e1 <;> simp
  · simp

/-- The filter fragment does not depend on the value of a non-empty category
label. -/
theorem filters_label (c : shop.ListConditions) (schema l1 l2 : String) (h1 : l1 ≠ "")
    (h2 : l2 ≠ "") :
    (filters { c with OnlyCategoryLabel := l1 } schema).1 =
      (filters { c with OnlyCategoryLabel := l2 } schema).1 := by
  rcases hp : c.OnlyPublished <;> rcases hq : c.OnlyPromoted <;>
    by_cases hc : c.OnlyCategoryId = 0 <;>
    simp [filters, filtersVars, hp, hq, hc, h1, h2]

/-- The filter fragment does not depend on the value of a non-zero category
id. -/
theorem filters_id (c : shop.ListConditions) (schema : String) (i1 i2 : Int) (h1 : i1 ≠ 0)
    (h2 : i2 ≠ 0) :
    (filters { c with OnlyCategoryId := i1 } schema).1 =
      (filters { c with OnlyCategoryId := i2 } schema).1 := by
  rcases hp : c.OnlyPublished <;> rcases hq : c.OnlyPromoted <;>
    simp [filters, filtersVars, hp, hq, h1, h2]

/-- The defaults do not look at the category label. -/
theorem defaults_label (DL : Int) (c : shop.ListConditions) (l : String) :
    (defaults DL { c with OnlyCategoryLabel := l }).fields = (defaults DL c).fields ∧
    (defaults DL { c with OnlyCategoryLabel := l }).relations = (defaults DL c).relations ∧
    (defaults DL { c with OnlyCategoryLabel := l }).limits = (defaults DL c).limits ∧
    (defaults DL { c with OnlyCategoryLabel := l }).cond =
      { (defaults DL c).cond with OnlyCategoryLabel := l } := by
  rcases hl : c.Limits with _ | lim
  · simp [defaults, hl]
  · by_cases h0 : lim.Limit = 0 <;> simp [defaults, hl, h0]

/-- The defaults do not look at the category id. -/
theorem defaults_id (DL : Int) (c : shop.ListConditions) (i : Int) :
    (defaults DL { c with OnlyCategoryId := i }).fields = (defaults DL c).fields ∧
    (defaults DL { c with OnlyCategoryId := i }).relations = (defaults DL c).relations ∧
    (defaults DL { c with OnlyCategoryId := i }).limits = (defaults DL c).limits ∧
    (defaults DL { c with OnlyCategoryId := i }).cond =
      { (defaults DL c).cond with OnlyCategoryId := i } := by
  rcases hl : c.Limits with _ | lim
  · simp [defaults, hl]
  · by_cases h0 : lim.Limit = 0 <;> simp [defaults, hl, h0]

/-- C29: filter values of the client do not reach the SQL text. For two
conditions that differ only in the value of a non-empty category label, or only
in the value of a non-zero category id, `ArticleListQuery` returns the same SQL
text byte for byte (and the same error); the value is handed on in the
positional argument list only: a non-zero category id is the single argument,
and a non-empty category label is the single argument when no category id is
set. -/
theorem C29_values_only_in_args (DL : Int) (cond : shop.ListConditions) (schema : String)
    (l1 l2 : String) (i1 i2 : Int) (hl1 : l1 ≠ "") (hl2 : l2 ≠ "") (hi1 : i1 ≠ 0)
    (hi2 : i2 ≠ 0) :
    (ArticleListQuery DL { cond with OnlyCategoryLabel := l1 } schema).query =
      (ArticleListQuery DL { cond with OnlyCategoryLabel := l2 } schema).query ∧
    (ArticleListQuery DL { cond with OnlyCategoryLabel := l1 } schema).err =
      (ArticleListQuery DL { cond with OnlyCategoryLabel := l2 } schema).err ∧
    (ArticleListQuery DL { cond with OnlyCategoryId := i1 } schema).query =
      (ArticleListQuery DL { cond with OnlyCategoryId := i2 } schema).query ∧
    (ArticleListQuery DL { cond with OnlyCategoryId := i1 } schema).err =
      (ArticleListQuery DL { cond with OnlyCategoryId := i2 } schema).err ∧
    ((ArticleListQuery DL { cond with OnlyCategoryId := i1 } schema).err = none →
      (ArticleListQuery DL { cond with OnlyCategoryId := i1 } schema).args = [Arg.int32 i1]) ∧
    (cond.OnlyCategoryId = 0 →
      (ArticleListQuery DL { cond with OnlyCategoryLabel := l1 } schema).err = none →
      (ArticleListQuery DL { cond with OnlyCategoryLabel := l1 } schema).args =
        [Arg.string l1]) := by
  obtain ⟨a1, a2, a3, a4⟩ := defaults_label DL cond l1
  obtain ⟨b1, b2, b3, b4⟩ := defaults_label DL cond l2
  obtain ⟨c1, c2, c3, c4⟩ := defaults_id DL cond i1
  obtain ⟨d1, d2, d3, d4⟩ := defaults_id DL cond i2
  have hq := ArticleListQuery_query_congr DL { cond with OnlyCategoryLabel := l1 }
    { cond with OnlyCategoryLabel := l2 } schema (a1.trans b1.symm) (a2.trans b2.symm)
    (a3.trans b3.symm) (by rw [a4, b4]; exact filters_label _ schema l1 l2 hl1 hl2)
  have hi := ArticleListQuery_query_congr DL { cond with OnlyCategoryId := i1 }
    { cond with OnlyCategoryId := i2 } schema (c1.trans d1.symm) (c2.trans d2.symm)
    (c3.trans d3.symm) (by rw [c4, d4]; exact filters_id _ schema i1 i2 hi1 hi2)
  refine ⟨hq.1, hq.2, hi.1, hi.2, ?_, ?_⟩
  · intro herr
    rw [(ArticleListQuery_ok DL _ schema herr).2, c4]
    rcases hp : (defaults DL cond).cond.OnlyPublished <;>
      rcases hq : (defaults DL cond).cond.OnlyPromoted <;>
      simp [filters, filtersVars, hp, hq, hi1]
  · intro h0 herr
    rw [(ArticleListQuery_ok DL _ schema herr).2, a4]
    have h0d : (defaults DL cond).cond.OnlyCategoryId = 0 := by
      rcases hl : cond.Limits with _ | lim
      · simp [defaults, hl, h0]
      · by_cases hz : lim.Limit = 0 <;> simp [defaults, hl, hz, h0]
    rcases hp : (defaults DL cond).cond.OnlyPublished <;>
      rcases hq : (defaults DL cond).cond.OnlyPromoted <;>
      simp [filters, filtersVars, hp, hq, hl1, h0d]

/-- C29 (witness): the labels "spanac" and "x' or 1=1 --" and the category ids
1 and 2 on the empty conditions. -/
theorem C29_values_only_in_args_witness :
    (ArticleListQuery 25 { condEmpty with OnlyCategoryLabel := "spanac" } "shop").query =
      (ArticleListQuery 25 { condEmpty with OnlyCategoryLabel := "x' or 1=1 --" } "shop").query ∧
    (ArticleListQuery 25 { condEmpty with OnlyCategoryId := 1 } "shop").query =
      (ArticleListQuery 25 { condEmpty with OnlyCategoryId := 2 } "shop").query ∧
    (ArticleListQuery 25 { condEmpty with OnlyCategoryId := 1 } "shop").args = [Arg.int32 1] ∧
    (ArticleListQuery 25 { condEmpty with OnlyCategoryLabel := "spanac" } "shop").args =
      [Arg.string "spanac"] :=
  have h := C29_values_only_in_args 25 condEmpty "shop" "spanac" "x' or 1=1 --" 1 2
    (by decide) (by decide) (by decide) (by decide)
  ⟨h.1, h.2.2.1, h.2.2.2.2.1 (by decide), h.2.2.2.2.2 (by decide) (by decide)⟩

end builder

/-! ## Commit of the write operations -/

namespace server

/-- A chain that ends in success passed its first step without error. -/
theorem step_ok {σ α β : Type} (r : σ × Except goError α) (k : σ → α → σ × Except goError β)
    (st : σ) (b : β) (h : step r k = (st, Except.ok b)) :
    ∃ a, r.2 = Except.ok a ∧ k r.1 a = (st, Except.ok b) := by
  unfold step at h
  split at h
  · cases h
  · next a ha => exact ⟨a, ha, h⟩

/-- A chain that ends in success passed its first step without error. -/
theorem stepErr_ok {σ β : Type} (r : σ × Option goError) (k : σ → σ × Except goError β)
    (st : σ) (b : β) (h : stepErr r k = (st, Except.ok b)) :
    r.2 = none ∧ k r.1 = (st, Except.ok b) := by
  unfold stepErr at h
  split at h
  · cases h
  · next ha => exact ⟨ha, h⟩

/-- An operation that ends in success returned from its body in success. -/
theorem deferDone_ok {σ β : Type} (rt : requestTx σ) (r : σ × Except goError β) (st : Option σ)
    (b : β) (h : deferDone rt r = (st, Except.ok b)) :
    ∃ t, r = (t, Except.ok b) ∧ st = some (rt.Done t) := by
  unfold deferDone at h
  simp only [Prod.mk.injEq] at h
  exact ⟨r.1, Prod.ext rfl h.2, h.1.symm⟩

/-- A chain whose last step is a checked commit ends in success only when the
commit succeeded. -/
theorem commit_checked {σ β : Type} (rt : requestTx σ) (t st : σ) (x b : β)
    (h : stepErr (rt.Commit t) (fun t => (t, Except.ok x)) = (st, Except.ok b)) :
    (rt.Commit t).2 = none ∧ st = (rt.Commit t).1 := by
  obtain ⟨h1, h2⟩ := stepErr_ok _ _ _ _ h
  simp only [Prod.mk.injEq] at h2
  exact ⟨h1, h2.1.symm⟩

/-- The operation `SaveArticle` answers with success only after a commit that
succeeded. -/
theorem SaveArticle_commit {σ : Type} (s : shopServer σ) (req : shop.Article) (st : Option σ)
    (resp : shop.ArticleID) (h : SaveArticle s req = (st, Except.ok resp)) :
    ∃ t, (s.rt.Commit t).2 = none ∧ st = some (s.rt.Done (s.rt.Commit t).1) := by
  unfold SaveArticle at h
  split at h
  · cases h
  · obtain ⟨t, h, hst⟩ := deferDone_ok _ _ _ _ h
    obtain ⟨art, _, h⟩ := step_ok _ _ _ _ h
    obtain ⟨_, h⟩ := stepErr_ok _ _ _ _ h
    obtain ⟨_, h⟩ := stepErr_ok _ _ _ _ h
    obtain ⟨_, h⟩ := stepErr_ok _ _ _ _ h
    obtain ⟨_, h⟩ := stepErr_ok _ _ _ _ h
    obtain ⟨_, h⟩ := stepErr_ok _ _ _ _ h
    obtain ⟨hc, ht⟩ := commit_checked _ _ _ _ _ h
    exact ⟨_, hc, by rw [hst, ht]⟩

/-- The operation `DeleteArticle` answers with success only after a commit that
succeeded. -/
theorem DeleteArticle_commit {σ : Type} (s : shopServer σ) (req : shop.ArticleID)
    (st : Option σ) (resp : shop.Deleted) (h : DeleteArticle s req = (st, Except.ok resp)) :
    ∃ t, (s.rt.Commit t).2 = none ∧ st = some (s.rt.Done (s.rt.Commit t).1) := by
  unfold DeleteArticle at h
  split at h
  · cases h
  · obtain ⟨t, h, hst⟩ := deferDone_ok _ _ _ _ h
    simp only at h
    split at h
    · cases h
    · obtain ⟨ra, _, h⟩ := step_ok _ _ _ _ h
      obtain ⟨hc, ht⟩ := commit_checked _ _ _ _ _ h
      exact ⟨_, hc, by rw [hst, ht]⟩

/-- The operation `Checkout` answers with success only after a commit that
succeeded. -/
theorem Checkout_commit {σ : Type} (s : shopServer σ) (req : shop.Order) (st : Option σ)
    (resp : shop.OrderID) (h : Checkout s req = (st, Except.ok resp)) :
    ∃ t, (s.rt.Commit t).2 = none ∧ st = some (s.rt.Done (s.rt.Commit t).1) := by
  unfold Checkout at h
  split at h
  · cases h
  · obtain ⟨t, h, hst⟩ := deferDone_ok _ _ _ _ h
    obtain ⟨order, _, h⟩ := step_ok _ _ _ _ h
    obtain ⟨_, h⟩ := stepErr_ok _ _ _ _ h
    obtain ⟨enc, _, h⟩ := step_ok _ _ _ _ h
    obtain ⟨hc, ht⟩ := commit_checked _ _ _ _ _ h
    exact ⟨_, hc, by rw [hst, ht]⟩

/-- The operation `SaveOrder` answers with success only after a commit that
succeeded. -/
theorem SaveOrder_commit {σ : Type} (s : shopServer σ) (req : shop.Order) (st : Option σ)
    (resp : shop.OrderID) (h : SaveOrder s req = (st, Except.ok resp)) :
    ∃ t, (s.rt.Commit t).2 = none ∧ st = some (s.rt.Done (s.rt.Commit t).1) := by
  unfold SaveOrder at h
  split at h
  · cases h
  · obtain ⟨t, h, hst⟩ := deferDone_ok _ _ _ _ h
    obtain ⟨order, _, h⟩ := step_ok _ _ _ _ h
    obtain ⟨_, h⟩ := stepErr_ok _ _ _ _ h
    obtain ⟨hc, ht⟩ := commit_checked _ _ _ _ _ h
    exact ⟨_, hc, by rw [hst, ht]⟩

/-- The operation `SaveCategories` answers with success only after a commit that
succeeded. -/
theorem SaveCategories_commit {σ : Type} (s : shopServer σ) (req : shop.CategoryList)
    (st : Option σ) (resp : shop.CategoryList)
    (h : SaveCategories s req = (st, Except.ok resp)) :
    ∃ t, (s.rt.Commit t).2 = none ∧ st = some (s.rt.Done (s.rt.Commit t).1) := by
  unfold SaveCategories at h
  split at h
  · cases h
  · obtain ⟨t, h, hst⟩ := deferDone_ok _ _ _ _ h
    obtain ⟨_, h⟩ := stepErr_ok _ _ _ _ h
    obtain ⟨list, _, h⟩ := step_ok _ _ _ _ h
    obtain ⟨hc, ht⟩ := commit_checked _ _ _ _ _ h
    exact ⟨_, hc, by rw [hst, ht]⟩

/-- The operation `SaveBasePrice` answers with success only after a commit that
succeeded. -/
theorem SaveBasePrice_commit {σ : Type} (s : shopServer σ) (sbp : shop.BasePrice)
    (st : Option σ) (resp : shop.BasePrice) (h : SaveBasePrice s sbp = (st, Except.ok resp)) :
    ∃ t, (s.rt.Commit t).2 = none ∧ st = some (s.rt.Done (s.rt.Commit t).1) := by
  unfold SaveBasePrice at h
  split at h
  · cases h
  · obtain ⟨t, h, hst⟩ := deferDone_ok _ _ _ _ h
    obtain ⟨x, _, h⟩ := step_ok _ _ _ _ h
    obtain ⟨hc, ht⟩ := commit_checked _ _ _ _ _ h
    exact ⟨_, hc, by rw [hst, ht]⟩

/-- The operation `DeleteBasePrice` answers with success only after a commit that
succeeded. -/
theorem DeleteBasePrice_commit {σ : Type} (s : shopServer σ) (sbp : shop.BasePrice)
    (st : Option σ) (resp : shop.Deleted) (h : DeleteBasePrice s sbp = (st, Except.ok resp)) :
    ∃ t, (s.rt.Commit t).2 = none ∧ st = some (s.rt.Done (s.rt.Commit t).1) := by
  unfold DeleteBasePrice at h
  split at h
  · cases h
  · obtain ⟨t, h, hst⟩ := deferDone_ok _ _ _ _ h
    obtain ⟨x, _, h⟩ := step_ok _ _ _ _ h
    obtain ⟨hc, ht⟩ := commit_checked _ _ _ _ _ h
    exact ⟨_, hc, by rw [hst, ht]⟩

/-- The operation `SendMessage` answers the same when the error of its commit is
dropped. -/
theorem SendMessage_commit_unchecked {σ : Type} (s : shopServer σ) (sm : shop.Message) :
    SendMessage s sm = SendMessage (commitErrorDropped s) sm := by
  rfl

/-- C30 (the code at the failing input): on a server whose steps all succeed
and whose commit fails, `SendMessage` called with the message of the test
"Success" runs its two steps and the commit and answers with the success
response `MessageID{Id: 1}`; for every server and message its answer is the
same when the error of the commit is dropped. The seven other write operations
return the error of the commit on that server, and for every server they answer
with success only after a commit that returned no error. On the logging server
no operation, `SendMessage` included, calls `Commit` when one of its steps
fails. -/
theorem C30_commit_result_ignored :
    SendMessage (logServer "" (some errCommit)) testMessage =
      (some ["newMessage", "sendMail", "Commit", "Done"], Except.ok { Id := 1 }) ∧
    (∀ (σ : Type) (s : shopServer σ) (sm : shop.Message),
      SendMessage s sm = SendMessage (commitErrorDropped s) sm) ∧
    ((SaveArticle (logServer "" (some errCommit)) reqArticle).2 = Except.error errCommit ∧
     (DeleteArticle (logServer "" (some errCommit)) reqArticleID).2 = Except.error errCommit ∧
     (Checkout (logServer "" (some errCommit)) reqOrder).2 = Except.error errCommit ∧
     (SaveOrder (logServer "" (some errCommit)) reqOrder).2 = Except.error errCommit ∧
     (SaveCategories (logServer "" (some errCommit)) reqCategories).2 =
       Except.error errCommit ∧
     (SaveBasePrice (logServer "" (some errCommit)) reqBasePrice).2 = Except.error errCommit ∧
     (DeleteBasePrice (logServer "" (some errCommit)) reqBasePrice).2 =
       Except.error errCommit) ∧
    (∀ (σ : Type) (s : shopServer σ) (st : Option σ),
      (∀ req resp, SaveArticle s req = (st, Except.ok resp) →
        ∃ t, (s.rt.Commit t).2 = none ∧ st = some (s.rt.Done (s.rt.Commit t).1)) ∧
      (∀ req resp, DeleteArticle s req = (st, Except.ok resp) →
        ∃ t, (s.rt.Commit t).2 = none ∧ st = some (s.rt.Done (s.rt.Commit t).1)) ∧
      (∀ req resp, Checkout s req = (st, Except.ok resp) →
        ∃ t, (s.rt.Commit t).2 = none ∧ st = some (s.rt.Done (s.rt.Commit t).1)) ∧
      (∀ req resp, SaveOrder s req = (st, Except.ok resp) →
        ∃ t, (s.rt.Commit t).2 = none ∧ st = some (s.rt.Done (s.rt.Commit t).1)) ∧
      (∀ req resp, SaveCategories s req = (st, Except.ok resp) →
        ∃ t, (s.rt.Commit t).2 = none ∧ st = some (s.rt.Done (s.rt.Commit t).1)) ∧
      (∀ req resp, SaveBasePrice s req = (st, Except.ok resp) →
        ∃ t, (s.rt.Commit t).2 = none ∧ st = some (s.rt.Done (s.rt.Commit t).1)) ∧
      (∀ req resp, DeleteBasePrice s req = (st, Except.ok resp) →
        ∃ t, (s.rt.Commit t).2 = none ∧ st = some (s.rt.Done (s.rt.Commit t).1))) ∧
    ((∀ fail ∈ ["upsertArticle", "setArticleCategories", "setArticleBasePrices",
          "updateVariants", "updateImages", "updateVideos"],
        "Commit" ∉ logOf (SaveArticle (logServer fail none) reqArticle)) ∧
     (∀ fail ∈ ["deleteArticle"],
        "Commit" ∉ logOf (DeleteArticle (logServer fail none) reqArticleID)) ∧
     (∀ fail ∈ ["newOrder", "sendOrderMail", "encryptOrder"],
        "Commit" ∉ logOf (Checkout (logServer fail none) reqOrder)) ∧
     (∀ fail ∈ ["saveOrder", "sendOrderMail"],
        "Commit" ∉ logOf (SaveOrder (logServer fail none) reqOrder)) ∧
     (∀ fail ∈ ["saveCategories", "listCategories"],
        "Commit" ∉ logOf (SaveCategories (logServer fail none) reqCategories)) ∧
     (∀ fail ∈ ["upsertBasePrice"],
        "Commit" ∉ logOf (SaveBasePrice (logServer fail none) reqBasePrice)) ∧
     (∀ fail ∈ ["deleteBasePrice"],
        "Commit" ∉ logOf (DeleteBasePrice (logServer fail none) reqBasePrice)) ∧
     (∀ fail ∈ ["newMessage", "sendMail"],
        "Commit" ∉ logOf (SendMessage (logServer fail none) testMessage))) := by
  refine ⟨by rfl, fun σ s sm => SendMessage_commit_unchecked s sm,
    ⟨by rfl, by rfl, by rfl, by rfl, by rfl, by rfl, by rfl⟩, ?_, ?_⟩
  · intro σ s st
    exact ⟨fun req resp h => SaveArticle_commit s req st resp h,
      fun req resp h => DeleteArticle_commit s req st resp h,
      fun req resp h => Checkout_commit s req st resp h,
      fun req resp h => SaveOrder_commit s req st resp h,
      fun req resp h => SaveCategories_commit s req st resp h,
      fun req resp h => SaveBasePrice_commit s req st resp h,
      fun req resp h => DeleteBasePrice_commit s req st resp h⟩
  · refine ⟨?_, ?_, ?_, ?_, ?_, ?_, ?_, ?_⟩ <;> decide

end server
